import Mathlib

/-!
# VoteByte: candidacy lifecycle

A shallow embedding of the candidate entity (`backend/models/Candidate.js`), of the
candidacy lifecycle manager (`backend/services/candidateService.js`) with its controllers
(`backend/controllers/candidateController.js`), of the result aggregation
(`backend/models/CandidateResult.js`, `backend/models/ElectionResultSummary.js`,
`backend/services/resultService.js`) and of the verification codes
(`backend/services/verificationService.js`) of the VoteByte voting system, followed by
theorems about them.

JavaScript values are embedded as the type `JsValue` of primitive values; the operators
the source applies to them (`!`, `&&`, `||`, `<`, `>`, `<=`, `>=`, `Array.prototype.includes`)
are embedded with their ECMAScript meaning.  The relational store behind the Prisma client
is embedded as a record of tables (lists of rows); every service operation is a function
from a store to a result together with the store it leaves behind, so that a failure after
a first write is visible.
-/

namespace VoteByte

/-! ## JavaScript values -/

/-- A JavaScript number: a finite value, one of the two infinities, or NaN.  A finite value is
held as the rational it denotes (every binary64 value is a rational); negative zero is
identified with zero, which no operator used by the source distinguishes. -/
inductive JsNumber where
  | nan
  | posInf
  | negInf
  | finite (q : ℚ)
  deriving DecidableEq

/-- A primitive JavaScript value. -/
inductive JsValue where
  | undefined
  | null
  | bool (b : Bool)
  | num (n : JsNumber)
  | str (s : String)
  deriving DecidableEq

/-- The number literal `k` of the source text. -/
def JsNumber.ofInt (k : Int) : JsNumber := .finite (k : ℚ)

/-- The result of the abstract relational comparison `x < y` on numbers: `none` is the
specification's `undefined`, produced when either operand is NaN. -/
def JsNumber.lessThan : JsNumber → JsNumber → Option Bool
  | .nan, _ => none
  | _, .nan => none
  | .posInf, _ => some false
  | .negInf, .negInf => some false
  | .negInf, _ => some true
  | .finite _, .posInf => some true
  | .finite _, .negInf => some false
  | .finite a, .finite b => some (decide (a < b))

/-! ## Binary64 numbers

JavaScript numbers are the numbers of the binary64 floating-point format.  A real number is
converted to the nearest number of the format, ties to the even significand. -/

/-- The position of the highest set bit of `n` (the floor of its binary logarithm), `0` for
`n < 2`; `fuel` bounds the number of halvings. -/
def floorLog2With (fuel n : Nat) : Nat :=
  match fuel with
  | 0 => 0
  | fuel + 1 => if n < 2 then 0 else floorLog2With fuel (n / 2) + 1

/-- The floor of the binary logarithm of `n`. -/
def floorLog2 (n : Nat) : Nat := floorLog2With n n

/-- A finite number of the binary64 format: `mantissa * 2 ^ exponent`, negated when `negative`
is set. -/
structure Binary64 where
  negative : Bool := false
  mantissa : Nat
  exponent : Int
  deriving DecidableEq

namespace Binary64

/-- The value of the number. -/
def toRat (x : Binary64) : ℚ :=
  (if x.negative then -1 else 1) * (x.mantissa : ℚ) * (2 : ℚ) ^ x.exponent

/-- The magnitude of the number as a fraction `numerator / denominator` of naturals. -/
def magnitude (x : Binary64) : Nat × Nat :=
  if 0 ≤ x.exponent then (x.mantissa * 2 ^ x.exponent.toNat, 1)
  else (x.mantissa, 2 ^ (-x.exponent).toNat)

/-- The number of the format nearest to `num / den` (`den > 0`), with the given sign: the
quotient is scaled into `[2 ^ 52, 2 ^ 53)` and rounded to an integer, ties to even. -/
def round (negative : Bool) (num den : Nat) : Binary64 :=
  if num = 0 then { negative := negative, mantissa := 0, exponent := 0 } else
  let k := floorLog2 num
  let l := floorLog2 den
  let top : Int := if den * 2 ^ k ≤ num * 2 ^ l then (k : Int) - l else (k : Int) - l - 1
  let e : Int := top - 52
  let scaledNum := if e ≤ 0 then num * 2 ^ (-e).toNat else num
  let scaledDen := if e ≤ 0 then den else den * 2 ^ e.toNat
  let q := scaledNum / scaledDen
  let r := scaledNum % scaledDen
  let m :=
    if 2 * r < scaledDen then q
    else if scaledDen < 2 * r then q + 1
    else if q % 2 = 0 then q else q + 1
  { negative := negative, mantissa := m, exponent := e }

/-- The number of an integer value (exact below `2 ^ 53`). -/
def ofInt (i : Int) : Binary64 := round (decide (i < 0)) i.natAbs 1

/-- The operator `x / y` for `y` other than zero. -/
def div (x y : Binary64) : Binary64 :=
  round (x.negative != y.negative) (x.magnitude.1 * y.magnitude.2)
    (x.magnitude.2 * y.magnitude.1)

/-- The operator `x * y`. -/
def mul (x y : Binary64) : Binary64 :=
  round (x.negative != y.negative) (x.magnitude.1 * y.magnitude.1)
    (x.magnitude.2 * y.magnitude.2)

/-- The number of the format nearest to `num / den` (`den > 0`) within the exponent range of
the format, with the given sign.  Below `2 ^ (-1022)` the numbers of the format are the
multiples of `2 ^ (-1074)`, and the quotient is rounded to the nearest of them (ties to the
even multiple); `none` when the rounded magnitude reaches `2 ^ 1024`, for which the format has
only an infinity. -/
def roundInRange (negative : Bool) (num den : Nat) : Option Binary64 :=
  let x := round negative num den
  if x.exponent < -1074 then
    let scaledNum := num * 2 ^ 1074
    let q := scaledNum / den
    let r := scaledNum % den
    let m :=
      if 2 * r < den then q
      else if den < 2 * r then q + 1
      else if q % 2 = 0 then q else q + 1
    some { negative := negative, mantissa := m, exponent := -1074 }
  else if 971 < x.exponent ∨ (x.exponent = 971 ∧ 2 ^ 53 ≤ x.mantissa) then none
  else some x

/-- The number denoted by the string `x.toFixed(2)`, in hundredths: the integer `n` for which
`n / 100` is nearest to the exact value of `x`, the larger in magnitude of two such. -/
def toFixed2 (x : Binary64) : Int :=
  let n : Nat := (200 * x.magnitude.1 + x.magnitude.2) / (2 * x.magnitude.2)
  if x.negative then - (n : Int) else (n : Int)

end Binary64

/-- The JavaScript number of a finite number of the format (negative zero is zero). -/
def JsNumber.ofBinary64 (x : Binary64) : JsNumber :=
  .finite (mkRat (if x.negative then - (x.magnitude.1 : Int) else (x.magnitude.1 : Int))
    x.magnitude.2)

/-- The Number value of the real number `num / den` (`den > 0`), negated when `negative` is
set: the nearest number of the format, an infinity when that is out of range. -/
def JsNumber.ofQuotient (negative : Bool) (num den : Nat) : JsNumber :=
  match Binary64.roundInRange negative num den with
  | none => if negative then .negInf else .posInf
  | some x => .ofBinary64 x

/-- White space and line terminators that `StringToNumber` strips from both ends. -/
def isStrWhiteSpace (c : Char) : Bool :=
  let n := c.toNat
  n = 9 || n = 10 || n = 11 || n = 12 || n = 13 || n = 32 || n = 160 || n = 5760 ||
  (8192 ≤ n && n ≤ 8202) || n = 8232 || n = 8233 || n = 8239 || n = 8287 || n = 12288 ||
  n = 65279

/-- The value of a run of digits in the given radix (`none` if a character is not a digit of
that radix, or the run is empty). -/
def digitsValue (radix : Nat) (cs : List Char) : Option Nat :=
  if cs = [] then none else
  cs.foldl (fun acc c =>
    match acc with
    | none => none
    | some n =>
      let d : Option Nat :=
        if c.isDigit then some (c.toNat - 48)
        else if 'a'.toNat ≤ c.toNat ∧ c.toNat ≤ 'f'.toNat then some (c.toNat - 87)
        else if 'A'.toNat ≤ c.toNat ∧ c.toNat ≤ 'F'.toNat then some (c.toNat - 55)
        else none
      match d with
      | some v => if v < radix then some (radix * n + v) else none
      | none => none) (some 0)

/-- The exponent part of a decimal literal: empty, or `e`/`E` followed by a signed integer. -/
def exponentPart (cs : List Char) : Option Int :=
  match cs with
  | [] => some 0
  | c :: rest =>
    if c = 'e' ∨ c = 'E' then
      match rest with
      | '+' :: ds => (digitsValue 10 ds).map Int.ofNat
      | '-' :: ds => (digitsValue 10 ds).map (fun n => - Int.ofNat n)
      | ds => (digitsValue 10 ds).map Int.ofNat
    else none

/-- The mathematical value of an unsigned decimal literal: no literal at all, `Infinity`, or
the quotient `num / den` of naturals. -/
inductive StrDecimalLiteral where
  | notNumeric
  | infinity
  | quotient (num den : Nat)
  deriving DecidableEq

/-- The grammar production `StrUnsignedDecimalLiteral`: `Infinity`, or digits with an optional
fraction and an optional exponent; the value `mantissa * 10 ^ (e - fractionDigits)` is given
as a quotient of naturals. -/
def strUnsignedDecimal (cs : List Char) : StrDecimalLiteral :=
  if cs = "Infinity".toList then .infinity else
  let ip := cs.takeWhile Char.isDigit
  let r1 := cs.dropWhile Char.isDigit
  let fp := match r1 with
    | '.' :: t => t.takeWhile Char.isDigit
    | _ => []
  let r2 := match r1 with
    | '.' :: t => t.dropWhile Char.isDigit
    | _ => r1
  if ip = [] ∧ fp = [] then .notNumeric else
  match exponentPart r2 with
  | none => .notNumeric
  | some e =>
    let mantissa : Nat := (ip ++ fp).foldl (fun n c => 10 * n + (c.toNat - 48)) 0
    let p : Int := e - (fp.length : Int)
    if 0 ≤ p then .quotient (mantissa * 10 ^ p.toNat) 1
    else .quotient mantissa (10 ^ (-p).toNat)

/-- The Number value of a decimal literal with its sign. -/
def JsNumber.ofLiteral (negative : Bool) : StrDecimalLiteral → JsNumber
  | .notNumeric => .nan
  | .infinity => if negative then .negInf else .posInf
  | .quotient num den => .ofQuotient negative num den

/-- The abstract operation `StringToNumber`: the string is trimmed, the empty string is `0`, a
text that is no numeric literal is NaN, and the value of a literal is rounded to the nearest
number of the binary64 format (to an infinity when it is out of range). -/
def stringToNumber (s : String) : JsNumber :=
  let cs := ((s.toList.dropWhile isStrWhiteSpace).reverse.dropWhile isStrWhiteSpace).reverse
  match cs with
  | [] => .finite 0
  | '0' :: 'x' :: ds | '0' :: 'X' :: ds =>
    match digitsValue 16 ds with | some n => .ofQuotient false n 1 | none => .nan
  | '0' :: 'o' :: ds | '0' :: 'O' :: ds =>
    match digitsValue 8 ds with | some n => .ofQuotient false n 1 | none => .nan
  | '0' :: 'b' :: ds | '0' :: 'B' :: ds =>
    match digitsValue 2 ds with | some n => .ofQuotient false n 1 | none => .nan
  | '+' :: rest => .ofLiteral false (strUnsignedDecimal rest)
  | '-' :: rest => .ofLiteral true (strUnsignedDecimal rest)
  | _ => .ofLiteral false (strUnsignedDecimal cs)

namespace JsValue

/-- The abstract operation `ToBoolean`. -/
def truthy : JsValue → Bool
  | .undefined => false
  | .null => false
  | .bool b => b
  | .num .nan => false
  | .num (.finite q) => decide (q ≠ 0)
  | .num _ => true
  | .str s => decide (s ≠ "")

/-- The abstract operation `ToNumber`. -/
def toNumber : JsValue → JsNumber
  | .undefined => .nan
  | .null => .finite 0
  | .bool true => .finite 1
  | .bool false => .finite 0
  | .num n => n
  | .str s => stringToNumber s

/-- The operator `!v`. -/
def not (v : JsValue) : Bool := !v.truthy

/-- The operator `a && b`: the left operand if it is falsy, else the right one. -/
def and (a b : JsValue) : JsValue := if a.truthy then b else a

/-- The operator `a || b`: the left operand if it is truthy, else the right one. -/
def or (a b : JsValue) : JsValue := if a.truthy then a else b

/-- The expression `v > k` for a number literal `k`: the comparison is numeric because the
right operand is a number. -/
def gt (v : JsValue) (k : Int) : Bool :=
  (JsNumber.lessThan (.ofInt k) v.toNumber) == some true

/-- The expression `v < k` for a number literal `k`. -/
def lt (v : JsValue) (k : Int) : Bool :=
  (JsNumber.lessThan v.toNumber (.ofInt k)) == some true

/-- The expression `v <= k` for a number literal `k`: true when `k < v` is false (neither true
nor undefined). -/
def le (v : JsValue) (k : Int) : Bool :=
  (JsNumber.lessThan (.ofInt k) v.toNumber) == some false

/-- The expression `v >= k` for a number literal `k`: true when `v < k` is false. -/
def ge (v : JsValue) (k : Int) : Bool :=
  (JsNumber.lessThan v.toNumber (.ofInt k)) == some false

end JsValue

/-- The call `['PENDING', 'APPROVED', 'REJECTED'].includes(v)`. -/
def statusListIncludes (v : JsValue) : Bool :=
  [JsValue.str "PENDING", JsValue.str "APPROVED", JsValue.str "REJECTED"].contains v

/-! ## The candidate entity (`models/Candidate.js`) -/

/-- The `user` object attached to a candidate by the storage layer's `include`. -/
structure CandidateUser where
  user_id : JsValue := .undefined
  fullname : JsValue := .undefined
  email : JsValue := .undefined
  profile_photo : JsValue := .undefined
  deriving DecidableEq

/-- The fields of a `Candidate` object.  A date is represented by its time value. -/
structure Candidate where
  candidate_id : JsValue := .undefined
  election_id : JsValue := .undefined
  user_id : JsValue := .undefined
  party_name : JsValue := .undefined
  symbol : JsValue := .undefined
  manifesto : JsValue := .undefined
  age : JsValue := .undefined
  qualification : JsValue := .undefined
  total_votes : JsValue := .undefined
  status : JsValue := .undefined
  registered_at : JsValue := .undefined
  user : Option CandidateUser := none
  deriving DecidableEq

/-- The constructor `new Candidate(props)`: a field that is `undefined` in `props` takes the
parameter default (`total_votes = 0`, `status = 'PENDING'`, `user = null`). -/
def Candidate.new (props : Candidate) : Candidate :=
  { props with
    total_votes := if props.total_votes = .undefined then .num (.ofInt 0) else props.total_votes
    status := if props.status = .undefined then .str "PENDING" else props.status }

/-- The method `isValid()`: the value of the `&&` chain. -/
def Candidate.isValid (c : Candidate) : JsValue :=
  (((((((c.election_id.and c.user_id).and c.party_name).and c.symbol).and
    (.bool (c.age.gt 0))).and (.bool (c.age.lt 150))).and c.qualification).and
    (.bool (statusListIncludes c.status)))

/-- The method `getValidationErrors()`. -/
def Candidate.getValidationErrors (c : Candidate) : List String :=
  let errors : List String := []
  let errors := if c.election_id.not then errors ++ ["Election ID is required"] else errors
  let errors := if c.user_id.not then errors ++ ["User ID is required"] else errors
  let errors := if c.party_name.not then errors ++ ["Party name is required"] else errors
  let errors := if c.symbol.not then errors ++ ["Party symbol is required"] else errors
  let errors :=
    if c.age.not || c.age.le 0 || c.age.ge 150 then
      errors ++ ["Valid age is required (between 1 and 149)"]
    else errors
  let errors := if c.qualification.not then errors ++ ["Qualification is required"] else errors
  let errors :=
    if !statusListIncludes c.status then errors ++ ["Invalid candidate status"] else errors
  errors

/-! ## The store behind the Prisma client -/

/-- A row of the `candidate` table.  Identifiers are strings; the profile columns hold the
values the service hands to the storage layer. -/
structure CandidateRow where
  candidate_id : String
  election_id : String
  user_id : String
  party_name : JsValue
  symbol : JsValue
  manifesto : JsValue
  age : JsValue
  qualification : JsValue
  total_votes : Int := 0
  status : String := "PENDING"
  registered_at : Int := 0
  deriving DecidableEq

/-- A row of the `election` table. -/
structure ElectionRow where
  election_id : String
  title : String := ""
  status : String := "ACTIVE"
  total_candidates : Int := 0
  total_voters : Int := 0
  start_time : Int := 0
  end_time : Int := 0
  winner_candidate_id : Option String := none
  winner_election_id : Option String := none
  deriving DecidableEq

/-- A row of the `admin` table: `user_id` administers (created) `election_id`. -/
structure AdminRow where
  user_id : String
  election_id : String
  deriving DecidableEq

/-- A row of the `user` table, restricted to the columns the services read or write.  The
`status` of an account is `ACTIVE` once its e-mail address is verified. -/
structure UserRow where
  user_id : String
  fullname : String := ""
  email : String := ""
  profile_photo : Option String := none
  status : String := "INACTIVE"
  deriving DecidableEq

/-- A row of the `vote` table: one vote record cast in an election. -/
structure VoteRow where
  vote_id : String := ""
  election_id : String
  deriving DecidableEq

/-- A row of the `voter` table: a voter registered for an election. -/
structure VoterRow where
  voter_id : String
  election_id : String
  deriving DecidableEq

/-- A row of the `electionResult` table, keyed by `election_id`.  The turnout percentage is a
number with two decimals, held as its count of hundredths. -/
structure ElectionResultRow where
  election_id : String
  total_votes : Int := 0
  voter_turnout_percentage : Int := 0
  winner_candidate_id : Option String := none
  winner_election_id : Option String := none
  remarks : Option String := none
  result_generated_at : Int := 0
  deriving DecidableEq

/-- The tables the candidate service and the result service read and write. -/
structure Store where
  candidates : List CandidateRow := []
  elections : List ElectionRow := []
  admins : List AdminRow := []
  users : List UserRow := []
  votes : List VoteRow := []
  voters : List VoterRow := []
  results : List ElectionResultRow := []
  deriving DecidableEq

namespace Store

/-- The query `candidate.findFirst` / `findUnique` with `where: { candidate_id }`. -/
def findCandidate (s : Store) (candidateId : String) : Option CandidateRow :=
  s.candidates.find? (fun c => c.candidate_id = candidateId)

/-- The query `candidate.findFirst` with `where: { election_id, user_id }`. -/
def findCandidacy (s : Store) (electionId userId : String) : Option CandidateRow :=
  s.candidates.find? (fun c => c.election_id = electionId ∧ c.user_id = userId)

/-- The query `election.findUnique` with `where: { election_id }`. -/
def findElection (s : Store) (electionId : String) : Option ElectionRow :=
  s.elections.find? (fun e => e.election_id = electionId)

/-- The query `admin.findFirst` with `where: { user_id, election_id }`. -/
def findAdmin (s : Store) (userId electionId : String) : Option AdminRow :=
  s.admins.find? (fun a => a.user_id = userId ∧ a.election_id = electionId)

/-- The `user` relation of a candidate row, as `include: { user: { select: ... } }` loads it. -/
def includeUser (s : Store) (userId : String) : Option CandidateUser :=
  (s.users.find? (fun u => u.user_id = userId)).map fun u =>
    { user_id := .str u.user_id
      fullname := .str u.fullname
      email := .str u.email
      profile_photo := match u.profile_photo with
        | some p => .str p
        | none => .null }

/-- The statement `candidate.create`: the row is added, unless its `candidate_id` is taken
(unique key), in which case the storage layer throws and nothing is written. -/
def createCandidate (s : Store) (row : CandidateRow) : Option Store :=
  match s.findCandidate row.candidate_id with
  | some _ => none
  | none => some { s with candidates := s.candidates ++ [row] }

/-- The statement `candidate.update` with `where: { candidate_id }`: the updated row and the
new store, or `none` (the storage layer throws) when no such row exists. -/
def updateCandidateRow (s : Store) (candidateId : String) (f : CandidateRow → CandidateRow) :
    Option (CandidateRow × Store) :=
  match s.findCandidate candidateId with
  | none => none
  | some r =>
    let rows := s.candidates.map (fun c => if c.candidate_id = candidateId then f c else c)
    some (f r, { s with candidates := rows })

/-- The statement `candidate.update` with the compound key
`where: { candidate_id_election_id: { candidate_id, election_id } }`. -/
def updateCandidateRowIn (s : Store) (candidateId electionId : String)
    (f : CandidateRow → CandidateRow) : Option (CandidateRow × Store) :=
  match s.candidates.find?
      (fun c => c.candidate_id = candidateId ∧ c.election_id = electionId) with
  | none => none
  | some r =>
    let rows := s.candidates.map (fun c =>
      if c.candidate_id = candidateId ∧ c.election_id = electionId then f c else c)
    some (f r, { s with candidates := rows })

/-- The statement `candidate.delete` with `where: { candidate_id }`. -/
def deleteCandidateRow (s : Store) (candidateId : String) : Option Store :=
  match s.findCandidate candidateId with
  | none => none
  | some _ =>
    some { s with candidates :=
      s.candidates.filter (fun c => ¬ c.candidate_id = candidateId) }

/-- The statement `election.update` with `data: { total_candidates: { increment: d } }`
(`decrement: 1` is `d = -1`): an atomic counter update, or `none` (the storage layer throws)
when the election does not exist. -/
def addTotalCandidates (s : Store) (electionId : String) (d : Int) : Option Store :=
  match s.findElection electionId with
  | none => none
  | some _ =>
    some { s with elections :=
      s.elections.map (fun e =>
        if e.election_id = electionId then
          { e with total_candidates := e.total_candidates + d }
        else e) }

end Store

/-- The method `toLowerCase()` on ASCII text (the election statuses it is applied to are ASCII;
other letters are left as they are). -/
def toLowerCase (s : String) : String := String.mk (s.toList.map Char.toLower)

/-- The message of the error the storage layer throws on a unique-key violation.  Its text
belongs to the storage client, not to this repository; this text stands for it. -/
def storageUniqueViolation : String := "Unique constraint failed on the fields: (candidate_id)"

/-- The message of the error the storage layer throws when the record of an `update` or
`delete` is missing.  Its text belongs to the storage client; this text stands for it. -/
def storageRecordMissing : String := "Record to update not found."

/-- A row as the JavaScript object the storage layer returns, passed to `new Candidate`. -/
def CandidateRow.toCandidate (r : CandidateRow) (user : Option CandidateUser) : Candidate :=
  Candidate.new
    { candidate_id := .str r.candidate_id
      election_id := .str r.election_id
      user_id := .str r.user_id
      party_name := r.party_name
      symbol := r.symbol
      manifesto := r.manifesto
      age := r.age
      qualification := r.qualification
      total_votes := .num (.ofInt r.total_votes)
      status := .str r.status
      registered_at := .num (.ofInt r.registered_at)
      user := user }

/-! ## The candidacy lifecycle manager (`services/candidateService.js`) -/

deriving instance DecidableEq for Except

/-- What a service call leaves behind: its result (the value returned, or the message of the
error thrown) and the store after the call. -/
structure Outcome (α : Type) where
  result : Except String α
  store : Store

/-- The `catch (error)` clause of every service method: the error is thrown again with the
operation's text in front of its message. -/
def Outcome.rethrow {α : Type} (text : String) (o : Outcome α) : Outcome α :=
  match o.result with
  | .ok _ => o
  | .error msg => { o with result := .error (text ++ msg) }

/-- Whether the call returned a value. -/
def Outcome.succeeded {α : Type} (o : Outcome α) : Bool :=
  match o.result with
  | .ok _ => true
  | .error _ => false

/-- The `candidateData` argument of `registerCandidate`: the keys the method reads.  The
election identifier is a string, like every identifier of the store. -/
structure CandidateData where
  election_id : String
  party_name : JsValue := .undefined
  symbol : JsValue := .undefined
  manifesto : JsValue := .undefined
  age : JsValue := .undefined
  qualification : JsValue := .undefined
  deriving DecidableEq

/-- The candidate `registerCandidate` builds for validation:
`new Candidate({...candidateData, user_id, status: 'APPROVED', candidate_id: randomUUID()})`. -/
def registrationCandidate (uuid : String) (data : CandidateData) (userId : String) : Candidate :=
  Candidate.new
    { candidate_id := .str uuid
      election_id := .str data.election_id
      user_id := .str userId
      party_name := data.party_name
      symbol := data.symbol
      manifesto := data.manifesto
      age := data.age
      qualification := data.qualification
      status := .str "APPROVED" }

/-- The row `registerCandidate` hands to `candidate.create`; `now` is the storage default of
`registered_at`. -/
def registrationRow (uuid : String) (now : Int) (data : CandidateData) (userId : String) :
    CandidateRow :=
  { candidate_id := uuid
    election_id := data.election_id
    user_id := userId
    party_name := data.party_name
    symbol := data.symbol
    manifesto := data.manifesto.or (.str "")
    age := data.age
    qualification := data.qualification
    total_votes := 0
    status := "PENDING"
    registered_at := now }

/-- The body of the `try` block of `registerCandidate`; `uuid` is the value of
`randomUUID()`. -/
def registerCandidateTry (s : Store) (uuid : String) (now : Int) (data : CandidateData)
    (userId : String) : Outcome Candidate :=
  let candidate := registrationCandidate uuid data userId
  if candidate.isValid.not then
    ⟨.error ("Invalid candidate data: " ++ ", ".intercalate candidate.getValidationErrors), s⟩
  else
    match s.findCandidacy data.election_id userId with
    | some _ => ⟨.error "User is already registered as a candidate for this election", s⟩
    | none =>
      match s.findElection data.election_id with
      | none => ⟨.error "Election not found", s⟩
      | some election =>
        if election.status = "COMPLETED" ∨ election.status = "CANCELLED" then
          ⟨.error ("Cannot register candidates for " ++ toLowerCase election.status ++
            " elections"), s⟩
        else
          let row := registrationRow uuid now data userId
          match s.createCandidate row with
          | none => ⟨.error storageUniqueViolation, s⟩
          | some s1 =>
            match s1.addTotalCandidates data.election_id 1 with
            | none => ⟨.error storageRecordMissing, s1⟩
            | some s2 => ⟨.ok (row.toCandidate (s.includeUser userId)), s2⟩

/-- The method `registerCandidate(candidateData, userId)`. -/
def registerCandidate (s : Store) (uuid : String) (now : Int) (data : CandidateData)
    (userId : String) : Outcome Candidate :=
  (registerCandidateTry s uuid now data userId).rethrow "Failed to register candidate: "

/-- The body of the `try` block of `approveCandidate`. -/
def approveCandidateTry (s : Store) (candidateId electionCreatorId : String) :
    Outcome Candidate :=
  match s.findCandidate candidateId with
  | none => ⟨.error "Candidate not found", s⟩
  | some candidate =>
    match s.findAdmin electionCreatorId candidate.election_id with
    | none => ⟨.error "Unauthorized: Only election creator can approve candidates", s⟩
    | some _ =>
      match s.updateCandidateRow candidateId (fun c => { c with status := "APPROVED" }) with
      | none => ⟨.error storageRecordMissing, s⟩
      | some (updated, s1) => ⟨.ok (updated.toCandidate (s.includeUser updated.user_id)), s1⟩

/-- The method `approveCandidate(candidateId, electionCreatorId)`. -/
def approveCandidate (s : Store) (candidateId electionCreatorId : String) : Outcome Candidate :=
  (approveCandidateTry s candidateId electionCreatorId).rethrow "Failed to approve candidate: "

/-- The body of the `try` block of `rejectCandidate`; the `reason` argument is not used by
the source. -/
def rejectCandidateTry (s : Store) (candidateId electionCreatorId : String) :
    Outcome Candidate :=
  match s.findCandidate candidateId with
  | none => ⟨.error "Candidate not found", s⟩
  | some candidate =>
    match s.findAdmin electionCreatorId candidate.election_id with
    | none => ⟨.error "Unauthorized: Only election creator can reject candidates", s⟩
    | some _ =>
      match s.updateCandidateRow candidateId (fun c => { c with status := "REJECTED" }) with
      | none => ⟨.error storageRecordMissing, s⟩
      | some (updated, s1) =>
        match s1.addTotalCandidates candidate.election_id (-1) with
        | none => ⟨.error storageRecordMissing, s1⟩
        | some s2 => ⟨.ok (updated.toCandidate (s.includeUser updated.user_id)), s2⟩

/-- The method `rejectCandidate(candidateId, electionCreatorId, reason)`. -/
def rejectCandidate (s : Store) (candidateId electionCreatorId : String)
    (reason : String := "") : Outcome Candidate :=
  let _ := reason
  (rejectCandidateTry s candidateId electionCreatorId).rethrow "Failed to reject candidate: "

/-- The `updateData` argument of `updateCandidate`: for each key the `Candidate` constructor
reads, `none` when the object has no such key, `some v` when it has it with value `v` (which
may be `undefined`). -/
structure UpdateData where
  candidate_id : Option JsValue := none
  election_id : Option JsValue := none
  user_id : Option JsValue := none
  party_name : Option JsValue := none
  symbol : Option JsValue := none
  manifesto : Option JsValue := none
  age : Option JsValue := none
  qualification : Option JsValue := none
  total_votes : Option JsValue := none
  status : Option JsValue := none
  registered_at : Option JsValue := none
  user : Option (Option CandidateUser) := none
  deriving DecidableEq

/-- One key of the object spread `{...candidate, ...updateData}`: the value of `updateData`
whenever it has the key, else the stored one. -/
def spreadKey (stored : JsValue) (supplied : Option JsValue) : JsValue :=
  match supplied with
  | some v => v
  | none => stored

/-- The property access `updateData.key`: `undefined` when the key is missing. -/
def property (supplied : Option JsValue) : JsValue :=
  match supplied with
  | some v => v
  | none => .undefined

/-- The candidate `updateCandidate` builds for validation:
`new Candidate({...candidate, ...updateData})`, `candidate` being the stored row. -/
def mergedCandidate (candidate : CandidateRow) (updateData : UpdateData) : Candidate :=
  Candidate.new
    { candidate_id := spreadKey (.str candidate.candidate_id) updateData.candidate_id
      election_id := spreadKey (.str candidate.election_id) updateData.election_id
      user_id := spreadKey (.str candidate.user_id) updateData.user_id
      party_name := spreadKey candidate.party_name updateData.party_name
      symbol := spreadKey candidate.symbol updateData.symbol
      manifesto := spreadKey candidate.manifesto updateData.manifesto
      age := spreadKey candidate.age updateData.age
      qualification := spreadKey candidate.qualification updateData.qualification
      total_votes := spreadKey (.num (.ofInt candidate.total_votes)) updateData.total_votes
      status := spreadKey (.str candidate.status) updateData.status
      registered_at := spreadKey (.num (.ofInt candidate.registered_at)) updateData.registered_at
      user := match updateData.user with
        | some u => u
        | none => none }

/-- The `data` of the `candidate.update` statement of `updateCandidate`, applied to a row:
each profile column becomes `updateData.key || candidate.key`, `candidate` being the row read
at the start of the call. -/
def updateWrite (candidate : CandidateRow) (updateData : UpdateData) (c : CandidateRow) :
    CandidateRow :=
  { c with
    party_name := (property updateData.party_name).or candidate.party_name
    symbol := (property updateData.symbol).or candidate.symbol
    manifesto := (property updateData.manifesto).or candidate.manifesto
    age := (property updateData.age).or candidate.age
    qualification := (property updateData.qualification).or candidate.qualification }

/-- The body of the `try` block of `updateCandidate`. -/
def updateCandidateTry (s : Store) (candidateId : String) (updateData : UpdateData)
    (userId : String) : Outcome Candidate :=
  match s.findCandidate candidateId with
  | none => ⟨.error "Candidate not found", s⟩
  | some candidate =>
    if candidate.user_id ≠ userId then
      ⟨.error "Unauthorized: Can only update your own candidate profile", s⟩
    else if candidate.status ≠ "PENDING" then
      ⟨.error "Can only update pending candidate registrations", s⟩
    else
      let updateCandidate := mergedCandidate candidate updateData
      if updateCandidate.isValid.not then
        ⟨.error ("Invalid candidate data: " ++
          ", ".intercalate updateCandidate.getValidationErrors), s⟩
      else
        match s.updateCandidateRowIn candidateId candidate.election_id
            (updateWrite candidate updateData) with
        | none => ⟨.error storageRecordMissing, s⟩
        | some (updated, s1) => ⟨.ok (updated.toCandidate (s.includeUser updated.user_id)), s1⟩

/-- The method `updateCandidate(candidateId, updateData, userId)`. -/
def updateCandidate (s : Store) (candidateId : String) (updateData : UpdateData)
    (userId : String) : Outcome Candidate :=
  (updateCandidateTry s candidateId updateData userId).rethrow "Failed to update candidate: "

/-- The body of the `try` block of `deleteCandidate`. -/
def deleteCandidateTry (s : Store) (candidateId userId : String) : Outcome Bool :=
  match s.findCandidate candidateId with
  | none => ⟨.error "Candidate not found", s⟩
  | some candidate =>
    if candidate.user_id ≠ userId then
      ⟨.error "Unauthorized: Can only delete your own candidate profile", s⟩
    else if candidate.status ≠ "PENDING" then
      ⟨.error "Can only delete pending candidate registrations", s⟩
    else
      match s.deleteCandidateRow candidateId with
      | none => ⟨.error storageRecordMissing, s⟩
      | some s1 =>
        match s1.addTotalCandidates candidate.election_id (-1) with
        | none => ⟨.error storageRecordMissing, s1⟩
        | some s2 => ⟨.ok true, s2⟩

/-- The method `deleteCandidate(candidateId, userId)`. -/
def deleteCandidate (s : Store) (candidateId userId : String) : Outcome Bool :=
  (deleteCandidateTry s candidateId userId).rethrow "Failed to delete candidate: "

/-! ## Sequences of lifecycle calls -/

/-- A call of one of the five mutating methods of the candidate service, with its arguments
(for `register`, also the value `randomUUID()` returns and the storage clock). -/
inductive Call where
  | register (uuid : String) (now : Int) (data : CandidateData) (userId : String)
  | approve (candidateId electionCreatorId : String)
  | reject (candidateId electionCreatorId : String)
  | update (candidateId : String) (updateData : UpdateData) (userId : String)
  | delete (candidateId userId : String)

/-- The store a call leaves behind, whether it returns or throws. -/
def Call.run (s : Store) : Call → Store
  | .register uuid now data userId => (registerCandidate s uuid now data userId).store
  | .approve candidateId userId => (approveCandidate s candidateId userId).store
  | .reject candidateId userId => (rejectCandidate s candidateId userId).store
  | .update candidateId updateData userId =>
    (updateCandidate s candidateId updateData userId).store
  | .delete candidateId userId => (deleteCandidate s candidateId userId).store

/-- The store after a sequence of calls, made one after the other. -/
def runCalls (s : Store) (calls : List Call) : Store :=
  calls.foldl Call.run s

/-! ## Store invariants -/

/-- The number of candidate rows of an election whose status is PENDING or APPROVED. -/
def activeCandidates (s : Store) (electionId : String) : Nat :=
  (s.candidates.filter (fun c =>
    c.election_id = electionId ∧ (c.status = "PENDING" ∨ c.status = "APPROVED"))).length

/-- Counter consistency: every election's `total_candidates` is the number of its PENDING or
APPROVED candidate rows. -/
def CounterConsistent (s : Store) : Prop :=
  ∀ e ∈ s.elections, e.total_candidates = (activeCandidates s e.election_id : Int)

/-- Referential integrity of the candidate table: every candidate row refers to an existing
election. -/
def ReferentiallyIntact (s : Store) : Prop :=
  ∀ c ∈ s.candidates, ∃ e ∈ s.elections, e.election_id = c.election_id

/-- Referential integrity and key uniqueness of the relational store: every candidate row
refers to an existing election, and `candidate_id` and `election_id` are keys. -/
def WellFormed (s : Store) : Prop :=
  ReferentiallyIntact s ∧
  (s.candidates.map (fun c => c.candidate_id)).Nodup ∧
  (s.elections.map (fun e => e.election_id)).Nodup

/-- One candidacy per user and election: no two candidate rows share `(election_id, user_id)`. -/
def OneCandidacyPerUser (s : Store) : Prop :=
  (s.candidates.map (fun c => (c.election_id, c.user_id))).Nodup

instance (s : Store) : Decidable (CounterConsistent s) := by
  unfold CounterConsistent; infer_instance

instance (s : Store) : Decidable (ReferentiallyIntact s) := by
  unfold ReferentiallyIntact; infer_instance

instance (s : Store) : Decidable (WellFormed s) := by
  unfold WellFormed; infer_instance

instance (s : Store) : Decidable (OneCandidacyPerUser s) := by
  unfold OneCandidacyPerUser; infer_instance

/-- The caller is registered as admin (creator) of the election. -/
def IsAdmin (s : Store) (userId electionId : String) : Prop :=
  ∃ a ∈ s.admins, a.user_id = userId ∧ a.election_id = electionId

instance (s : Store) (userId electionId : String) : Decidable (IsAdmin s userId electionId) := by
  unfold IsAdmin; infer_instance

/-- The field invariants of a candidate in the data model: `0 < age < 150`, `party_name`,
`symbol` and `qualification` non-empty, `status` one of the three lifecycle values. -/
def FieldInvariants (c : Candidate) : Prop :=
  c.age.gt 0 = true ∧ c.age.lt 150 = true ∧
  c.party_name.truthy = true ∧ c.symbol.truthy = true ∧ c.qualification.truthy = true ∧
  (c.status = .str "PENDING" ∨ c.status = .str "APPROVED" ∨ c.status = .str "REJECTED")

instance (c : Candidate) : Decidable (FieldInvariants c) := by
  unfold FieldInvariants; infer_instance

/-! ## Number arithmetic of the percentages

The result service computes `Number(((a / b) * 100).toFixed(2))` on JavaScript numbers, which
are binary64 floating-point numbers.  Division and multiplication round their exact result to
the nearest number of the format (ties to the even significand); `toFixed(2)` rounds the exact
value of its argument to the nearest multiple of `0.01` (ties upward in magnitude).  The counts
handled are integers below `2 ^ 53`, far from overflow and underflow, so these operations round
with `Binary64.round`, which leaves the exponent range of the format aside. -/

/-- The expression `Number(((a / b) * 100).toFixed(2))` for integers `a` and `b ≠ 0`, in
hundredths. -/
def percentOf (a b : Int) : Int :=
  (((Binary64.ofInt a).div (Binary64.ofInt b)).mul (Binary64.ofInt 100)).toFixed2

/-- The value of a two-decimal number held as its count of hundredths. -/
def hundredthsValue (h : Int) : ℚ := (h : ℚ) / 100

/-- Rounding to two decimals, ties upward: the standard rounding of the rounding rule. -/
def roundTwoDecimals (x : ℚ) : ℚ := (⌊x * 100 + 1 / 2⌋ : ℚ) / 100

/-! ## The result projection and the summary (`models/CandidateResult.js`,
`models/ElectionResultSummary.js`) -/

/-- The fields of a `CandidateResult` object.  Percentages are numbers with two decimals, held
as their count of hundredths. -/
structure CandidateResult where
  candidate_id : String
  election_id : String
  name : String
  party_name : JsValue
  symbol : JsValue
  total_votes : Int
  vote_percentage : Int
  profile_photo : Option String
  deriving DecidableEq

/-- The constructor `new CandidateResult(props)`: an empty `name` becomes
`'Unknown Candidate'`, a falsy `party_name` becomes `'Independent'`, a falsy `symbol` becomes
`null`; `Number(v) || 0` leaves an integer and a two-decimal number as they are. -/
def CandidateResult.new (props : CandidateResult) : CandidateResult :=
  { props with
    name := if props.name = "" then "Unknown Candidate" else props.name
    party_name := props.party_name.or (.str "Independent")
    symbol := props.symbol.or .null }

/-- The fields of an `ElectionResultSummary` object (the chart data is derived from
`candidates`).  A date is represented by its time value, the turnout percentage (a number with
two decimals) by its count of hundredths. -/
structure ElectionResultSummary where
  electionId : String
  title : String
  status : String
  generatedAt : Int
  totalVotes : Int
  totalRegisteredVoters : Int
  voterTurnoutPercentage : Int
  candidates : List CandidateResult
  winner : Option CandidateResult
  remarks : Option String
  timeframeStart : Int
  timeframeEnd : Int
  deriving DecidableEq

/-- The object `toJSON()` of a summary returns, without its chart data; dates and percentages
are represented as in the summary. -/
structure SummaryJson where
  election_id : String
  title : String
  status : String
  generated_at : Int
  total_votes : Int
  total_registered_voters : Int
  voter_turnout_percentage : Int
  winner : Option CandidateResult
  candidates : List CandidateResult
  remarks : Option String
  timeframeStart : Int
  timeframeEnd : Int
  deriving DecidableEq

/-- The method `toJSON()` of `ElectionResultSummary`. -/
def ElectionResultSummary.toJSON (summary : ElectionResultSummary) : SummaryJson :=
  { election_id := summary.electionId
    title := summary.title
    status := summary.status
    generated_at := summary.generatedAt
    total_votes := summary.totalVotes
    total_registered_voters := summary.totalRegisteredVoters
    voter_turnout_percentage := summary.voterTurnoutPercentage
    winner := summary.winner
    candidates := summary.candidates
    remarks := summary.remarks
    timeframeStart := summary.timeframeStart
    timeframeEnd := summary.timeframeEnd }

/-! ## The result service (`services/resultService.js`) -/

/-- An election as `election.findUnique` loads it with
`include: { candidates: { where: { status: 'APPROVED' }, include: { user }, orderBy:
{ total_votes: 'desc' } }, voters, results: true }`. -/
structure ElectionRecord where
  election : ElectionRow
  candidates : List (CandidateRow × Option UserRow)
  voters : List VoterRow
  results : Option ElectionResultRow
  deriving DecidableEq

namespace Store

/-- The APPROVED candidate rows of an election, as the storage layer returns them for
`orderBy: { total_votes: 'desc' }` (rows with equal totals keep their table order). -/
def approvedCandidates (s : Store) (electionId : String) : List CandidateRow :=
  (s.candidates.filter (fun c => c.election_id = electionId ∧ c.status = "APPROVED")).insertionSort
    (fun a b => b.total_votes ≤ a.total_votes)

/-- The stored result record of an election (the `results` relation). -/
def findResult (s : Store) (electionId : String) : Option ElectionResultRow :=
  s.results.find? (fun r => r.election_id = electionId)

/-- The relations the result service includes when it loads an election. -/
def loadRecord (s : Store) (election : ElectionRow) : ElectionRecord :=
  { election := election
    candidates := (s.approvedCandidates election.election_id).map
      (fun c => (c, s.users.find? (fun u => u.user_id = c.user_id)))
    voters := s.voters.filter (fun v => v.election_id = election.election_id)
    results := s.findResult election.election_id }

/-- The query `election.findUnique` with the relations the result service includes. -/
def findElectionRecord (s : Store) (electionId : String) : Option ElectionRecord :=
  match s.findElection electionId with
  | none => none
  | some election => some (s.loadRecord election)

/-- The query `vote.count` with `where: { election_id }`. -/
def countVotes (s : Store) (electionId : String) : Nat :=
  (s.votes.filter (fun v => v.election_id = electionId)).length

/-- The statement `electionResult.upsert` with `where: { election_id }`: the stored record is
updated, or a record is created when there is none. -/
def upsertResult (s : Store) (electionId : String)
    (update : ElectionResultRow → ElectionResultRow) (create : ElectionResultRow) : Store :=
  match s.findResult electionId with
  | some _ =>
    { s with results := s.results.map (fun r => if r.election_id = electionId then update r else r) }
  | none => { s with results := s.results ++ [create] }

/-- The statement `election.update` that sets the cached winner of an election, or `none` (the
storage layer throws) when the election does not exist. -/
def setWinner (s : Store) (electionId candidateId : String) : Option Store :=
  match s.findElection electionId with
  | none => none
  | some _ =>
    some { s with elections :=
      s.elections.map (fun e =>
        if e.election_id = electionId then
          { e with winner_candidate_id := some candidateId, winner_election_id := some electionId }
        else e) }

end Store

/-- The message of the error thrown when the storage transaction fails.  Its text belongs to
the storage client; this text stands for it. -/
def storageTransactionFailed : String := "Transaction failed."

/-- What a call of the result service leaves behind: its result, the store after the call, and
whether the call committed a write of the result record. -/
structure ResultOutcome (α : Type) where
  result : Except String α
  store : Store
  persisted : Bool

/-- Whether the call returned a value. -/
def ResultOutcome.succeeded {α : Type} (o : ResultOutcome α) : Bool :=
  match o.result with
  | .ok _ => true
  | .error _ => false

/-- The value the call returned, if it returned one. -/
def ResultOutcome.value {α : Type} (o : ResultOutcome α) : Option α :=
  match o.result with
  | .ok a => some a
  | .error _ => none

/-- The expression `summary.remarks || null`. -/
def remarksOrNull (remarks : Option String) : Option String :=
  match remarks with
  | some text => if text = "" then none else some text
  | none => none

/-- The `update` object of the upsert of `#persistResult`, applied to the stored record. -/
def resultUpdate (now : Int) (electionId : String) (summary : ElectionResultSummary)
    (winnerCandidate : Option CandidateResult) (r : ElectionResultRow) : ElectionResultRow :=
  { r with
    total_votes := summary.totalVotes
    voter_turnout_percentage := summary.voterTurnoutPercentage
    winner_candidate_id := winnerCandidate.map (fun w => w.candidate_id)
    winner_election_id := winnerCandidate.map (fun _ => electionId)
    remarks := remarksOrNull summary.remarks
    result_generated_at := now }

/-- The `create` object of the upsert of `#persistResult`. -/
def resultCreate (now : Int) (electionId : String) (summary : ElectionResultSummary)
    (winnerCandidate : Option CandidateResult) : ElectionResultRow :=
  { election_id := electionId
    total_votes := summary.totalVotes
    voter_turnout_percentage := summary.voterTurnoutPercentage
    winner_candidate_id := winnerCandidate.map (fun w => w.candidate_id)
    winner_election_id := winnerCandidate.map (fun _ => electionId)
    remarks := remarksOrNull summary.remarks
    result_generated_at := now }

/-- The private method `#persistResult(electionId, summary, winnerCandidate)`: one transaction
that upserts the result record and, if there is a winner, sets the election's cached winner.
`none` when the transaction throws (because the storage layer fails, `transactionFails`, or
because the election is missing); nothing is written then.  `now` is the value of
`new Date()`, which is also the storage default of `result_generated_at` for a created
record. -/
def persistResult (s : Store) (now : Int) (transactionFails : Bool) (electionId : String)
    (summary : ElectionResultSummary) (winnerCandidate : Option CandidateResult) :
    Option Store :=
  if transactionFails then none else
  let s1 := s.upsertResult electionId (resultUpdate now electionId summary winnerCandidate)
    (resultCreate now electionId summary winnerCandidate)
  match winnerCandidate with
  | some w => s1.setWinner electionId w.candidate_id
  | none => some s1

/-- The registered-voter count `election.total_voters || election.voters.length || 0`. -/
def totalRegisteredOf (election : ElectionRecord) : Int :=
  if election.election.total_voters ≠ 0 then election.election.total_voters
  else if election.voters.length ≠ 0 then (election.voters.length : Int)
  else 0

/-- The turnout percentage of `#buildSummary`, in hundredths. -/
def voterTurnoutOf (totalVotesCast : Nat) (totalRegistered : Int) : Int :=
  if 0 < totalRegistered then percentOf totalVotesCast totalRegistered else 0

/-- The `CandidateResult` that `#buildSummary` makes of a loaded candidate row. -/
def candidateResultOf (totalVotesCast : Nat) (candidate : CandidateRow × Option UserRow) :
    CandidateResult :=
  CandidateResult.new
    { candidate_id := candidate.1.candidate_id
      election_id := candidate.1.election_id
      name := match candidate.2 with
        | some user => user.fullname
        | none => "Unknown Candidate"
      party_name := candidate.1.party_name
      symbol := candidate.1.symbol
      total_votes := candidate.1.total_votes
      vote_percentage :=
        if 0 < totalVotesCast then percentOf candidate.1.total_votes totalVotesCast else 0
      profile_photo := match candidate.2 with
        | some user => user.profile_photo
        | none => none }

/-- The summary object `#buildSummary` constructs; `now` is the value of `new Date()`. -/
def summaryOf (s : Store) (now : Int) (election : ElectionRecord) : ElectionResultSummary :=
  let totalVotesCast := s.countVotes election.election.election_id
  let totalRegistered := totalRegisteredOf election
  let candidates := election.candidates.map (candidateResultOf totalVotesCast)
  { electionId := election.election.election_id
    title := election.election.title
    status := election.election.status
    generatedAt := match election.results with
      | some stored => stored.result_generated_at
      | none => now
    totalVotes := totalVotesCast
    totalRegisteredVoters := totalRegistered
    voterTurnoutPercentage := voterTurnoutOf totalVotesCast totalRegistered
    candidates := candidates
    winner := candidates.head?
    remarks := match election.results with
      | some stored => remarksOrNull stored.remarks
      | none => none
    timeframeStart := election.election.start_time
    timeframeEnd := election.election.end_time }

/-- The decision `shouldPersist` of `#buildSummary`. -/
def shouldPersist (regenerate : Bool) (election : ElectionRecord)
    (summary : ElectionResultSummary) : Bool :=
  regenerate ||
    match election.results with
    | none => true
    | some stored =>
      decide (stored.total_votes ≠ summary.totalVotes) ||
      decide (stored.voter_turnout_percentage ≠ summary.voterTurnoutPercentage) ||
      match summary.winner with
      | some winnerCandidate =>
        decide (stored.winner_candidate_id ≠ some winnerCandidate.candidate_id)
      | none => false

/-- The private method `#buildSummary(election, { persist, regenerate })`. -/
def buildSummary (s : Store) (now : Int) (transactionFails : Bool) (election : ElectionRecord)
    (persist regenerate : Bool) : ResultOutcome ElectionResultSummary :=
  let summary := summaryOf s now election
  if persist && shouldPersist regenerate election summary then
    match persistResult s now transactionFails election.election.election_id summary
        summary.winner with
    | none => ⟨.error storageTransactionFailed, s, false⟩
    | some s1 => ⟨.ok summary, s1, true⟩
  else ⟨.ok summary, s, false⟩

/-- The method `getResultByElectionId(electionId, { regenerate })`; `now` is the value of
`new Date()` and `transactionFails` tells whether the storage layer fails the transaction of
`#persistResult`. -/
def getResultByElectionId (s : Store) (now : Int) (transactionFails : Bool)
    (electionId : String) (regenerate : Bool := false) : ResultOutcome SummaryJson :=
  if electionId = "" then ⟨.error "Election ID is required", s, false⟩
  else
    match s.findElectionRecord electionId with
    | none => ⟨.error "Election not found", s, false⟩
    | some election =>
      if election.election.status ≠ "COMPLETED" then
        ⟨.error "Election is not completed yet", s, false⟩
      else
        let built := buildSummary s now transactionFails election true regenerate
        match built.result with
        | .ok summary => ⟨.ok summary.toJSON, built.store, built.persisted⟩
        | .error msg => ⟨.error msg, built.store, built.persisted⟩

/-- The method `generateResult(electionId)`. -/
def generateResult (s : Store) (now : Int) (transactionFails : Bool) (electionId : String) :
    ResultOutcome SummaryJson :=
  getResultByElectionId s now transactionFails electionId true

/-- A call of `getResultByElectionId` with its arguments, the clock and the fate of the storage
transaction. -/
structure ResultCall where
  now : Int
  transactionFails : Bool
  electionId : String
  regenerate : Bool

/-- The store a call of `getResultByElectionId` leaves behind. -/
def ResultCall.run (s : Store) (call : ResultCall) : Store :=
  (getResultByElectionId s call.now call.transactionFails call.electionId call.regenerate).store

/-- The store after a sequence of `getResultByElectionId` calls. -/
def runResultCalls (s : Store) (calls : List ResultCall) : Store :=
  calls.foldl ResultCall.run s

/-! ## The serialization views of a candidate (`models/Candidate.js`) -/

/-- The value of a key of a serialized candidate: a primitive value, or an object of primitive
values (the `user` part). -/
inductive JsonValue where
  | primitive (v : JsValue)
  | object (fields : List (String × JsValue))
  deriving DecidableEq

/-- A serialized object: its keys with their values, in the order of the object literal. -/
abbrev JsonObject := List (String × JsonValue)

/-- The method `toJSON()` of `Candidate`: the full view. -/
def Candidate.toJSON (c : Candidate) : JsonObject :=
  [("candidate_id", .primitive c.candidate_id),
   ("election_id", .primitive c.election_id),
   ("user_id", .primitive c.user_id),
   ("party_name", .primitive c.party_name),
   ("symbol", .primitive c.symbol),
   ("manifesto", .primitive c.manifesto),
   ("age", .primitive c.age),
   ("qualification", .primitive c.qualification),
   ("total_votes", .primitive c.total_votes),
   ("status", .primitive c.status),
   ("registered_at", .primitive c.registered_at),
   ("user", match c.user with
     | some user =>
       .object [("user_id", user.user_id), ("fullname", user.fullname),
                ("email", user.email), ("profile_photo", user.profile_photo)]
     | none => .primitive .null)]

/-- The method `toPublicJSON()` of `Candidate`: the public view. -/
def Candidate.toPublicJSON (c : Candidate) : JsonObject :=
  [("candidate_id", .primitive c.candidate_id),
   ("election_id", .primitive c.election_id),
   ("party_name", .primitive c.party_name),
   ("symbol", .primitive c.symbol),
   ("manifesto", .primitive c.manifesto),
   ("age", .primitive c.age),
   ("qualification", .primitive c.qualification),
   ("total_votes", .primitive c.total_votes),
   ("status", .primitive c.status),
   ("registered_at", .primitive c.registered_at),
   ("user", match c.user with
     | some user =>
       .object [("fullname", user.fullname), ("profile_photo", user.profile_photo)]
     | none => .primitive .null)]

/-- The keys of a serialized object. -/
def JsonValue.keys : JsonValue → List String
  | .primitive _ => []
  | .object fields => fields.map (fun f => f.1)

/-! ## Reading a candidate (`services/candidateService.js`) -/

/-- The body of the `try` block of `getCandidateById`. -/
def getCandidateByIdTry (s : Store) (candidateId : String) : Outcome Candidate :=
  match s.findCandidate candidateId with
  | none => ⟨.error "Candidate not found", s⟩
  | some candidate => ⟨.ok (candidate.toCandidate (s.includeUser candidate.user_id)), s⟩

/-- The method `getCandidateById(candidateId)`. -/
def getCandidateById (s : Store) (candidateId : String) : Outcome Candidate :=
  (getCandidateByIdTry s candidateId).rethrow "Failed to fetch candidate: "

/-- The body of the `try` block of `getCandidateProfile`. -/
def getCandidateProfileTry (s : Store) (candidateId : String) : Outcome Candidate :=
  let fetched := getCandidateById s candidateId
  match fetched.result with
  | .error message => ⟨.error message, fetched.store⟩
  | .ok candidate =>
    if candidate.status ≠ .str "APPROVED" then
      ⟨.error "Candidate profile not available", fetched.store⟩
    else ⟨.ok candidate, fetched.store⟩

/-- The method `getCandidateProfile(candidateId)`. -/
def getCandidateProfile (s : Store) (candidateId : String) : Outcome Candidate :=
  (getCandidateProfileTry s candidateId).rethrow "Failed to fetch candidate profile: "

/-! ## The candidate controllers (`controllers/candidateController.js`) -/

/-- The method `text.includes(pattern)` on lists of characters. -/
def includesChars (text pattern : List Char) : Bool :=
  match text with
  | [] => pattern.isEmpty
  | c :: rest => pattern.isPrefixOf (c :: rest) || includesChars rest pattern

/-- The method `text.includes(pattern)`: whether `pattern` occurs in `text`. -/
def includes (text pattern : String) : Bool :=
  includesChars text.toList pattern.toList

/-- The abstract operation `ToString` on primitive values.  The text of a number is given by
`numberText` (the operation `Number::toString`, whose digits are not modelled). -/
def jsToString (numberText : JsNumber → String) : JsValue → String
  | .undefined => "undefined"
  | .null => "null"
  | .bool true => "true"
  | .bool false => "false"
  | .num n => numberText n
  | .str s => s

/-- The function `parseInt(v)` without a radix: the text of `v` is stripped of leading white
space, of a sign and of a `0x` prefix (which selects radix 16), and the longest run of digits
at its start is the value, rounded to the nearest number of the binary64 format; NaN when
there is no digit. -/
def parseInt (numberText : JsNumber → String) (v : JsValue) : JsNumber :=
  let s := (jsToString numberText v).toList.dropWhile isStrWhiteSpace
  let negative : Bool := match s with
    | '-' :: _ => true
    | _ => false
  let s := match s with
    | '+' :: rest => rest
    | '-' :: rest => rest
    | other => other
  let hex : Bool := match s with
    | '0' :: 'x' :: _ => true
    | '0' :: 'X' :: _ => true
    | _ => false
  let s := if hex then s.drop 2 else s
  let radix := if hex then 16 else 10
  match digitsValue radix (s.takeWhile (fun c => (digitsValue radix [c]).isSome)) with
  | none => .nan
  | some n => .ofQuotient negative n 1

/-- A call of the response helper `utils/ApiResponse` by a controller: the function called,
with the message, the data and the code handed to it (`none` when no code is given). -/
inductive ApiResponse where
  | success (message : String) (data : Option JsonObject) (code : Option Nat)
  | notFound (message : String)
  | unauthorized (message : String)
  | badRequest (message : String)
  | error (message : String) (code : Nat)
  deriving DecidableEq

/-- Modelled from the spec: the response helper `utils/ApiResponse` is not among the sources.
Its `notFound`, `unauthorized` and `badRequest` answer with the response codes 404, 401 and
400, `error` and `success` with the code they are given, `success` with 200 when it is given
none. -/
def ApiResponse.statusCode : ApiResponse → Nat
  | .success _ _ (some code) => code
  | .success _ _ none => 200
  | .notFound _ => 404
  | .unauthorized _ => 401
  | .badRequest _ => 400
  | .error _ code => code

/-- What a controller leaves behind: the response it sends and the store after the request. -/
structure Reply where
  response : ApiResponse
  store : Store
  deriving DecidableEq

/-- The body of a registration request.  An `election_id` that is missing is the empty text
(both are falsy). -/
structure RegisterBody where
  election_id : String := ""
  party_name : JsValue := .undefined
  symbol : JsValue := .undefined
  manifesto : JsValue := .undefined
  age : JsValue := .undefined
  qualification : JsValue := .undefined
  deriving DecidableEq

/-- The body of an update request: a key the request does not carry is `undefined`. -/
structure UpdateBody where
  party_name : JsValue := .undefined
  symbol : JsValue := .undefined
  manifesto : JsValue := .undefined
  age : JsValue := .undefined
  qualification : JsValue := .undefined
  deriving DecidableEq

/-- The `candidateData` object the `registerCandidate` controller builds. -/
def registerData (numberText : JsNumber → String) (body : RegisterBody) : CandidateData :=
  { election_id := body.election_id
    party_name := body.party_name
    symbol := body.symbol
    manifesto := body.manifesto
    age := .num (parseInt numberText body.age)
    qualification := body.qualification }

/-- The `updateData` object the `updateCandidate` controller builds: it has the five profile
keys, each with the value of the request body (`undefined` when the body lacks the key); the
age is `age ? parseInt(age) : undefined`. -/
def updateDataOf (numberText : JsNumber → String) (body : UpdateBody) : UpdateData :=
  { party_name := some body.party_name
    symbol := some body.symbol
    manifesto := some body.manifesto
    age := some (if body.age.truthy then .num (parseInt numberText body.age) else .undefined)
    qualification := some body.qualification }

/-- The controller `registerCandidate(req, res)`; `userId` is `req.user.user_id`. -/
def Controller.registerCandidate (numberText : JsNumber → String) (s : Store) (uuid : String)
    (now : Int) (body : RegisterBody) (userId : String) : Reply :=
  if body.election_id = "" ∨ body.party_name.not ∨ body.symbol.not ∨ body.age.not ∨
      body.qualification.not then
    ⟨.badRequest
      "Missing required fields: election_id, party_name, symbol, age, qualification", s⟩
  else
    let called := VoteByte.registerCandidate s uuid now (registerData numberText body) userId
    match called.result with
    | .ok candidate =>
      ⟨.success "Candidate registered successfully" (some candidate.toJSON) (some 201),
        called.store⟩
    | .error message =>
      if includes message "not found" then ⟨.notFound message, called.store⟩
      else if includes message "already" then ⟨.error message 409, called.store⟩
      else if includes message "Invalid" then ⟨.badRequest message, called.store⟩
      else ⟨.error message 500, called.store⟩

/-- The `catch` clause shared by the `approveCandidate` and `rejectCandidate` controllers. -/
def decisionFailure (message : String) : ApiResponse :=
  if includes message "not found" then .notFound message
  else if includes message "Unauthorized" then .unauthorized message
  else .error message 500

/-- The controller `approveCandidate(req, res)`. -/
def Controller.approveCandidate (s : Store) (candidateId userId : String) : Reply :=
  if candidateId = "" then ⟨.badRequest "Candidate ID is required", s⟩
  else
    let called := VoteByte.approveCandidate s candidateId userId
    match called.result with
    | .ok candidate =>
      ⟨.success "Candidate approved successfully" (some candidate.toJSON) none, called.store⟩
    | .error message => ⟨decisionFailure message, called.store⟩

/-- The controller `rejectCandidate(req, res)`; `reason` is `req.body.reason`. -/
def Controller.rejectCandidate (s : Store) (candidateId userId : String)
    (reason : String) : Reply :=
  if candidateId = "" then ⟨.badRequest "Candidate ID is required", s⟩
  else
    let called := VoteByte.rejectCandidate s candidateId userId reason
    match called.result with
    | .ok candidate =>
      ⟨.success "Candidate rejected successfully" (some candidate.toJSON) none, called.store⟩
    | .error message => ⟨decisionFailure message, called.store⟩

/-- The controller `getCandidateById(req, res)`. -/
def Controller.getCandidateById (s : Store) (candidateId : String) : Reply :=
  if candidateId = "" then ⟨.badRequest "Candidate ID is required", s⟩
  else
    let called := VoteByte.getCandidateById s candidateId
    match called.result with
    | .ok candidate =>
      ⟨.success "Candidate fetched successfully" (some candidate.toJSON) none, called.store⟩
    | .error message =>
      if includes message "not found" then ⟨.notFound message, called.store⟩
      else ⟨.error message 500, called.store⟩

/-- The controller `getCandidateProfile(req, res)`. -/
def Controller.getCandidateProfile (s : Store) (candidateId : String) : Reply :=
  if candidateId = "" then ⟨.badRequest "Candidate ID is required", s⟩
  else
    let called := VoteByte.getCandidateProfile s candidateId
    match called.result with
    | .ok candidate =>
      ⟨.success "Candidate profile fetched successfully" (some candidate.toPublicJSON) none,
        called.store⟩
    | .error message =>
      if includes message "not found" || includes message "not available" then
        ⟨.notFound message, called.store⟩
      else ⟨.error message 500, called.store⟩

/-- The controller `updateCandidate(req, res)`. -/
def Controller.updateCandidate (numberText : JsNumber → String) (s : Store)
    (candidateId : String) (body : UpdateBody) (userId : String) : Reply :=
  if candidateId = "" then ⟨.badRequest "Candidate ID is required", s⟩
  else
    let called :=
      VoteByte.updateCandidate s candidateId (updateDataOf numberText body) userId
    match called.result with
    | .ok candidate =>
      ⟨.success "Candidate updated successfully" (some candidate.toJSON) none, called.store⟩
    | .error message =>
      if includes message "not found" then ⟨.notFound message, called.store⟩
      else if includes message "Unauthorized" then ⟨.unauthorized message, called.store⟩
      else if includes message "Invalid" then ⟨.badRequest message, called.store⟩
      else ⟨.error message 500, called.store⟩

/-- The controller `deleteCandidate(req, res)`. -/
def Controller.deleteCandidate (s : Store) (candidateId userId : String) : Reply :=
  if candidateId = "" then ⟨.badRequest "Candidate ID is required", s⟩
  else
    let called := VoteByte.deleteCandidate s candidateId userId
    match called.result with
    | .ok _ => ⟨.success "Candidate deleted successfully" none none, called.store⟩
    | .error message =>
      if includes message "not found" then ⟨.notFound message, called.store⟩
      else if includes message "Unauthorized" then ⟨.unauthorized message, called.store⟩
      else if includes message "can only delete" then ⟨.error message 400, called.store⟩
      else ⟨.error message 500, called.store⟩

/-! ## The chart data of a summary (`models/CandidateResult.js`,
`models/ElectionResultSummary.js`) -/

/-- The getter `label` of `CandidateResult`: the party name unless it is falsy or
`'Independent'`, else the candidate's name, as text. -/
def CandidateResult.label (numberText : JsNumber → String) (c : CandidateResult) : String :=
  let base :=
    if (c.party_name.and (.bool (decide (c.party_name ≠ .str "Independent")))).truthy then
      c.party_name
    else .str c.name
  jsToString numberText base

/-- The object `toPieSlice()` returns. -/
structure PieSlice where
  id : String
  label : String
  value : Int
  percentage : Int
  deriving DecidableEq

/-- The object `toBarDatum()` returns. -/
structure BarDatum where
  x : String
  y : Int
  candidateId : String
  percentage : Int
  deriving DecidableEq

/-- The method `toPieSlice()` of `CandidateResult`. -/
def CandidateResult.toPieSlice (numberText : JsNumber → String) (c : CandidateResult) :
    PieSlice :=
  { id := c.candidate_id
    label := c.label numberText
    value := c.total_votes
    percentage := c.vote_percentage }

/-- The method `toBarDatum()` of `CandidateResult`. -/
def CandidateResult.toBarDatum (numberText : JsNumber → String) (c : CandidateResult) :
    BarDatum :=
  { x := c.label numberText
    y := c.total_votes
    candidateId := c.candidate_id
    percentage := c.vote_percentage }

/-- A point of the bar series: `{ x, y, candidateId }`. -/
structure BarPoint where
  x : String
  y : Int
  candidateId : String
  deriving DecidableEq

/-- A series of the bar chart. -/
structure BarSeries where
  name : String
  data : List BarPoint
  deriving DecidableEq

/-- The `pie` part of the chart data. -/
structure PieChart where
  labels : List String
  series : List Int
  slices : List PieSlice
  deriving DecidableEq

/-- The `bar` part of the chart data. -/
structure BarChart where
  categories : List String
  series : List BarSeries
  deriving DecidableEq

/-- The `summary` part of the chart data. -/
structure ChartSummary where
  totalVotes : Int
  voterTurnoutPercentage : Int
  deriving DecidableEq

/-- The chart data of a summary; `slices` is the key `meta` of the source. -/
structure ChartData where
  pie : PieChart
  bar : BarChart
  summary : ChartSummary
  deriving DecidableEq

/-- The private method `#buildChartData()` of `ElectionResultSummary`. -/
def ElectionResultSummary.buildChartData (numberText : JsNumber → String)
    (summary : ElectionResultSummary) : ChartData :=
  let pieSlices := summary.candidates.map (fun candidate => candidate.toPieSlice numberText)
  let barSeries := summary.candidates.map (fun candidate => candidate.toBarDatum numberText)
  { pie :=
      { labels := pieSlices.map (fun slice => slice.label)
        series := pieSlices.map (fun slice => slice.value)
        slices := pieSlices }
    bar :=
      { categories := barSeries.map (fun datum => datum.x)
        series :=
          [{ name := "Votes"
             data := barSeries.map (fun datum =>
               { x := datum.x, y := datum.y, candidateId := datum.candidateId }) }] }
    summary :=
      { totalVotes := summary.totalVotes
        voterTurnoutPercentage := summary.voterTurnoutPercentage } }

/-! ## The list of completed results (`services/resultService.js`) -/

/-- The query `election.findMany` of `listCompletedResults`: the elections whose status is
COMPLETED, as the storage layer returns them for `orderBy: { end_time: 'desc' }` (elections
with equal end times keep their table order), each with the relations the result service
includes. -/
def Store.completedElections (s : Store) : List ElectionRecord :=
  ((s.elections.filter (fun e => e.status = "COMPLETED")).insertionSort
    (fun a b => b.end_time ≤ a.end_time)).map s.loadRecord

/-- The loop of `listCompletedResults` from its iteration `i` on: each election's summary is
built with `persist: false` and its `toJSON()` is pushed; `now i` is the value of `new Date()`
in iteration `i`. -/
def buildSummaries (now : Nat → Int) (transactionFails : Bool) :
    Store → Nat → List ElectionRecord → ResultOutcome (List SummaryJson)
  | s, _, [] => ⟨.ok [], s, false⟩
  | s, i, election :: rest =>
    let built := buildSummary s (now i) transactionFails election false false
    match built.result with
    | .error message => ⟨.error message, built.store, built.persisted⟩
    | .ok summary =>
      let others := buildSummaries now transactionFails built.store (i + 1) rest
      match others.result with
      | .error message => ⟨.error message, others.store, built.persisted || others.persisted⟩
      | .ok summaries =>
        ⟨.ok (summary.toJSON :: summaries), others.store, built.persisted || others.persisted⟩

/-- The method `listCompletedResults()`. -/
def listCompletedResults (s : Store) (now : Nat → Int) (transactionFails : Bool) :
    ResultOutcome (List SummaryJson) :=
  buildSummaries now transactionFails s 0 s.completedElections

/-! ## The verification service (`services/verificationService.js`) -/

/-- An entry of the in-memory map `otpStore`: the code and the time it expires. -/
structure OtpEntry where
  code : String
  expiresAt : Int
  deriving DecidableEq

/-- The state of the verification service: the relational store and the in-memory map
`otpStore` from e-mail addresses to entries (its keys are pairwise different). -/
structure VerificationState where
  store : Store := {}
  otpStore : List (String × OtpEntry) := []
  deriving DecidableEq

/-- The call `otpStore.get(email)`. -/
def otpGet (m : List (String × OtpEntry)) (email : String) : Option OtpEntry :=
  (m.find? (fun p => p.1 = email)).map (fun p => p.2)

/-- The call `otpStore.set(email, entry)`: the entry of an existing key is replaced, a new
key is added at the end. -/
def otpSet (m : List (String × OtpEntry)) (email : String) (entry : OtpEntry) :
    List (String × OtpEntry) :=
  match otpGet m email with
  | some _ => m.map (fun p => if p.1 = email then (email, entry) else p)
  | none => m ++ [(email, entry)]

/-- The call `otpStore.delete(email)`. -/
def otpDelete (m : List (String × OtpEntry)) (email : String) : List (String × OtpEntry) :=
  m.filter (fun p => ¬ p.1 = email)

/-- The statement `user.update` with `where: { email }` and `data: { status: 'ACTIVE' }`, or
`none` (the storage layer throws) when no user has the address. -/
def Store.activateUser (s : Store) (email : String) : Option Store :=
  match s.users.find? (fun u => u.email = email) with
  | none => none
  | some _ =>
    let rows := s.users.map (fun u =>
      if u.email = email then { u with status := "ACTIVE" } else u)
    some { s with users := rows }

/-- The message of the error thrown when the mail transport fails.  Its text belongs to the
mail client; this text stands for it. -/
def mailTransportFailed : String := "Mail transport failed."

/-- What a call of the verification service leaves behind: its result and the state after
the call. -/
structure OtpOutcome (α : Type) where
  result : Except String α
  state : VerificationState

/-- The function `sendOtp(email)`; `now` is the value of `Date.now()`, `generated` the value
of `generateOtp()`, and `mailFails` tells whether sending the mail throws. -/
def sendOtp (st : VerificationState) (now : Int) (generated : String) (mailFails : Bool)
    (email : String) : OtpOutcome Bool :=
  match st.store.users.find? (fun u => u.email = email) with
  | none => ⟨.error "User not found", st⟩
  | some user =>
    if user.status = "ACTIVE" then ⟨.error "User already verified", st⟩
    else
      let expiresAt := now + 5 * 60 * 1000
      let st1 := { st with otpStore := otpSet st.otpStore email ⟨generated, expiresAt⟩ }
      if mailFails then ⟨.error mailTransportFailed, st1⟩ else ⟨.ok true, st1⟩

/-- The object `verifyOtp` returns: `{ ok: true }`, or `{ ok: false, reason }`. -/
inductive Verification where
  | ok
  | refused (reason : String)
  deriving DecidableEq

/-- The function `verifyOtp(email, code)`; `now` is the value of `Date.now()`. -/
def verifyOtp (numberText : JsNumber → String) (st : VerificationState) (now : Int)
    (email : String) (code : JsValue) : OtpOutcome Verification :=
  match otpGet st.otpStore email with
  | none => ⟨.ok (.refused "no_otp"), st⟩
  | some entry =>
    if now > entry.expiresAt then
      ⟨.ok (.refused "expired"), { st with otpStore := otpDelete st.otpStore email }⟩
    else if jsToString numberText code ≠ entry.code then ⟨.ok (.refused "invalid"), st⟩
    else
      match st.store.activateUser email with
      | none => ⟨.error storageRecordMissing, st⟩
      | some store1 => ⟨.ok .ok, { store := store1, otpStore := otpDelete st.otpStore email }⟩

/-- A call of the verification service with its arguments, the clock and, for `sendOtp`, the
generated code and the fate of the mail. -/
inductive OtpCall where
  | send (now : Int) (generated : String) (mailFails : Bool) (email : String)
  | verify (now : Int) (email : String) (code : JsValue)
  deriving DecidableEq

/-- The state a call of the verification service leaves behind, whether it returns or
throws. -/
def OtpCall.run (numberText : JsNumber → String) (st : VerificationState) :
    OtpCall → VerificationState
  | .send now generated mailFails email => (sendOtp st now generated mailFails email).state
  | .verify now email code => (verifyOtp numberText st now email code).state

/-- The state after a sequence of calls of the verification service. -/
def runOtpCalls (numberText : JsNumber → String) (st : VerificationState)
    (calls : List OtpCall) : VerificationState :=
  calls.foldl (OtpCall.run numberText) st

/-- A code was issued for `email` by a `sendOtp` call of the sequence: the call reached
`otpStore.set` with this code, at the time `issuedAt`. -/
def IssuedBy (calls : List OtpCall) (email code : String) (issuedAt : Int) : Prop :=
  ∃ mailFails, OtpCall.send issuedAt code mailFails email ∈ calls

instance (calls : List OtpCall) (email code : String) (issuedAt : Int) :
    Decidable (IssuedBy calls email code issuedAt) := by
  unfold IssuedBy; infer_instance

/-! ## Sample data -/

/-- A pending candidacy of user `u1` in election `e1`. -/
def sampleRow : CandidateRow :=
  { candidate_id := "c1", election_id := "e1", user_id := "u1"
    party_name := .str "Unity", symbol := .str "Star", manifesto := .str ""
    age := .num (.ofInt 30), qualification := .str "BSc"
    total_votes := 0, status := "PENDING", registered_at := 100 }

/-- A store with one active election `e1` administered by `admin`, holding `sampleRow`; users
`u1` and `u2` are registered. -/
def sampleStore : Store :=
  { candidates := [sampleRow]
    elections := [{ election_id := "e1", title := "Council", status := "ACTIVE",
                    total_candidates := 1 }]
    admins := [{ user_id := "admin", election_id := "e1" }]
    users := [{ user_id := "u1", fullname := "Asha", email := "asha@example.org" },
              { user_id := "u2", fullname := "Bilal", email := "bilal@example.org" }] }

/-- Candidate data that passes validation, for election `e1`. -/
def sampleData : CandidateData :=
  { election_id := "e1", party_name := .str "Forward", symbol := .str "Lamp"
    manifesto := .undefined, age := .num (.ofInt 41), qualification := .str "MA" }

/-- Candidate data for election `e1` whose `party_name` is empty. -/
def emptyPartyData : CandidateData :=
  { election_id := "e1", party_name := .str "", symbol := .str "Lamp"
    manifesto := .undefined, age := .num (.ofInt 41), qualification := .str "MA" }

/-- An update that supplies a new party name and a new age. -/
def sampleUpdate : UpdateData :=
  { party_name := some (.str "Progress"), age := some (.num (.ofInt 31)) }

/-- A candidate whose `age` is a non-numeric string; every other field is valid. -/
def nonNumericAgeCandidate : Candidate :=
  { candidate_id := .str "c9", election_id := .str "e1", user_id := .str "u1"
    party_name := .str "Unity", symbol := .str "Star", manifesto := .str ""
    age := .str "abc", qualification := .str "BSc"
    total_votes := .num (.ofInt 0), status := .str "PENDING" }

/-- A candidate without `user_id`; the profile fields and the status are valid. -/
def noUserCandidate : Candidate :=
  { candidate_id := .str "c9", election_id := .str "e1", user_id := .undefined
    party_name := .str "Unity", symbol := .str "Star", manifesto := .str ""
    age := .num (.ofInt 30), qualification := .str "BSc"
    total_votes := .num (.ofInt 0), status := .str "PENDING" }

/-- An approved candidacy in election `electionId` with the given vote total. -/
def approvedRow (candidateId electionId userId : String) (votes : Int) : CandidateRow :=
  { candidate_id := candidateId, election_id := electionId, user_id := userId
    party_name := .str "Unity", symbol := .str "Star", manifesto := .str ""
    age := .num (.ofInt 30), qualification := .str "BSc"
    total_votes := votes, status := "APPROVED", registered_at := 100 }

/-- The completed election `e2` of the scenario, with 100 registered voters. -/
def scenarioElection : ElectionRow :=
  { election_id := "e2", title := "Board", status := "COMPLETED"
    total_candidates := 4, total_voters := 100, end_time := 900 }

/-- The scenario of the specification: a completed election `e2` with 100 registered voters,
100 vote records, approved candidates with 20, 50 and 30 votes, and a pending candidacy. -/
def scenarioStore : Store :=
  { candidates :=
      [approvedRow "c20" "e2" "u3" 20, approvedRow "c50" "e2" "u1" 50,
       { approvedRow "c0" "e2" "u4" 0 with status := "PENDING" },
       approvedRow "c30" "e2" "u2" 30]
    elections := [scenarioElection]
    users := [{ user_id := "u1", fullname := "Asha" }, { user_id := "u2", fullname := "Bilal" },
              { user_id := "u3", fullname := "Chen" }, { user_id := "u4", fullname := "Dana" }]
    votes := List.replicate 100 { election_id := "e2" } }

/-- A completed election `e3` with 160 registered voters and 23 vote records, and a completed
election `e4` with 160 vote records whose approved candidates have 137 and 23 votes. -/
def roundingStore : Store :=
  { candidates := [approvedRow "c137" "e4" "u1" 137, approvedRow "c23" "e4" "u2" 23]
    elections := [{ election_id := "e3", title := "Senate", status := "COMPLETED",
                    total_voters := 160, end_time := 900 },
                  { election_id := "e4", title := "Union", status := "COMPLETED",
                    total_candidates := 2, total_voters := 200, end_time := 950 }]
    users := [{ user_id := "u1", fullname := "Asha" }, { user_id := "u2", fullname := "Bilal" }]
    votes := List.replicate 23 { election_id := "e3" } ++
      List.replicate 160 { election_id := "e4" } }

/-- The summary of the scenario election, built at time `500`. -/
def scenarioSummary : SummaryJson :=
  (summaryOf scenarioStore 500 (scenarioStore.loadRecord scenarioElection)).toJSON

/-- The store of the sample candidacy after the admin has approved it. -/
def decidedStore : Store := (approveCandidate sampleStore "c1" "admin").store

/-- A completed election `e5` administered by `admin`, with 20 registered voters, 10 vote
records and a single approved candidate `cw`. -/
def singleWinnerStore : Store :=
  { candidates := [approvedRow "cw" "e5" "u1" 10]
    elections := [{ election_id := "e5", title := "Guild", status := "COMPLETED",
                    total_candidates := 1, total_voters := 20, end_time := 900 }]
    admins := [{ user_id := "admin", election_id := "e5" }]
    users := [{ user_id := "u1", fullname := "Asha" }]
    votes := List.replicate 10 { election_id := "e5" } }

/-- The text of a number in the sample calls: no sample passes a number where a text is
read. -/
def sampleNumberText (_ : JsNumber) : String := "NaN"

/-- The verification service at start: the users of the sample store, no code issued. -/
def sampleVerification : VerificationState := { store := sampleStore }

/-! ## Theorems -/

/-! ### JavaScript operators -/

@[simp] theorem JsValue.truthy_bool (b : Bool) : (JsValue.bool b).truthy = b := rfl

theorem JsValue.bool_eq_true_iff (b : Bool) : JsValue.bool b = .bool true ↔ b = true := by
  constructor
  · intro h; injection h
  · intro h; rw [h]

theorem JsValue.truthy_and (a b : JsValue) : (a.and b).truthy = (a.truthy && b.truthy) := by
  unfold JsValue.and
  by_cases h : a.truthy = true <;> simp [h]

theorem JsValue.and_eq_true_iff (a b : JsValue) :
    a.and b = .bool true ↔ (a.truthy = true ∧ b = .bool true) := by
  unfold JsValue.and
  by_cases h : a.truthy = true
  · simp [h]
  · have hf : a.truthy = false := by simpa using h
    constructor
    · intro ha
      simp only [hf, Bool.false_eq_true, if_false] at ha
      rw [ha] at hf
      exact absurd hf (by decide)
    · intro ha
      exact absurd ha.1 h

theorem statusListIncludes_iff (v : JsValue) :
    statusListIncludes v = true ↔
      (v = .str "PENDING" ∨ v = .str "APPROVED" ∨ v = .str "REJECTED") := by
  simp [statusListIncludes, List.contains_iff_exists_mem_beq]

/-! ### Numeric strings -/

/-- The JavaScript number of a number of the format is its value. -/
theorem JsNumber.ofBinary64_eq (x : Binary64) : JsNumber.ofBinary64 x = .finite x.toRat := by
  unfold JsNumber.ofBinary64 Binary64.toRat Binary64.magnitude
  congr 1
  by_cases he : 0 ≤ x.exponent
  · obtain ⟨n, hn⟩ := Int.eq_ofNat_of_zero_le he
    cases hneg : x.negative <;> simp [he, hn, Rat.mkRat_eq_div, zpow_natCast]
  · have hlt : x.exponent < 0 := not_le.mp he
    obtain ⟨n, hn⟩ := Int.exists_eq_neg_ofNat (le_of_lt hlt)
    have hn0 : n ≠ 0 := by
      rintro rfl
      simp [hn] at hlt
    cases hneg : x.negative <;>
      simp [he, hn, hn0, Rat.mkRat_eq_div, zpow_neg, zpow_natCast, div_eq_mul_inv]

/-- A numeric string is rounded to the binary64 format: `'1e-400'` is `0`,
`'149.99999999999999999'` is `150`, `'1e400'` is `Infinity`, and `'0.1'` is the number of the
format next to one tenth. -/
theorem stringToNumber_rounds :
    stringToNumber "1e-400" = .finite 0 ∧
    stringToNumber "149.99999999999999999" = .finite 150 ∧
    stringToNumber "1e400" = .posInf ∧
    stringToNumber "0.1" = .finite (mkRat 3602879701896397 36028797018963968) := by
  refine ⟨by decide!, by decide, by decide!, by decide⟩

/-- A string age that rounds to `0` or to `150` is refused by `isValid()` and listed by
`getValidationErrors()`. -/
theorem rounded_string_age_refused :
    ({ nonNumericAgeCandidate with age := .str "1e-400" } : Candidate).isValid = .bool false ∧
    ({ nonNumericAgeCandidate with age := .str "1e-400" } : Candidate).getValidationErrors =
      ["Valid age is required (between 1 and 149)"] ∧
    ({ nonNumericAgeCandidate with age := .str "149.99999999999999999" } :
      Candidate).isValid = .bool false ∧
    ({ nonNumericAgeCandidate with age := .str "149.99999999999999999" } :
      Candidate).getValidationErrors = ["Valid age is required (between 1 and 149)"] := by
  refine ⟨by decide!, by decide!, by decide, by decide⟩

/-! ### Outcomes and storage statements -/

@[simp] theorem Outcome.rethrow_store {α : Type} (t : String) (o : Outcome α) :
    (o.rethrow t).store = o.store := by
  unfold Outcome.rethrow; split <;> rfl

theorem Outcome.rethrow_ok_iff {α : Type} (t : String) (o : Outcome α) (a : α) :
    (o.rethrow t).result = .ok a ↔ o.result = .ok a := by
  unfold Outcome.rethrow; split <;> simp_all

theorem Outcome.rethrow_error {α : Type} (t : String) (o : Outcome α) (m : String)
    (h : o.result = .error m) : (o.rethrow t).result = .error (t ++ m) := by
  unfold Outcome.rethrow; split <;> simp_all

@[simp] theorem Outcome.rethrow_succeeded {α : Type} (t : String) (o : Outcome α) :
    (o.rethrow t).succeeded = o.succeeded := by
  unfold Outcome.rethrow Outcome.succeeded
  cases h : o.result <;> simp [h]

/-- What a successful `registerCandidate` body has checked and written. -/
theorem registerCandidateTry_ok (s : Store) (uuid : String) (now : Int) (data : CandidateData)
    (userId : String) (c : Candidate)
    (h : (registerCandidateTry s uuid now data userId).result = .ok c) :
    (registrationCandidate uuid data userId).isValid.truthy = true ∧
    s.findCandidacy data.election_id userId = none ∧
    (∃ e, s.findElection data.election_id = some e ∧ e.status ≠ "COMPLETED" ∧
      e.status ≠ "CANCELLED") ∧
    s.findCandidate uuid = none ∧
    c = (registrationRow uuid now data userId).toCandidate (s.includeUser userId) ∧
    (registerCandidateTry s uuid now data userId).store =
      { s with
        candidates := s.candidates ++ [registrationRow uuid now data userId]
        elections := s.elections.map (fun x =>
          if x.election_id = data.election_id then
            { x with total_candidates := x.total_candidates + 1 }
          else x) } := by
  by_cases hv : (registrationCandidate uuid data userId).isValid.not = true
  · simp [registerCandidateTry, hv] at h
  cases hc : s.findCandidacy data.election_id userId with
  | some r => simp [registerCandidateTry, hv, hc] at h
  | none =>
    cases he : s.findElection data.election_id with
    | none => simp [registerCandidateTry, hv, hc, he] at h
    | some e =>
      by_cases hs : e.status = "COMPLETED" ∨ e.status = "CANCELLED"
      · simp [registerCandidateTry, hv, hc, he, hs] at h
      have hrow : (registrationRow uuid now data userId).candidate_id = uuid := rfl
      cases hu : s.findCandidate uuid with
      | some r =>
        simp [registerCandidateTry, hv, hc, he, hs, Store.createCandidate, hrow, hu] at h
      | none =>
        have he1 : Store.findElection
            { s with candidates := s.candidates ++ [registrationRow uuid now data userId] }
            data.election_id = some e := he
        simp [registerCandidateTry, hv, hc, he, hs, Store.createCandidate, hrow, hu,
          Store.addTotalCandidates, he1] at h ⊢
        refine ⟨?_, ?_, h.symm⟩
        · simpa [JsValue.not] using hv
        · exact ⟨fun h1 => hs (Or.inl h1), fun h2 => hs (Or.inr h2)⟩

theorem Store.findElection_id (s : Store) (id : String) (e : ElectionRow)
    (h : s.findElection id = some e) : e.election_id = id := by
  have := List.find?_some h
  simpa using this

theorem Store.findCandidate_id (s : Store) (id : String) (c : CandidateRow)
    (h : s.findCandidate id = some c) : c.candidate_id = id := by
  have := List.find?_some h
  simpa using this

theorem Store.findCandidate_mem (s : Store) (id : String) (c : CandidateRow)
    (h : s.findCandidate id = some c) : c ∈ s.candidates :=
  List.mem_of_find?_eq_some h

/-- A `find?` after a `map` that does not change what the test looks at. -/
theorem find_map_of_preserved {α : Type} (f : α → α) (p : α → Bool)
    (hp : ∀ x, p (f x) = p x) (l : List α) :
    (l.map f).find? p = (l.find? p).map f := by
  rw [List.find?_map]
  have : p ∘ f = p := funext hp
  rw [this]

/-- Looking an election up after a counter update on the election table. -/
theorem find_election_after_counter_update (l : List ElectionRow) (eid id : String) (d : Int) :
    (l.map (fun x => if x.election_id = eid then
        { x with total_candidates := x.total_candidates + d } else x)).find?
      (fun e => e.election_id = id) =
    (l.find? (fun e => e.election_id = id)).map (fun x => if x.election_id = eid then
        { x with total_candidates := x.total_candidates + d } else x) := by
  apply find_map_of_preserved
  intro x
  by_cases hb : x.election_id = eid <;> simp [hb]

/-- A `find?` that finds nothing leaves an empty `filter`. -/
theorem filter_eq_nil_of_find_none {α : Type} (p : α → Bool) (l : List α)
    (h : l.find? p = none) : l.filter p = [] := by
  rw [List.filter_eq_nil_iff]
  intro a ha
  rw [List.find?_eq_none] at h
  exact h a ha

/-! ### Case analysis of the service methods -/

theorem registerCandidateTry_invalid (s : Store) (uuid : String) (now : Int)
    (data : CandidateData) (userId : String)
    (hv : (registrationCandidate uuid data userId).isValid.truthy = false) :
    registerCandidateTry s uuid now data userId =
      ⟨.error ("Invalid candidate data: " ++
        ", ".intercalate (registrationCandidate uuid data userId).getValidationErrors), s⟩ := by
  simp [registerCandidateTry, JsValue.not, hv]

theorem registerCandidateTry_duplicate (s : Store) (uuid : String) (now : Int)
    (data : CandidateData) (userId : String) (r : CandidateRow)
    (hv : (registrationCandidate uuid data userId).isValid.truthy = true)
    (hc : s.findCandidacy data.election_id userId = some r) :
    registerCandidateTry s uuid now data userId =
      ⟨.error "User is already registered as a candidate for this election", s⟩ := by
  simp [registerCandidateTry, JsValue.not, hv, hc]

theorem registerCandidateTry_no_election (s : Store) (uuid : String) (now : Int)
    (data : CandidateData) (userId : String)
    (hv : (registrationCandidate uuid data userId).isValid.truthy = true)
    (hc : s.findCandidacy data.election_id userId = none)
    (he : s.findElection data.election_id = none) :
    registerCandidateTry s uuid now data userId = ⟨.error "Election not found", s⟩ := by
  simp [registerCandidateTry, JsValue.not, hv, hc, he]

theorem registerCandidateTry_closed (s : Store) (uuid : String) (now : Int)
    (data : CandidateData) (userId : String) (e : ElectionRow)
    (hv : (registrationCandidate uuid data userId).isValid.truthy = true)
    (hc : s.findCandidacy data.election_id userId = none)
    (he : s.findElection data.election_id = some e)
    (hs : e.status = "COMPLETED" ∨ e.status = "CANCELLED") :
    registerCandidateTry s uuid now data userId =
      ⟨.error ("Cannot register candidates for " ++ toLowerCase e.status ++ " elections"), s⟩ := by
  simp [registerCandidateTry, JsValue.not, hv, hc, he, hs]

theorem registerCandidateTry_taken (s : Store) (uuid : String) (now : Int)
    (data : CandidateData) (userId : String) (e : ElectionRow) (r : CandidateRow)
    (hv : (registrationCandidate uuid data userId).isValid.truthy = true)
    (hc : s.findCandidacy data.election_id userId = none)
    (he : s.findElection data.election_id = some e)
    (hs : ¬ (e.status = "COMPLETED" ∨ e.status = "CANCELLED"))
    (hu : s.findCandidate uuid = some r) :
    registerCandidateTry s uuid now data userId = ⟨.error storageUniqueViolation, s⟩ := by
  have hrow : (registrationRow uuid now data userId).candidate_id = uuid := rfl
  simp [registerCandidateTry, JsValue.not, hv, hc, he, hs, Store.createCandidate, hrow, hu]

theorem registerCandidateTry_created (s : Store) (uuid : String) (now : Int)
    (data : CandidateData) (userId : String) (e : ElectionRow)
    (hv : (registrationCandidate uuid data userId).isValid.truthy = true)
    (hc : s.findCandidacy data.election_id userId = none)
    (he : s.findElection data.election_id = some e)
    (hs : ¬ (e.status = "COMPLETED" ∨ e.status = "CANCELLED"))
    (hu : s.findCandidate uuid = none) :
    registerCandidateTry s uuid now data userId =
      ⟨.ok ((registrationRow uuid now data userId).toCandidate (s.includeUser userId)),
        { s with
          candidates := s.candidates ++ [registrationRow uuid now data userId]
          elections := s.elections.map (fun x =>
            if x.election_id = data.election_id then
              { x with total_candidates := x.total_candidates + 1 }
            else x) }⟩ := by
  have hrow : (registrationRow uuid now data userId).candidate_id = uuid := rfl
  have he1 : Store.findElection
      { s with candidates := s.candidates ++ [registrationRow uuid now data userId] }
      data.election_id = some e := he
  simp [registerCandidateTry, JsValue.not, hv, hc, he, hs, Store.createCandidate, hrow, hu,
    Store.addTotalCandidates, he1]

theorem approveCandidateTry_missing (s : Store) (candidateId userId : String)
    (hc : s.findCandidate candidateId = none) :
    approveCandidateTry s candidateId userId = ⟨.error "Candidate not found", s⟩ := by
  simp [approveCandidateTry, hc]

theorem approveCandidateTry_unauthorized (s : Store) (candidateId userId : String)
    (c : CandidateRow) (hc : s.findCandidate candidateId = some c)
    (ha : s.findAdmin userId c.election_id = none) :
    approveCandidateTry s candidateId userId =
      ⟨.error "Unauthorized: Only election creator can approve candidates", s⟩ := by
  simp [approveCandidateTry, hc, ha]

theorem approveCandidateTry_done (s : Store) (candidateId userId : String)
    (c : CandidateRow) (a : AdminRow) (hc : s.findCandidate candidateId = some c)
    (ha : s.findAdmin userId c.election_id = some a) :
    approveCandidateTry s candidateId userId =
      ⟨.ok (({ c with status := "APPROVED" } : CandidateRow).toCandidate
          (s.includeUser c.user_id)),
        { s with candidates := s.candidates.map (fun x =>
            if x.candidate_id = candidateId then { x with status := "APPROVED" } else x) }⟩ := by
  simp [approveCandidateTry, hc, ha, Store.updateCandidateRow]

theorem rejectCandidateTry_missing (s : Store) (candidateId userId : String)
    (hc : s.findCandidate candidateId = none) :
    rejectCandidateTry s candidateId userId = ⟨.error "Candidate not found", s⟩ := by
  simp [rejectCandidateTry, hc]

theorem rejectCandidateTry_unauthorized (s : Store) (candidateId userId : String)
    (c : CandidateRow) (hc : s.findCandidate candidateId = some c)
    (ha : s.findAdmin userId c.election_id = none) :
    rejectCandidateTry s candidateId userId =
      ⟨.error "Unauthorized: Only election creator can reject candidates", s⟩ := by
  simp [rejectCandidateTry, hc, ha]

theorem rejectCandidateTry_orphan (s : Store) (candidateId userId : String)
    (c : CandidateRow) (a : AdminRow) (hc : s.findCandidate candidateId = some c)
    (ha : s.findAdmin userId c.election_id = some a)
    (he : s.findElection c.election_id = none) :
    rejectCandidateTry s candidateId userId =
      ⟨.error storageRecordMissing,
        { s with candidates := s.candidates.map (fun x =>
            if x.candidate_id = candidateId then { x with status := "REJECTED" } else x) }⟩ := by
  have he1 : Store.findElection
      { s with candidates := s.candidates.map (fun x =>
          if x.candidate_id = candidateId then { x with status := "REJECTED" } else x) }
      c.election_id = none := he
  simp [rejectCandidateTry, hc, ha, Store.updateCandidateRow, Store.addTotalCandidates, he1]

theorem rejectCandidateTry_done (s : Store) (candidateId userId : String)
    (c : CandidateRow) (a : AdminRow) (e : ElectionRow)
    (hc : s.findCandidate candidateId = some c)
    (ha : s.findAdmin userId c.election_id = some a)
    (he : s.findElection c.election_id = some e) :
    rejectCandidateTry s candidateId userId =
      ⟨.ok (({ c with status := "REJECTED" } : CandidateRow).toCandidate
          (s.includeUser c.user_id)),
        { s with
          candidates := s.candidates.map (fun x =>
            if x.candidate_id = candidateId then { x with status := "REJECTED" } else x)
          elections := s.elections.map (fun x =>
            if x.election_id = c.election_id then
              { x with total_candidates := x.total_candidates + -1 }
            else x) }⟩ := by
  have he1 : Store.findElection
      { s with candidates := s.candidates.map (fun x =>
          if x.candidate_id = candidateId then { x with status := "REJECTED" } else x) }
      c.election_id = some e := he
  simp [rejectCandidateTry, hc, ha, Store.updateCandidateRow, Store.addTotalCandidates, he1]

/-- A `find?` for a stronger test finds the same row when that row passes the test. -/
theorem find_stronger {α : Type} (p q : α → Bool) (l : List α) (c : α)
    (h : l.find? p = some c) (hqp : ∀ x, q x = true → p x = true) (hq : q c = true) :
    l.find? q = some c := by
  induction l with
  | nil => simp at h
  | cons a t ih =>
    by_cases hpa : p a = true
    · have hac : a = c := by simpa [List.find?, hpa] using h
      subst hac
      simp [List.find?, hq]
    · have hqa : q a = false := by
        cases hqa : q a
        · rfl
        · exact absurd (hqp a hqa) hpa
      have hpa' : p a = false := by simpa using hpa
      simp only [List.find?, hpa'] at h
      simp only [List.find?, hqa]
      exact ih h

theorem updateCandidateTry_missing (s : Store) (candidateId : String) (u : UpdateData)
    (userId : String) (hc : s.findCandidate candidateId = none) :
    updateCandidateTry s candidateId u userId = ⟨.error "Candidate not found", s⟩ := by
  simp [updateCandidateTry, hc]

theorem updateCandidateTry_unauthorized (s : Store) (candidateId : String) (u : UpdateData)
    (userId : String) (c : CandidateRow) (hc : s.findCandidate candidateId = some c)
    (ho : c.user_id ≠ userId) :
    updateCandidateTry s candidateId u userId =
      ⟨.error "Unauthorized: Can only update your own candidate profile", s⟩ := by
  simp [updateCandidateTry, hc, ho]

theorem updateCandidateTry_not_pending (s : Store) (candidateId : String) (u : UpdateData)
    (userId : String) (c : CandidateRow) (hc : s.findCandidate candidateId = some c)
    (ho : c.user_id = userId) (hp : c.status ≠ "PENDING") :
    updateCandidateTry s candidateId u userId =
      ⟨.error "Can only update pending candidate registrations", s⟩ := by
  simp [updateCandidateTry, hc, ho, hp]

theorem updateCandidateTry_invalid (s : Store) (candidateId : String) (u : UpdateData)
    (userId : String) (c : CandidateRow) (hc : s.findCandidate candidateId = some c)
    (ho : c.user_id = userId) (hp : c.status = "PENDING")
    (hv : (mergedCandidate c u).isValid.truthy = false) :
    updateCandidateTry s candidateId u userId =
      ⟨.error ("Invalid candidate data: " ++
        ", ".intercalate (mergedCandidate c u).getValidationErrors), s⟩ := by
  simp [updateCandidateTry, hc, ho, hp, JsValue.not, hv]

theorem updateCandidateTry_done (s : Store) (candidateId : String) (u : UpdateData)
    (userId : String) (c : CandidateRow) (hc : s.findCandidate candidateId = some c)
    (ho : c.user_id = userId) (hp : c.status = "PENDING")
    (hv : (mergedCandidate c u).isValid.truthy = true) :
    updateCandidateTry s candidateId u userId =
      ⟨.ok ((updateWrite c u c).toCandidate (s.includeUser c.user_id)),
        { s with candidates := s.candidates.map (fun x =>
            if x.candidate_id = candidateId ∧ x.election_id = c.election_id then
              updateWrite c u x
            else x) }⟩ := by
  have hid := s.findCandidate_id _ _ hc
  have hf : s.candidates.find?
      (fun x => decide (x.candidate_id = candidateId) && decide (x.election_id = c.election_id)) =
      some c := by
    apply find_stronger _ _ _ _ hc
    · intro x hx
      simp only [Bool.and_eq_true, decide_eq_true_eq] at hx ⊢
      exact hx.1
    · simp [hid]
  simp [updateCandidateTry, hc, ho, hp, JsValue.not, hv, Store.updateCandidateRowIn, hf,
    updateWrite]

theorem deleteCandidateTry_missing (s : Store) (candidateId userId : String)
    (hc : s.findCandidate candidateId = none) :
    deleteCandidateTry s candidateId userId = ⟨.error "Candidate not found", s⟩ := by
  simp [deleteCandidateTry, hc]

theorem deleteCandidateTry_unauthorized (s : Store) (candidateId userId : String)
    (c : CandidateRow) (hc : s.findCandidate candidateId = some c)
    (ho : c.user_id ≠ userId) :
    deleteCandidateTry s candidateId userId =
      ⟨.error "Unauthorized: Can only delete your own candidate profile", s⟩ := by
  simp [deleteCandidateTry, hc, ho]

theorem deleteCandidateTry_not_pending (s : Store) (candidateId userId : String)
    (c : CandidateRow) (hc : s.findCandidate candidateId = some c)
    (ho : c.user_id = userId) (hp : c.status ≠ "PENDING") :
    deleteCandidateTry s candidateId userId =
      ⟨.error "Can only delete pending candidate registrations", s⟩ := by
  simp [deleteCandidateTry, hc, ho, hp]

theorem deleteCandidateTry_orphan (s : Store) (candidateId userId : String)
    (c : CandidateRow) (hc : s.findCandidate candidateId = some c)
    (ho : c.user_id = userId) (hp : c.status = "PENDING")
    (he : s.findElection c.election_id = none) :
    deleteCandidateTry s candidateId userId =
      ⟨.error storageRecordMissing,
        { s with candidates :=
            s.candidates.filter (fun x => ¬ x.candidate_id = candidateId) }⟩ := by
  simp only [Store.findElection] at he
  simp [deleteCandidateTry, hc, ho, hp, Store.deleteCandidateRow, Store.addTotalCandidates,
    Store.findElection, he]

theorem deleteCandidateTry_done (s : Store) (candidateId userId : String)
    (c : CandidateRow) (e : ElectionRow) (hc : s.findCandidate candidateId = some c)
    (ho : c.user_id = userId) (hp : c.status = "PENDING")
    (he : s.findElection c.election_id = some e) :
    deleteCandidateTry s candidateId userId =
      ⟨.ok true,
        { s with
          candidates := s.candidates.filter (fun x => ¬ x.candidate_id = candidateId)
          elections := s.elections.map (fun x =>
            if x.election_id = c.election_id then
              { x with total_candidates := x.total_candidates + -1 }
            else x) }⟩ := by
  simp only [Store.findElection] at he
  simp [deleteCandidateTry, hc, ho, hp, Store.deleteCandidateRow, Store.addTotalCandidates,
    Store.findElection, he]

/-! ### One candidacy per user and election -/

/-- The candidate table after `registerCandidate`: unchanged, or extended by the registered row
when the user had no candidacy for the election. -/
theorem registerCandidate_candidates (s : Store) (uuid : String) (now : Int)
    (data : CandidateData) (userId : String) :
    (registerCandidate s uuid now data userId).store.candidates = s.candidates ∨
    (s.findCandidacy data.election_id userId = none ∧
      (registerCandidate s uuid now data userId).store.candidates =
        s.candidates ++ [registrationRow uuid now data userId]) := by
  unfold registerCandidate
  rw [Outcome.rethrow_store]
  cases hv : (registrationCandidate uuid data userId).isValid.truthy with
  | false => rw [registerCandidateTry_invalid _ _ _ _ _ hv]; exact Or.inl rfl
  | true =>
    cases hc : s.findCandidacy data.election_id userId with
    | some r => rw [registerCandidateTry_duplicate _ _ _ _ _ r hv hc]; exact Or.inl rfl
    | none =>
      cases he : s.findElection data.election_id with
      | none => rw [registerCandidateTry_no_election _ _ _ _ _ hv hc he]; exact Or.inl rfl
      | some e =>
        by_cases hs : e.status = "COMPLETED" ∨ e.status = "CANCELLED"
        · rw [registerCandidateTry_closed _ _ _ _ _ e hv hc he hs]; exact Or.inl rfl
        · cases hu : s.findCandidate uuid with
          | some r =>
            rw [registerCandidateTry_taken _ _ _ _ _ e r hv hc he hs hu]; exact Or.inl rfl
          | none =>
            rw [registerCandidateTry_created _ _ _ _ _ e hv hc he hs hu]
            exact Or.inr ⟨rfl, rfl⟩

/-- Mapping rows by a function that keeps `election_id` and `user_id` keeps the list of
`(election_id, user_id)` pairs. -/
theorem map_pairs_of_preserved (f : CandidateRow → CandidateRow)
    (hf : ∀ c, (f c).election_id = c.election_id ∧ (f c).user_id = c.user_id)
    (l : List CandidateRow) :
    (l.map f).map (fun c => (c.election_id, c.user_id)) =
      l.map (fun c => (c.election_id, c.user_id)) := by
  rw [List.map_map]
  apply List.map_congr_left
  intro c _
  simp [(hf c).1, (hf c).2]

theorem approveCandidate_pairs (s : Store) (candidateId userId : String) :
    (approveCandidate s candidateId userId).store.candidates.map
        (fun c => (c.election_id, c.user_id)) =
      s.candidates.map (fun c => (c.election_id, c.user_id)) := by
  unfold approveCandidate
  rw [Outcome.rethrow_store]
  cases hc : s.findCandidate candidateId with
  | none => rw [approveCandidateTry_missing _ _ _ hc]
  | some c =>
    cases ha : s.findAdmin userId c.election_id with
    | none => rw [approveCandidateTry_unauthorized _ _ _ c hc ha]
    | some a =>
      rw [approveCandidateTry_done _ _ _ c a hc ha]
      apply map_pairs_of_preserved
      intro x
      by_cases hx : x.candidate_id = candidateId <;> simp [hx]

theorem rejectCandidate_pairs (s : Store) (candidateId userId reason : String) :
    (rejectCandidate s candidateId userId reason).store.candidates.map
        (fun c => (c.election_id, c.user_id)) =
      s.candidates.map (fun c => (c.election_id, c.user_id)) := by
  unfold rejectCandidate
  rw [Outcome.rethrow_store]
  cases hc : s.findCandidate candidateId with
  | none => rw [rejectCandidateTry_missing _ _ _ hc]
  | some c =>
    cases ha : s.findAdmin userId c.election_id with
    | none => rw [rejectCandidateTry_unauthorized _ _ _ c hc ha]
    | some a =>
      have hp : ∀ x : CandidateRow,
          (if x.candidate_id = candidateId then { x with status := "REJECTED" }
            else x).election_id = x.election_id ∧
          (if x.candidate_id = candidateId then { x with status := "REJECTED" }
            else x).user_id = x.user_id := by
        intro x
        by_cases hx : x.candidate_id = candidateId <;> simp [hx]
      cases he : s.findElection c.election_id with
      | none =>
        rw [rejectCandidateTry_orphan _ _ _ c a hc ha he]
        exact map_pairs_of_preserved _ hp _
      | some e =>
        rw [rejectCandidateTry_done _ _ _ c a e hc ha he]
        exact map_pairs_of_preserved _ hp _

theorem updateCandidate_pairs (s : Store) (candidateId : String) (u : UpdateData)
    (userId : String) :
    (updateCandidate s candidateId u userId).store.candidates.map
        (fun c => (c.election_id, c.user_id)) =
      s.candidates.map (fun c => (c.election_id, c.user_id)) := by
  unfold updateCandidate
  rw [Outcome.rethrow_store]
  cases hc : s.findCandidate candidateId with
  | none => rw [updateCandidateTry_missing _ _ _ _ hc]
  | some c =>
    by_cases ho : c.user_id = userId
    · by_cases hp : c.status = "PENDING"
      · cases hv : (mergedCandidate c u).isValid.truthy with
        | false => rw [updateCandidateTry_invalid _ _ _ _ c hc ho hp hv]
        | true =>
          rw [updateCandidateTry_done _ _ _ _ c hc ho hp hv]
          apply map_pairs_of_preserved
          intro x
          by_cases hx : x.candidate_id = candidateId ∧ x.election_id = c.election_id <;>
            simp [hx, updateWrite]
      · rw [updateCandidateTry_not_pending _ _ _ _ c hc ho hp]
    · rw [updateCandidateTry_unauthorized _ _ _ _ c hc ho]

theorem deleteCandidate_sublist (s : Store) (candidateId userId : String) :
    (deleteCandidate s candidateId userId).store.candidates.Sublist s.candidates := by
  unfold deleteCandidate
  rw [Outcome.rethrow_store]
  cases hc : s.findCandidate candidateId with
  | none => rw [deleteCandidateTry_missing _ _ _ hc]
  | some c =>
    by_cases ho : c.user_id = userId
    · by_cases hp : c.status = "PENDING"
      · cases he : s.findElection c.election_id with
        | none =>
          rw [deleteCandidateTry_orphan _ _ _ c hc ho hp he]
          exact List.filter_sublist _
        | some e =>
          rw [deleteCandidateTry_done _ _ _ c e hc ho hp he]
          exact List.filter_sublist _
      · rw [deleteCandidateTry_not_pending _ _ _ c hc ho hp]
    · rw [deleteCandidateTry_unauthorized _ _ _ c hc ho]

/-- Every lifecycle call keeps the one-candidacy-per-user property. -/
theorem OneCandidacyPerUser.run (s : Store) (call : Call) (h : OneCandidacyPerUser s) :
    OneCandidacyPerUser (call.run s) := by
  unfold OneCandidacyPerUser at h ⊢
  cases call with
  | register uuid now data userId =>
    simp only [Call.run]
    rcases registerCandidate_candidates s uuid now data userId with h1 | ⟨hc, h1⟩
    · rw [h1]; exact h
    · rw [h1, List.map_append, List.nodup_append]
      refine ⟨h, List.nodup_singleton _, ?_⟩
      simp only [List.map_cons, List.map_nil, List.disjoint_singleton]
      intro hmem
      rw [List.mem_map] at hmem
      obtain ⟨r, hr, hpair⟩ := hmem
      simp only [Store.findCandidacy] at hc
      rw [List.find?_eq_none] at hc
      have := hc r hr
      simp only [registrationRow, Prod.mk.injEq] at hpair
      simp [hpair.1, hpair.2] at this
  | approve candidateId userId =>
    simp only [Call.run]
    rw [approveCandidate_pairs]; exact h
  | reject candidateId userId =>
    simp only [Call.run]
    rw [rejectCandidate_pairs]; exact h
  | update candidateId u userId =>
    simp only [Call.run]
    rw [updateCandidate_pairs]; exact h
  | delete candidateId userId =>
    simp only [Call.run]
    exact List.Nodup.sublist ((deleteCandidate_sublist s candidateId userId).map _) h

/-- Every sequence of lifecycle calls keeps the one-candidacy-per-user property. -/
theorem OneCandidacyPerUser.runCalls (calls : List Call) :
    ∀ s : Store, OneCandidacyPerUser s → OneCandidacyPerUser (runCalls s calls) := by
  induction calls with
  | nil => intro s h; exact h
  | cons call rest ih =>
    intro s h
    exact ih (call.run s) (OneCandidacyPerUser.run s call h)

/-! ### Authorization and referential integrity -/

theorem findAdmin_isSome_iff (s : Store) (userId electionId : String) :
    (s.findAdmin userId electionId).isSome = true ↔ IsAdmin s userId electionId := by
  unfold Store.findAdmin IsAdmin
  rw [List.find?_isSome]
  simp

theorem findAdmin_eq_none_iff (s : Store) (userId electionId : String) :
    s.findAdmin userId electionId = none ↔ ¬ IsAdmin s userId electionId := by
  rw [← findAdmin_isSome_iff]
  cases s.findAdmin userId electionId <;> simp

/-- In a referentially intact store the election of every candidate row is found. -/
theorem ReferentiallyIntact.election_found (s : Store) (hw : ReferentiallyIntact s)
    (c : CandidateRow) (hc : c ∈ s.candidates) :
    ∃ e, s.findElection c.election_id = some e := by
  obtain ⟨e, he, hid⟩ := hw c hc
  have : (s.findElection c.election_id).isSome = true := by
    unfold Store.findElection
    rw [List.find?_isSome]
    exact ⟨e, he, by simp [hid]⟩
  exact Option.isSome_iff_exists.mp this

/-- Looking a candidate up after a status update on the candidate table. -/
theorem find_candidate_after_status_update (l : List CandidateRow) (cid id st : String) :
    (l.map (fun x => if x.candidate_id = cid then { x with status := st } else x)).find?
      (fun c => c.candidate_id = id) =
    (l.find? (fun c => c.candidate_id = id)).map
      (fun x => if x.candidate_id = cid then { x with status := st } else x) := by
  apply find_map_of_preserved
  intro x
  by_cases hb : x.candidate_id = cid <;> simp [hb]

/-! ### Properties of the specification -/

/-- C1 (evaluation at the failing input): from a well-formed, counter-consistent store, two
`rejectCandidate` calls by the election admin on the same candidacy leave the election's
`total_candidates` at `-1` with no PENDING or APPROVED row, and a reject followed by an approve
leaves the counter at `0` with one APPROVED row: counter consistency is lost. -/
theorem C1_counter_lost_on_repeated_decision :
    WellFormed sampleStore ∧ CounterConsistent sampleStore ∧
    (rejectCandidate sampleStore "c1" "admin").succeeded = true ∧
    (rejectCandidate (rejectCandidate sampleStore "c1" "admin").store "c1" "admin").succeeded
      = true ∧
    ((runCalls sampleStore [.reject "c1" "admin", .reject "c1" "admin"]).findElection "e1").map
      (fun e => e.total_candidates) = some (-1) ∧
    activeCandidates (runCalls sampleStore [.reject "c1" "admin", .reject "c1" "admin"]) "e1"
      = 0 ∧
    ¬ CounterConsistent (runCalls sampleStore [.reject "c1" "admin", .reject "c1" "admin"]) ∧
    ((runCalls sampleStore [.reject "c1" "admin", .approve "c1" "admin"]).findElection "e1").map
      (fun e => e.total_candidates) = some 0 ∧
    activeCandidates (runCalls sampleStore [.reject "c1" "admin", .approve "c1" "admin"]) "e1"
      = 1 ∧
    ¬ CounterConsistent (runCalls sampleStore [.reject "c1" "admin", .approve "c1" "admin"]) := by
  decide

/-- C2 (evaluation at the failing input): `approveCandidate` by the election admin moves a
REJECTED candidacy to APPROVED, and `rejectCandidate` moves an APPROVED candidacy to
REJECTED; both calls succeed. -/
theorem C2_decided_candidacy_changes_status :
    ((rejectCandidate sampleStore "c1" "admin").store.findCandidate "c1").map
      (fun c => c.status) = some "REJECTED" ∧
    (approveCandidate (rejectCandidate sampleStore "c1" "admin").store "c1" "admin").succeeded
      = true ∧
    ((approveCandidate (rejectCandidate sampleStore "c1" "admin").store "c1"
      "admin").store.findCandidate "c1").map (fun c => c.status) = some "APPROVED" ∧
    ((approveCandidate sampleStore "c1" "admin").store.findCandidate "c1").map
      (fun c => c.status) = some "APPROVED" ∧
    (rejectCandidate (approveCandidate sampleStore "c1" "admin").store "c1" "admin").succeeded
      = true ∧
    ((rejectCandidate (approveCandidate sampleStore "c1" "admin").store "c1"
      "admin").store.findCandidate "c1").map (fun c => c.status) = some "REJECTED" := by
  decide

/-- C3 (evaluation at the failing input): for the candidate whose age is the string `abc`,
`isValid()` is `false` while `getValidationErrors()` is the empty list. -/
theorem C3_invalid_without_errors :
    nonNumericAgeCandidate.isValid = .bool false ∧
    nonNumericAgeCandidate.isValid.truthy = false ∧
    nonNumericAgeCandidate.getValidationErrors = [] := by
  decide

/-- C4 (counterexample): the candidate without `user_id` satisfies every field invariant of
the data model, yet `isValid()` does not return `true` (it returns `undefined`). -/
theorem C4_field_invariants_not_sufficient :
    FieldInvariants noUserCandidate ∧ noUserCandidate.isValid = .undefined ∧
    ¬ (noUserCandidate.isValid = .bool true ↔ FieldInvariants noUserCandidate) := by
  decide

/-- C4 (amended): `isValid()` returns `true` exactly when `election_id` and `user_id` are
present (truthy) and every field invariant of the data model holds. -/
theorem C4_isValid_iff (c : Candidate) :
    c.isValid = .bool true ↔
      (c.election_id.truthy = true ∧ c.user_id.truthy = true ∧ FieldInvariants c) := by
  unfold Candidate.isValid FieldInvariants
  rw [JsValue.and_eq_true_iff]
  simp only [JsValue.truthy_and, Bool.and_eq_true, JsValue.truthy_bool,
    JsValue.bool_eq_true_iff, statusListIncludes_iff]
  tauto

/-- C4 (witness): a candidate whose age is the string `'41'` is valid; with the age
`'149.99999999999999999'`, which is the number `150`, the field invariants fail and `isValid()`
does not return `true`. -/
theorem C4_isValid_iff_witness :
    ({ nonNumericAgeCandidate with age := .str "41" } : Candidate).isValid = .bool true ∧
    ¬ FieldInvariants
      ({ nonNumericAgeCandidate with age := .str "149.99999999999999999" } : Candidate) ∧
    ({ nonNumericAgeCandidate with age := .str "149.99999999999999999" } :
      Candidate).isValid ≠ .bool true :=
  ⟨(C4_isValid_iff { nonNumericAgeCandidate with age := .str "41" }).mpr
      ⟨by decide, by decide, by decide⟩,
    by decide,
    fun h => absurd
      ((C4_isValid_iff
        { nonNumericAgeCandidate with age := .str "149.99999999999999999" }).mp h).2.2
      (by decide)⟩

/-- C5: when `registerCandidate` returns a candidate, the candidate table is the old one plus
one row for `(election_id, userId)` in status PENDING (the only row of that pair), the returned
candidate has status PENDING, the election's `total_candidates` is one higher, and the other
elections, the admins and the users are as before. -/
theorem C5_register_success_effect (s : Store) (uuid : String) (now : Int)
    (data : CandidateData) (userId : String) (c : Candidate)
    (h : (registerCandidate s uuid now data userId).result = .ok c) :
    (∃ row : CandidateRow,
      (registerCandidate s uuid now data userId).store.candidates = s.candidates ++ [row] ∧
      row.election_id = data.election_id ∧ row.user_id = userId ∧ row.status = "PENDING") ∧
    ((registerCandidate s uuid now data userId).store.candidates.filter
      (fun r => r.election_id = data.election_id ∧ r.user_id = userId)).length = 1 ∧
    c.status = .str "PENDING" ∧
    (∃ e, s.findElection data.election_id = some e ∧
      (registerCandidate s uuid now data userId).store.findElection data.election_id =
        some { e with total_candidates := e.total_candidates + 1 }) ∧
    (∀ id, id ≠ data.election_id →
      (registerCandidate s uuid now data userId).store.findElection id = s.findElection id) ∧
    (registerCandidate s uuid now data userId).store.elections.length = s.elections.length ∧
    (registerCandidate s uuid now data userId).store.admins = s.admins ∧
    (registerCandidate s uuid now data userId).store.users = s.users := by
  unfold registerCandidate at h ⊢
  rw [Outcome.rethrow_ok_iff] at h
  obtain ⟨_, hc, ⟨e, he, _, _⟩, _, hcand, hstore⟩ := registerCandidateTry_ok s uuid now data userId c h
  rw [Outcome.rethrow_store, hstore]
  refine ⟨⟨registrationRow uuid now data userId, rfl, rfl, rfl, rfl⟩, ?_, ?_, ⟨e, he, ?_⟩, ?_,
    ?_, rfl, rfl⟩
  · have hnil := filter_eq_nil_of_find_none _ _ hc
    simp only [List.filter_append, hnil, List.nil_append]
    simp [registrationRow]
  · rw [hcand]
    simp [CandidateRow.toCandidate, Candidate.new, registrationRow]
  · have hid := s.findElection_id _ _ he
    simp only [Store.findElection] at he ⊢
    rw [find_election_after_counter_update, he]
    simp [hid]
  · intro id hid
    cases hf : s.findElection id with
    | none =>
      simp only [Store.findElection] at hf ⊢
      rw [find_election_after_counter_update, hf]; rfl
    | some x =>
      have hx := s.findElection_id _ _ hf
      simp only [Store.findElection] at hf ⊢
      rw [find_election_after_counter_update, hf]
      simp [hx, hid]
  · simp

/-- C5 (witness): user `u2` registers in the sample store. -/
theorem C5_register_success_witness :
    (registerCandidate sampleStore "c2" 200 sampleData "u2").result =
      .ok ((registrationRow "c2" 200 sampleData "u2").toCandidate
        (sampleStore.includeUser "u2")) ∧
    ((registerCandidate sampleStore "c2" 200 sampleData "u2").store.candidates.filter
      (fun r => r.election_id = sampleData.election_id ∧ r.user_id = "u2")).length = 1 ∧
    ((registrationRow "c2" 200 sampleData "u2").toCandidate
      (sampleStore.includeUser "u2")).status = .str "PENDING" :=
  have h : (registerCandidate sampleStore "c2" 200 sampleData "u2").result =
      .ok ((registrationRow "c2" 200 sampleData "u2").toCandidate
        (sampleStore.includeUser "u2")) := by decide
  ⟨h, (C5_register_success_effect sampleStore "c2" 200 sampleData "u2" _ h).2.1,
    (C5_register_success_effect sampleStore "c2" 200 sampleData "u2" _ h).2.2.1⟩

/-- C6 (counterexample): user `u1` already has a candidacy for election `e1`; a second
`registerCandidate` whose data has an empty party name fails with the invalid-data error, not
with the duplicate-candidacy error. -/
theorem C6_duplicate_with_invalid_data :
    (sampleStore.findCandidacy "e1" "u1").isSome = true ∧
    (registerCandidate sampleStore "c2" 200 emptyPartyData "u1").result =
      .error "Failed to register candidate: Invalid candidate data: Party name is required" ∧
    (registerCandidate sampleStore "c2" 200 emptyPartyData "u1").result ≠
      .error ("Failed to register candidate: " ++
        "User is already registered as a candidate for this election") := by
  decide

/-- C6 (amended): if the user already has a candidacy for the election, `registerCandidate`
for the same pair fails and leaves the store as it was (no row, no counter change), and when
the data passes validation the failure is the duplicate-candidacy error; and a store with at
most one candidate row per `(election_id, user_id)` keeps that property through every sequence
of lifecycle calls. -/
theorem C6_duplicate_registration (s : Store) (uuid : String) (now : Int)
    (data : CandidateData) (userId : String) :
    ((s.findCandidacy data.election_id userId).isSome = true →
      (registerCandidate s uuid now data userId).succeeded = false ∧
      (registerCandidate s uuid now data userId).store = s ∧
      ((registrationCandidate uuid data userId).isValid.truthy = true →
        (registerCandidate s uuid now data userId).result =
          .error ("Failed to register candidate: " ++
            "User is already registered as a candidate for this election"))) ∧
    (∀ calls : List Call, OneCandidacyPerUser s → OneCandidacyPerUser (runCalls s calls)) := by
  refine ⟨?_, fun calls h => OneCandidacyPerUser.runCalls calls s h⟩
  intro hsome
  obtain ⟨r, hr⟩ := Option.isSome_iff_exists.mp hsome
  unfold registerCandidate
  cases hv : (registrationCandidate uuid data userId).isValid.truthy with
  | false =>
    rw [registerCandidateTry_invalid _ _ _ _ _ hv]
    exact ⟨rfl, rfl, fun h => absurd h (by simp)⟩
  | true =>
    rw [registerCandidateTry_duplicate _ _ _ _ _ r hv hr]
    exact ⟨rfl, rfl, fun _ => rfl⟩

/-- C6 (witness): the duplicate registration of `u1` with valid data, and the sample store
after a sequence of calls. -/
theorem C6_duplicate_registration_witness :
    (sampleStore.findCandidacy sampleData.election_id "u1").isSome = true ∧
    (registerCandidate sampleStore "c2" 200 sampleData "u1").store = sampleStore ∧
    (registerCandidate sampleStore "c2" 200 sampleData "u1").result =
      .error ("Failed to register candidate: " ++
        "User is already registered as a candidate for this election") ∧
    OneCandidacyPerUser sampleStore ∧
    OneCandidacyPerUser (runCalls sampleStore
      [.register "c2" 200 sampleData "u2", .register "c3" 201 sampleData "u2",
       .approve "c2" "admin", .delete "c1" "u1"]) :=
  ⟨by decide,
    ((C6_duplicate_registration sampleStore "c2" 200 sampleData "u1").1 (by decide)).2.1,
    ((C6_duplicate_registration sampleStore "c2" 200 sampleData "u1").1 (by decide)).2.2
      (by decide),
    by decide,
    (C6_duplicate_registration sampleStore "c2" 200 sampleData "u1").2 _ (by decide)⟩

/-- C7: for candidate data that passes validation, from a user without a candidacy for the
election (and a fresh `randomUUID()`), `registerCandidate` fails with `Election not found` when
the election does not exist, fails when the election is COMPLETED or CANCELLED, and returns a
candidate for every other election status. -/
theorem C7_register_election_gate (s : Store) (uuid : String) (now : Int)
    (data : CandidateData) (userId : String)
    (hv : (registrationCandidate uuid data userId).isValid.truthy = true)
    (hc : s.findCandidacy data.election_id userId = none)
    (hu : s.findCandidate uuid = none) :
    (s.findElection data.election_id = none →
      (registerCandidate s uuid now data userId).result =
        .error "Failed to register candidate: Election not found") ∧
    (∀ e, s.findElection data.election_id = some e →
      (e.status = "COMPLETED" →
        (registerCandidate s uuid now data userId).result = .error
          "Failed to register candidate: Cannot register candidates for completed elections") ∧
      (e.status = "CANCELLED" →
        (registerCandidate s uuid now data userId).result = .error
          "Failed to register candidate: Cannot register candidates for cancelled elections") ∧
      (e.status ≠ "COMPLETED" → e.status ≠ "CANCELLED" →
        (registerCandidate s uuid now data userId).succeeded = true)) := by
  unfold registerCandidate
  refine ⟨?_, ?_⟩
  · intro he
    rw [registerCandidateTry_no_election _ _ _ _ _ hv hc he]
    rfl
  · intro e he
    refine ⟨?_, ?_, ?_⟩
    · intro hs
      rw [registerCandidateTry_closed _ _ _ _ _ e hv hc he (Or.inl hs), hs,
        Outcome.rethrow_error _ _ _ rfl]
      decide
    · intro hs
      rw [registerCandidateTry_closed _ _ _ _ _ e hv hc he (Or.inr hs), hs,
        Outcome.rethrow_error _ _ _ rfl]
      decide
    · intro h1 h2
      have hs : ¬ (e.status = "COMPLETED" ∨ e.status = "CANCELLED") := by
        rintro (h | h)
        · exact h1 h
        · exact h2 h
      rw [registerCandidateTry_created _ _ _ _ _ e hv hc he hs hu]
      rfl

/-- C7 (witness): user `u2` registers for the active election `e1` of the sample store. -/
theorem C7_register_election_gate_witness :
    (registrationCandidate "c2" sampleData "u2").isValid.truthy = true ∧
    sampleStore.findCandidacy sampleData.election_id "u2" = none ∧
    sampleStore.findCandidate "c2" = none ∧
    (registerCandidate sampleStore "c2" 200 sampleData "u2").succeeded = true :=
  ⟨by decide, by decide, by decide,
    ((C7_register_election_gate sampleStore "c2" 200 sampleData "u2" (by decide) (by decide)
      (by decide)).2 _ (by decide : sampleStore.findElection sampleData.election_id = some
        { election_id := "e1", title := "Council", status := "ACTIVE",
          total_candidates := 1 })).2.2 (by decide) (by decide)⟩

/-- C8: in a store whose candidate rows refer to existing elections, for an existing candidate, `approveCandidate` and
`rejectCandidate` return a candidate exactly when the caller is registered as admin of the
candidate's election, and fail with their Unauthorized error otherwise; for a candidate that
does not exist both fail with `Candidate not found`. -/
theorem C8_decision_requires_admin (s : Store) (candidateId userId reason : String)
    (hw : ReferentiallyIntact s) :
    (s.findCandidate candidateId = none →
      (approveCandidate s candidateId userId).result =
        .error "Failed to approve candidate: Candidate not found" ∧
      (rejectCandidate s candidateId userId reason).result =
        .error "Failed to reject candidate: Candidate not found") ∧
    (∀ c, s.findCandidate candidateId = some c →
      ((approveCandidate s candidateId userId).succeeded = true ↔
        IsAdmin s userId c.election_id) ∧
      ((rejectCandidate s candidateId userId reason).succeeded = true ↔
        IsAdmin s userId c.election_id) ∧
      (¬ IsAdmin s userId c.election_id →
        (approveCandidate s candidateId userId).result = .error
          ("Failed to approve candidate: " ++
            "Unauthorized: Only election creator can approve candidates") ∧
        (rejectCandidate s candidateId userId reason).result = .error
          ("Failed to reject candidate: " ++
            "Unauthorized: Only election creator can reject candidates"))) := by
  unfold approveCandidate rejectCandidate
  refine ⟨?_, ?_⟩
  · intro hc
    rw [approveCandidateTry_missing _ _ _ hc, rejectCandidateTry_missing _ _ _ hc]
    exact ⟨rfl, rfl⟩
  · intro c hc
    obtain ⟨e, he⟩ := hw.election_found s c (s.findCandidate_mem _ _ hc)
    cases ha : s.findAdmin userId c.election_id with
    | none =>
      have hna : ¬ IsAdmin s userId c.election_id := (findAdmin_eq_none_iff _ _ _).mp ha
      rw [approveCandidateTry_unauthorized _ _ _ c hc ha,
        rejectCandidateTry_unauthorized _ _ _ c hc ha]
      refine ⟨⟨fun h => ?_, fun h => absurd h hna⟩, ⟨fun h => ?_, fun h => absurd h hna⟩,
        fun _ => ⟨rfl, rfl⟩⟩
      · exact absurd h (by simp [Outcome.rethrow, Outcome.succeeded])
      · exact absurd h (by simp [Outcome.rethrow, Outcome.succeeded])
    | some a =>
      have hia : IsAdmin s userId c.election_id :=
        (findAdmin_isSome_iff _ _ _).mp (by rw [ha]; rfl)
      rw [approveCandidateTry_done _ _ _ c a hc ha, rejectCandidateTry_done _ _ _ c a e hc ha he]
      exact ⟨⟨fun _ => hia, fun _ => rfl⟩, ⟨fun _ => hia, fun _ => rfl⟩,
        fun h => absurd hia h⟩

/-- C8 (witness): in the sample store the admin of `e1` may decide on candidate `c1`, user
`u1` may not. -/
theorem C8_decision_requires_admin_witness :
    ReferentiallyIntact sampleStore ∧
    sampleStore.findCandidate "c1" = some sampleRow ∧
    ((approveCandidate sampleStore "c1" "admin").succeeded = true ↔
      IsAdmin sampleStore "admin" sampleRow.election_id) ∧
    ((rejectCandidate sampleStore "c1" "u1" "").succeeded = true ↔
      IsAdmin sampleStore "u1" sampleRow.election_id) :=
  ⟨by decide, by decide,
    ((C8_decision_requires_admin sampleStore "c1" "admin" "" (by decide)).2 sampleRow
      (by decide)).1,
    ((C8_decision_requires_admin sampleStore "c1" "u1" "" (by decide)).2 sampleRow
      (by decide)).2.1⟩

/-- C9: when `approveCandidate` returns, the candidate's row has status APPROVED, every other
candidate row and the whole election table (so every `total_candidates`) are as before; when
`rejectCandidate` returns, the candidate's row has status REJECTED, every other candidate row is
as before, and `total_candidates` of the candidate's election is lower by exactly one while the
other elections are as before. -/
theorem C9_decision_effects (s : Store) (candidateId userId reason : String) :
    (∀ c, (approveCandidate s candidateId userId).result = .ok c →
      c.status = .str "APPROVED" ∧
      (∃ row, s.findCandidate candidateId = some row ∧
        (approveCandidate s candidateId userId).store.findCandidate candidateId =
          some { row with status := "APPROVED" }) ∧
      (approveCandidate s candidateId userId).store.candidates =
        s.candidates.map (fun x =>
          if x.candidate_id = candidateId then { x with status := "APPROVED" } else x) ∧
      (∀ id, id ≠ candidateId →
        (approveCandidate s candidateId userId).store.findCandidate id = s.findCandidate id) ∧
      (approveCandidate s candidateId userId).store.elections = s.elections) ∧
    (∀ c, (rejectCandidate s candidateId userId reason).result = .ok c →
      c.status = .str "REJECTED" ∧
      (∃ row e, s.findCandidate candidateId = some row ∧
        (rejectCandidate s candidateId userId reason).store.findCandidate candidateId =
          some { row with status := "REJECTED" } ∧
        s.findElection row.election_id = some e ∧
        (rejectCandidate s candidateId userId reason).store.findElection row.election_id =
          some { e with total_candidates := e.total_candidates - 1 } ∧
        (∀ id, id ≠ row.election_id →
          (rejectCandidate s candidateId userId reason).store.findElection id =
            s.findElection id)) ∧
      (rejectCandidate s candidateId userId reason).store.candidates =
        s.candidates.map (fun x =>
          if x.candidate_id = candidateId then { x with status := "REJECTED" } else x) ∧
      (∀ id, id ≠ candidateId →
        (rejectCandidate s candidateId userId reason).store.findCandidate id =
          s.findCandidate id)) := by
  have hother : ∀ (st id : String), id ≠ candidateId →
      (s.candidates.map (fun x =>
        if x.candidate_id = candidateId then { x with status := st } else x)).find?
        (fun c => c.candidate_id = id) = s.findCandidate id := by
    intro st id hid
    rw [find_candidate_after_status_update]
    cases hf : s.findCandidate id with
    | none => simp only [Store.findCandidate] at hf; rw [hf]; rfl
    | some x =>
      have hx := s.findCandidate_id _ _ hf
      simp only [Store.findCandidate] at hf
      rw [hf]
      simp [hx, hid]
  have hself : ∀ (st : String) (row : CandidateRow), s.findCandidate candidateId = some row →
      (s.candidates.map (fun x =>
        if x.candidate_id = candidateId then { x with status := st } else x)).find?
        (fun c => c.candidate_id = candidateId) = some { row with status := st } := by
    intro st row hrow
    have hx := s.findCandidate_id _ _ hrow
    rw [find_candidate_after_status_update]
    simp only [Store.findCandidate] at hrow
    rw [hrow]
    simp [hx]
  unfold approveCandidate rejectCandidate
  refine ⟨?_, ?_⟩
  · intro c h
    rw [Outcome.rethrow_ok_iff] at h
    rw [Outcome.rethrow_store]
    cases hc : s.findCandidate candidateId with
    | none => rw [approveCandidateTry_missing _ _ _ hc] at h; simp at h
    | some row =>
      cases ha : s.findAdmin userId row.election_id with
      | none => rw [approveCandidateTry_unauthorized _ _ _ row hc ha] at h; simp at h
      | some a =>
        rw [approveCandidateTry_done _ _ _ row a hc ha] at h ⊢
        simp only [Except.ok.injEq] at h
        refine ⟨?_, ⟨row, rfl, hself _ row hc⟩, rfl, fun id hid => hother _ id hid, rfl⟩
        rw [← h]
        simp [CandidateRow.toCandidate, Candidate.new]
  · intro c h
    rw [Outcome.rethrow_ok_iff] at h
    rw [Outcome.rethrow_store]
    cases hc : s.findCandidate candidateId with
    | none => rw [rejectCandidateTry_missing _ _ _ hc] at h; simp at h
    | some row =>
      cases ha : s.findAdmin userId row.election_id with
      | none => rw [rejectCandidateTry_unauthorized _ _ _ row hc ha] at h; simp at h
      | some a =>
        cases he : s.findElection row.election_id with
        | none => rw [rejectCandidateTry_orphan _ _ _ row a hc ha he] at h; simp at h
        | some e =>
          rw [rejectCandidateTry_done _ _ _ row a e hc ha he] at h ⊢
          simp only [Except.ok.injEq] at h
          refine ⟨?_, ⟨row, e, rfl, hself _ row hc, he, ?_, ?_⟩, rfl,
            fun id hid => hother _ id hid⟩
          · rw [← h]
            simp [CandidateRow.toCandidate, Candidate.new]
          · have hid := s.findElection_id _ _ he
            simp only [Store.findElection] at he ⊢
            rw [find_election_after_counter_update, he]
            simp [hid, Int.sub_eq_add_neg]
          · intro id hid
            cases hf : s.findElection id with
            | none =>
              simp only [Store.findElection] at hf ⊢
              rw [find_election_after_counter_update, hf]; rfl
            | some x =>
              have hx := s.findElection_id _ _ hf
              simp only [Store.findElection] at hf ⊢
              rw [find_election_after_counter_update, hf]
              simp [hx, hid]

/-- C9 (witness): the admin approves, and rejects, candidate `c1` of the sample store. -/
theorem C9_decision_effects_witness :
    ((approveCandidate sampleStore "c1" "admin").store.findCandidate "c1").map
      (fun r => r.status) = some "APPROVED" ∧
    (approveCandidate sampleStore "c1" "admin").store.elections = sampleStore.elections ∧
    (rejectCandidate sampleStore "c1" "admin" "").store.candidates =
      sampleStore.candidates.map (fun x =>
        if x.candidate_id = "c1" then { x with status := "REJECTED" } else x) :=
  ⟨by decide,
    ((C9_decision_effects sampleStore "c1" "admin" "").1
      (({ sampleRow with status := "APPROVED" } : CandidateRow).toCandidate
        (sampleStore.includeUser "u1")) (by decide)).2.2.2.2,
    ((C9_decision_effects sampleStore "c1" "admin" "").2
      (({ sampleRow with status := "REJECTED" } : CandidateRow).toCandidate
        (sampleStore.includeUser "u1")) (by decide)).2.2.1⟩

/-- C10: `updateCandidate` returns a candidate exactly when the candidate exists, the caller
is its owner, its status is PENDING and the stored row merged with the supplied data passes
`isValid()`; otherwise it fails with, in this order, `Candidate not found`, the Unauthorized
error, the not-pending error, or `Invalid candidate data` followed by the validation errors. -/
theorem C10_update_gate (s : Store) (candidateId : String) (updateData : UpdateData)
    (userId : String) :
    ((updateCandidate s candidateId updateData userId).succeeded = true ↔
      ∃ c, s.findCandidate candidateId = some c ∧ c.user_id = userId ∧ c.status = "PENDING" ∧
        (mergedCandidate c updateData).isValid.truthy = true) ∧
    (s.findCandidate candidateId = none →
      (updateCandidate s candidateId updateData userId).result =
        .error "Failed to update candidate: Candidate not found") ∧
    (∀ c, s.findCandidate candidateId = some c →
      (c.user_id ≠ userId →
        (updateCandidate s candidateId updateData userId).result = .error
          ("Failed to update candidate: " ++
            "Unauthorized: Can only update your own candidate profile")) ∧
      (c.user_id = userId → c.status ≠ "PENDING" →
        (updateCandidate s candidateId updateData userId).result = .error
          ("Failed to update candidate: " ++
            "Can only update pending candidate registrations")) ∧
      (c.user_id = userId → c.status = "PENDING" →
        (mergedCandidate c updateData).isValid.truthy = false →
        (updateCandidate s candidateId updateData userId).result = .error
          ("Failed to update candidate: " ++ ("Invalid candidate data: " ++
            ", ".intercalate (mergedCandidate c updateData).getValidationErrors)))) := by
  unfold updateCandidate
  refine ⟨?_, ?_, ?_⟩
  · rw [Outcome.rethrow_succeeded]
    cases hc : s.findCandidate candidateId with
    | none =>
      rw [updateCandidateTry_missing _ _ _ _ hc]
      simp [Outcome.succeeded]
    | some c =>
      by_cases ho : c.user_id = userId
      · by_cases hp : c.status = "PENDING"
        · cases hv : (mergedCandidate c updateData).isValid.truthy with
          | false =>
            rw [updateCandidateTry_invalid _ _ _ _ c hc ho hp hv]
            simp [Outcome.succeeded, hv]
          | true =>
            rw [updateCandidateTry_done _ _ _ _ c hc ho hp hv]
            simp [Outcome.succeeded, ho, hp, hv]
        · rw [updateCandidateTry_not_pending _ _ _ _ c hc ho hp]
          simp [Outcome.succeeded, hp]
      · rw [updateCandidateTry_unauthorized _ _ _ _ c hc ho]
        simp [Outcome.succeeded, ho]
  · intro hc
    rw [updateCandidateTry_missing _ _ _ _ hc]
    rfl
  · intro c hc
    refine ⟨?_, ?_, ?_⟩
    · intro ho
      rw [updateCandidateTry_unauthorized _ _ _ _ c hc ho]
      rfl
    · intro ho hp
      rw [updateCandidateTry_not_pending _ _ _ _ c hc ho hp]
      rfl
    · intro ho hp hv
      rw [updateCandidateTry_invalid _ _ _ _ c hc ho hp hv]
      rfl

/-- C10 (witness): in the sample store the owner `u1` updates the pending candidacy `c1`,
and user `u2` is refused. -/
theorem C10_update_gate_witness :
    (updateCandidate sampleStore "c1" sampleUpdate "u1").succeeded = true ∧
    sampleStore.findCandidate "c1" = some sampleRow ∧ sampleRow.user_id ≠ "u2" ∧
    (updateCandidate sampleStore "c1" sampleUpdate "u2").result = .error
      ("Failed to update candidate: " ++
        "Unauthorized: Can only update your own candidate profile") :=
  ⟨(C10_update_gate sampleStore "c1" sampleUpdate "u1").1.mpr
      ⟨sampleRow, by decide, by decide, by decide, by decide⟩,
    by decide, by decide,
    ((C10_update_gate sampleStore "c1" sampleUpdate "u2").2.2 sampleRow (by decide)).1
      (by decide)⟩

/-! ### Deletion and failed checks -/

/-- A `find?` in a filtered list, when everything the test accepts passes the filter. -/
theorem find_filter_of_imp {α : Type} (p q : α → Bool) (l : List α)
    (h : ∀ x, p x = true → q x = true) : (l.filter q).find? p = l.find? p := by
  rw [List.find?_filter]
  congr 1
  funext x
  cases hp : p x
  · simp
  · simp [h x hp]

/-- C11: in a store whose candidate rows refer to existing elections, `deleteCandidate` returns
exactly when the candidate exists, the caller is its owner and its status is PENDING; it then
removes the candidate's row (every other row stays) and lowers `total_candidates` of the
candidate's election by exactly one (every other election stays); otherwise it fails with
`Candidate not found`, the Unauthorized error or the not-pending error. -/
theorem C11_delete_gate (s : Store) (candidateId userId : String)
    (hw : ReferentiallyIntact s) :
    ((deleteCandidate s candidateId userId).succeeded = true ↔
      ∃ c, s.findCandidate candidateId = some c ∧ c.user_id = userId ∧ c.status = "PENDING") ∧
    (∀ c, s.findCandidate candidateId = some c → c.user_id = userId → c.status = "PENDING" →
      (deleteCandidate s candidateId userId).result = .ok true ∧
      (deleteCandidate s candidateId userId).store.candidates =
        s.candidates.filter (fun x => ¬ x.candidate_id = candidateId) ∧
      (deleteCandidate s candidateId userId).store.findCandidate candidateId = none ∧
      (∀ id, id ≠ candidateId →
        (deleteCandidate s candidateId userId).store.findCandidate id = s.findCandidate id) ∧
      (∃ e, s.findElection c.election_id = some e ∧
        (deleteCandidate s candidateId userId).store.findElection c.election_id =
          some { e with total_candidates := e.total_candidates - 1 }) ∧
      (∀ id, id ≠ c.election_id →
        (deleteCandidate s candidateId userId).store.findElection id = s.findElection id)) ∧
    (s.findCandidate candidateId = none →
      (deleteCandidate s candidateId userId).result =
        .error "Failed to delete candidate: Candidate not found") ∧
    (∀ c, s.findCandidate candidateId = some c →
      (c.user_id ≠ userId →
        (deleteCandidate s candidateId userId).result = .error
          ("Failed to delete candidate: " ++
            "Unauthorized: Can only delete your own candidate profile")) ∧
      (c.user_id = userId → c.status ≠ "PENDING" →
        (deleteCandidate s candidateId userId).result = .error
          ("Failed to delete candidate: " ++
            "Can only delete pending candidate registrations"))) := by
  unfold deleteCandidate
  refine ⟨?_, ?_, ?_, ?_⟩
  · rw [Outcome.rethrow_succeeded]
    cases hc : s.findCandidate candidateId with
    | none =>
      rw [deleteCandidateTry_missing _ _ _ hc]
      simp [Outcome.succeeded]
    | some c =>
      obtain ⟨e, he⟩ := hw.election_found s c (s.findCandidate_mem _ _ hc)
      by_cases ho : c.user_id = userId
      · by_cases hp : c.status = "PENDING"
        · rw [deleteCandidateTry_done _ _ _ c e hc ho hp he]
          simp [Outcome.succeeded, ho, hp]
        · rw [deleteCandidateTry_not_pending _ _ _ c hc ho hp]
          simp [Outcome.succeeded, hp]
      · rw [deleteCandidateTry_unauthorized _ _ _ c hc ho]
        simp [Outcome.succeeded, ho]
  · intro c hc ho hp
    obtain ⟨e, he⟩ := hw.election_found s c (s.findCandidate_mem _ _ hc)
    rw [deleteCandidateTry_done _ _ _ c e hc ho hp he]
    refine ⟨rfl, rfl, ?_, ?_, ⟨e, he, ?_⟩, ?_⟩
    · simp only [Outcome.rethrow_store, Store.findCandidate]
      rw [List.find?_eq_none]
      intro x hx
      have := (List.mem_filter.mp hx).2
      simpa using this
    · intro id hid
      simp only [Outcome.rethrow_store, Store.findCandidate]
      apply find_filter_of_imp
      intro x hx
      have hx' : x.candidate_id = id := by simpa using hx
      simp [hx', hid]
    · have hid := s.findElection_id _ _ he
      simp only [Outcome.rethrow_store, Store.findElection] at he ⊢
      rw [find_election_after_counter_update, he]
      simp [hid, Int.sub_eq_add_neg]
    · intro id hid
      simp only [Outcome.rethrow_store]
      cases hf : s.findElection id with
      | none =>
        simp only [Store.findElection] at hf ⊢
        rw [find_election_after_counter_update, hf]; rfl
      | some x =>
        have hx := s.findElection_id _ _ hf
        simp only [Store.findElection] at hf ⊢
        rw [find_election_after_counter_update, hf]
        simp [hx, hid]
  · intro hc
    rw [deleteCandidateTry_missing _ _ _ hc]
    rfl
  · intro c hc
    refine ⟨?_, ?_⟩
    · intro ho
      rw [deleteCandidateTry_unauthorized _ _ _ c hc ho]
      rfl
    · intro ho hp
      rw [deleteCandidateTry_not_pending _ _ _ c hc ho hp]
      rfl

/-- C11 (witness): in the sample store the owner `u1` deletes the pending candidacy `c1`. -/
theorem C11_delete_gate_witness :
    ReferentiallyIntact sampleStore ∧
    (deleteCandidate sampleStore "c1" "u1").succeeded = true ∧
    (deleteCandidate sampleStore "c1" "u1").store.findCandidate "c1" = none ∧
    (deleteCandidate sampleStore "c1" "u2").result = .error
      ("Failed to delete candidate: " ++
        "Unauthorized: Can only delete your own candidate profile") :=
  ⟨by decide,
    (C11_delete_gate sampleStore "c1" "u1" (by decide)).1.mpr
      ⟨sampleRow, by decide, by decide, by decide⟩,
    ((C11_delete_gate sampleStore "c1" "u1" (by decide)).2.1 sampleRow (by decide) (by decide)
      (by decide)).2.2.1,
    ((C11_delete_gate sampleStore "c1" "u2" (by decide)).2.2.2 sampleRow (by decide)).1
      (by decide)⟩

/-- C12: a lifecycle call that fails on one of its checks leaves the store exactly as it was.
`registerCandidate` fails, store unchanged, when the data is invalid, the user already has a
candidacy, the election is missing, or the election is COMPLETED or CANCELLED;
`approveCandidate` and `rejectCandidate` when the candidate is missing or the caller is not
admin of its election; `updateCandidate` when the candidate is missing, the caller is not the
owner, the status is not PENDING or the merged data is invalid; `deleteCandidate` when the
candidate is missing, the caller is not the owner or the status is not PENDING.  Moreover every
failure of `registerCandidate`, `approveCandidate` and `updateCandidate` leaves the store
unchanged. -/
theorem C12_failed_checks_leave_store (s : Store) (uuid : String) (now : Int)
    (data : CandidateData) (updateData : UpdateData) (candidateId userId reason : String) :
    (((registrationCandidate uuid data userId).isValid.truthy = false ∨
        (s.findCandidacy data.election_id userId).isSome = true ∨
        s.findElection data.election_id = none ∨
        (∃ e, s.findElection data.election_id = some e ∧
          (e.status = "COMPLETED" ∨ e.status = "CANCELLED"))) →
      (registerCandidate s uuid now data userId).succeeded = false ∧
      (registerCandidate s uuid now data userId).store = s) ∧
    ((s.findCandidate candidateId = none ∨
        (∃ c, s.findCandidate candidateId = some c ∧ ¬ IsAdmin s userId c.election_id)) →
      (approveCandidate s candidateId userId).succeeded = false ∧
      (approveCandidate s candidateId userId).store = s ∧
      (rejectCandidate s candidateId userId reason).succeeded = false ∧
      (rejectCandidate s candidateId userId reason).store = s) ∧
    ((s.findCandidate candidateId = none ∨
        (∃ c, s.findCandidate candidateId = some c ∧
          (c.user_id ≠ userId ∨ c.status ≠ "PENDING" ∨
            (mergedCandidate c updateData).isValid.truthy = false))) →
      (updateCandidate s candidateId updateData userId).succeeded = false ∧
      (updateCandidate s candidateId updateData userId).store = s) ∧
    ((s.findCandidate candidateId = none ∨
        (∃ c, s.findCandidate candidateId = some c ∧
          (c.user_id ≠ userId ∨ c.status ≠ "PENDING"))) →
      (deleteCandidate s candidateId userId).succeeded = false ∧
      (deleteCandidate s candidateId userId).store = s) ∧
    ((registerCandidate s uuid now data userId).succeeded = false →
      (registerCandidate s uuid now data userId).store = s) ∧
    ((approveCandidate s candidateId userId).succeeded = false →
      (approveCandidate s candidateId userId).store = s) ∧
    ((updateCandidate s candidateId updateData userId).succeeded = false →
      (updateCandidate s candidateId updateData userId).store = s) := by
  have hreg : (registerCandidate s uuid now data userId).succeeded = false →
      (registerCandidate s uuid now data userId).store = s := by
    unfold registerCandidate
    rw [Outcome.rethrow_store, Outcome.rethrow_succeeded]
    cases hv : (registrationCandidate uuid data userId).isValid.truthy with
    | false => rw [registerCandidateTry_invalid _ _ _ _ _ hv]; exact fun _ => rfl
    | true =>
      cases hc : s.findCandidacy data.election_id userId with
      | some r => rw [registerCandidateTry_duplicate _ _ _ _ _ r hv hc]; exact fun _ => rfl
      | none =>
        cases he : s.findElection data.election_id with
        | none => rw [registerCandidateTry_no_election _ _ _ _ _ hv hc he]; exact fun _ => rfl
        | some e =>
          by_cases hs : e.status = "COMPLETED" ∨ e.status = "CANCELLED"
          · rw [registerCandidateTry_closed _ _ _ _ _ e hv hc he hs]; exact fun _ => rfl
          · cases hu : s.findCandidate uuid with
            | some r =>
              rw [registerCandidateTry_taken _ _ _ _ _ e r hv hc he hs hu]; exact fun _ => rfl
            | none =>
              rw [registerCandidateTry_created _ _ _ _ _ e hv hc he hs hu]
              intro h
              simp [Outcome.succeeded] at h
  have hregFail : ((registrationCandidate uuid data userId).isValid.truthy = false ∨
        (s.findCandidacy data.election_id userId).isSome = true ∨
        s.findElection data.election_id = none ∨
        (∃ e, s.findElection data.election_id = some e ∧
          (e.status = "COMPLETED" ∨ e.status = "CANCELLED"))) →
      (registerCandidate s uuid now data userId).succeeded = false := by
    intro hcond
    unfold registerCandidate
    rw [Outcome.rethrow_succeeded]
    cases hv : (registrationCandidate uuid data userId).isValid.truthy with
    | false => rw [registerCandidateTry_invalid _ _ _ _ _ hv]; rfl
    | true =>
      cases hc : s.findCandidacy data.election_id userId with
      | some r => rw [registerCandidateTry_duplicate _ _ _ _ _ r hv hc]; rfl
      | none =>
        cases he : s.findElection data.election_id with
        | none => rw [registerCandidateTry_no_election _ _ _ _ _ hv hc he]; rfl
        | some e =>
          by_cases hs : e.status = "COMPLETED" ∨ e.status = "CANCELLED"
          · rw [registerCandidateTry_closed _ _ _ _ _ e hv hc he hs]; rfl
          · rcases hcond with h | h | h | ⟨e', he', hs'⟩
            · rw [hv] at h; exact absurd h (by decide)
            · rw [hc] at h; exact absurd h (by decide)
            · rw [he] at h; exact absurd h (by simp)
            · rw [he] at he'
              have : e = e' := by simpa using he'
              subst this
              exact absurd hs' hs
  have happ : (approveCandidate s candidateId userId).succeeded = false →
      (approveCandidate s candidateId userId).store = s := by
    unfold approveCandidate
    rw [Outcome.rethrow_store, Outcome.rethrow_succeeded]
    cases hc : s.findCandidate candidateId with
    | none => rw [approveCandidateTry_missing _ _ _ hc]; exact fun _ => rfl
    | some c =>
      cases ha : s.findAdmin userId c.election_id with
      | none => rw [approveCandidateTry_unauthorized _ _ _ c hc ha]; exact fun _ => rfl
      | some a =>
        rw [approveCandidateTry_done _ _ _ c a hc ha]
        intro h
        simp [Outcome.succeeded] at h
  have hupd : (updateCandidate s candidateId updateData userId).succeeded = false →
      (updateCandidate s candidateId updateData userId).store = s := by
    unfold updateCandidate
    rw [Outcome.rethrow_store, Outcome.rethrow_succeeded]
    cases hc : s.findCandidate candidateId with
    | none => rw [updateCandidateTry_missing _ _ _ _ hc]; exact fun _ => rfl
    | some c =>
      by_cases ho : c.user_id = userId
      · by_cases hp : c.status = "PENDING"
        · cases hv : (mergedCandidate c updateData).isValid.truthy with
          | false => rw [updateCandidateTry_invalid _ _ _ _ c hc ho hp hv]; exact fun _ => rfl
          | true =>
            rw [updateCandidateTry_done _ _ _ _ c hc ho hp hv]
            intro h
            simp [Outcome.succeeded] at h
        · rw [updateCandidateTry_not_pending _ _ _ _ c hc ho hp]; exact fun _ => rfl
      · rw [updateCandidateTry_unauthorized _ _ _ _ c hc ho]; exact fun _ => rfl
  refine ⟨fun h => ⟨hregFail h, hreg (hregFail h)⟩, ?_, ?_, ?_, hreg, happ, hupd⟩
  · intro hcond
    unfold approveCandidate rejectCandidate
    simp only [Outcome.rethrow_store, Outcome.rethrow_succeeded]
    rcases hcond with hc | ⟨c, hc, hna⟩
    · rw [approveCandidateTry_missing _ _ _ hc, rejectCandidateTry_missing _ _ _ hc]
      exact ⟨rfl, rfl, rfl, rfl⟩
    · have ha := (findAdmin_eq_none_iff s userId c.election_id).mpr hna
      rw [approveCandidateTry_unauthorized _ _ _ c hc ha,
        rejectCandidateTry_unauthorized _ _ _ c hc ha]
      exact ⟨rfl, rfl, rfl, rfl⟩
  · intro hcond
    unfold updateCandidate
    simp only [Outcome.rethrow_store, Outcome.rethrow_succeeded]
    rcases hcond with hc | ⟨c, hc, hbad⟩
    · rw [updateCandidateTry_missing _ _ _ _ hc]
      exact ⟨rfl, rfl⟩
    · by_cases ho : c.user_id = userId
      · by_cases hp : c.status = "PENDING"
        · rcases hbad with h | h | hv
          · exact absurd ho h
          · exact absurd hp h
          · rw [updateCandidateTry_invalid _ _ _ _ c hc ho hp hv]
            exact ⟨rfl, rfl⟩
        · rw [updateCandidateTry_not_pending _ _ _ _ c hc ho hp]
          exact ⟨rfl, rfl⟩
      · rw [updateCandidateTry_unauthorized _ _ _ _ c hc ho]
        exact ⟨rfl, rfl⟩
  · intro hcond
    unfold deleteCandidate
    simp only [Outcome.rethrow_store, Outcome.rethrow_succeeded]
    rcases hcond with hc | ⟨c, hc, hbad⟩
    · rw [deleteCandidateTry_missing _ _ _ hc]
      exact ⟨rfl, rfl⟩
    · by_cases ho : c.user_id = userId
      · have hp : c.status ≠ "PENDING" := by
          rcases hbad with h | h
          · exact absurd ho h
          · exact h
        rw [deleteCandidateTry_not_pending _ _ _ c hc ho hp]
        exact ⟨rfl, rfl⟩
      · rw [deleteCandidateTry_unauthorized _ _ _ c hc ho]
        exact ⟨rfl, rfl⟩

/-- C12 (witness): in the sample store a duplicate registration, a decision by a user who is
not admin, an update by a user who is not the owner and the deletion of a missing candidate
all fail and leave the store as it was. -/
theorem C12_failed_checks_leave_store_witness :
    (registerCandidate sampleStore "c2" 200 sampleData "u1").succeeded = false ∧
    (registerCandidate sampleStore "c2" 200 sampleData "u1").store = sampleStore ∧
    (rejectCandidate sampleStore "c1" "u2" "").store = sampleStore ∧
    (updateCandidate sampleStore "c1" sampleUpdate "u2").store = sampleStore ∧
    (deleteCandidate sampleStore "c7" "u1").store = sampleStore :=
  ⟨((C12_failed_checks_leave_store sampleStore "c2" 200 sampleData sampleUpdate "c1" "u1"
      "").1 (Or.inr (Or.inl (by decide)))).1,
    ((C12_failed_checks_leave_store sampleStore "c2" 200 sampleData sampleUpdate "c1" "u1"
      "").1 (Or.inr (Or.inl (by decide)))).2,
    ((C12_failed_checks_leave_store sampleStore "c2" 200 sampleData sampleUpdate "c1" "u2"
      "").2.1 (Or.inr ⟨sampleRow, by decide, by decide⟩)).2.2.2,
    ((C12_failed_checks_leave_store sampleStore "c2" 200 sampleData sampleUpdate "c1" "u2"
      "").2.2.1 (Or.inr ⟨sampleRow, by decide, Or.inl (by decide)⟩)).2,
    ((C12_failed_checks_leave_store sampleStore "c2" 200 sampleData sampleUpdate "c7" "u1"
      "").2.2.2.1 (Or.inl (by decide))).2⟩

/-! ### The result service -/

set_option maxRecDepth 100000

theorem getResult_required (s : Store) (now : Int) (tx regenerate : Bool) :
    getResultByElectionId s now tx "" regenerate =
      ⟨.error "Election ID is required", s, false⟩ := by
  simp [getResultByElectionId]

theorem getResult_missing (s : Store) (now : Int) (tx regenerate : Bool) (electionId : String)
    (hid : electionId ≠ "") (he : s.findElection electionId = none) :
    getResultByElectionId s now tx electionId regenerate =
      ⟨.error "Election not found", s, false⟩ := by
  simp [getResultByElectionId, hid, Store.findElectionRecord, he]

theorem getResult_not_completed (s : Store) (now : Int) (tx regenerate : Bool)
    (electionId : String) (e : ElectionRow) (hid : electionId ≠ "")
    (he : s.findElection electionId = some e) (hs : e.status ≠ "COMPLETED") :
    getResultByElectionId s now tx electionId regenerate =
      ⟨.error "Election is not completed yet", s, false⟩ := by
  simp [getResultByElectionId, hid, Store.findElectionRecord, he, Store.loadRecord, hs]

theorem getResult_kept (s : Store) (now : Int) (tx regenerate : Bool)
    (electionId : String) (e : ElectionRow) (hid : electionId ≠ "")
    (he : s.findElection electionId = some e) (hs : e.status = "COMPLETED")
    (hp : shouldPersist regenerate (s.loadRecord e) (summaryOf s now (s.loadRecord e)) = false) :
    getResultByElectionId s now tx electionId regenerate =
      ⟨.ok (summaryOf s now (s.loadRecord e)).toJSON, s, false⟩ := by
  have hs' : (s.loadRecord e).election.status = "COMPLETED" := hs
  simp [getResultByElectionId, hid, Store.findElectionRecord, he, hs', buildSummary, hp]

theorem getResult_failed (s : Store) (now : Int) (regenerate : Bool)
    (electionId : String) (e : ElectionRow) (hid : electionId ≠ "")
    (he : s.findElection electionId = some e) (hs : e.status = "COMPLETED")
    (hp : shouldPersist regenerate (s.loadRecord e) (summaryOf s now (s.loadRecord e)) = true) :
    getResultByElectionId s now true electionId regenerate =
      ⟨.error storageTransactionFailed, s, false⟩ := by
  have hs' : (s.loadRecord e).election.status = "COMPLETED" := hs
  simp [getResultByElectionId, hid, Store.findElectionRecord, he, hs', buildSummary, hp,
    persistResult]

theorem getResult_persisted (s sp : Store) (now : Int) (regenerate : Bool)
    (electionId : String) (e : ElectionRow) (hid : electionId ≠ "")
    (he : s.findElection electionId = some e) (hs : e.status = "COMPLETED")
    (hp : shouldPersist regenerate (s.loadRecord e) (summaryOf s now (s.loadRecord e)) = true)
    (hsp : persistResult s now false e.election_id (summaryOf s now (s.loadRecord e))
      (summaryOf s now (s.loadRecord e)).winner = some sp) :
    getResultByElectionId s now false electionId regenerate =
      ⟨.ok (summaryOf s now (s.loadRecord e)).toJSON, sp, true⟩ := by
  have hs' : (s.loadRecord e).election.status = "COMPLETED" := hs
  have he' : (s.loadRecord e).election.election_id = e.election_id := rfl
  simp [getResultByElectionId, hid, Store.findElectionRecord, he, hs', buildSummary, hp, he',
    hsp]

/-- Looking the result record up after an upsert. -/
theorem Store.findResult_upsert (s : Store) (electionId : String)
    (update : ElectionResultRow → ElectionResultRow) (create : ElectionResultRow)
    (hupdate : ∀ r, (update r).election_id = r.election_id)
    (hcreate : create.election_id = electionId) :
    (s.upsertResult electionId update create).findResult electionId =
      some (match s.findResult electionId with
        | some r => update r
        | none => create) := by
  unfold Store.upsertResult
  cases h : s.findResult electionId with
  | some r =>
    have hr : r.election_id = electionId := by
      have := List.find?_some h
      simpa using this
    simp only [Store.findResult] at h ⊢
    rw [find_map_of_preserved _ _ _ s.results, h]
    · simp [hr]
    · intro x
      by_cases hx : x.election_id = electionId <;> simp [hx, hupdate]
  | none =>
    simp only [Store.findResult] at h ⊢
    rw [List.find?_append, h]
    simp [hcreate]

/-- An upsert of the result record touches no other table. -/
theorem Store.upsertResult_frame (s : Store) (electionId : String)
    (update : ElectionResultRow → ElectionResultRow) (create : ElectionResultRow) :
    (s.upsertResult electionId update create).candidates = s.candidates ∧
    (s.upsertResult electionId update create).elections = s.elections ∧
    (s.upsertResult electionId update create).admins = s.admins ∧
    (s.upsertResult electionId update create).users = s.users ∧
    (s.upsertResult electionId update create).votes = s.votes ∧
    (s.upsertResult electionId update create).voters = s.voters := by
  unfold Store.upsertResult
  cases s.findResult electionId <;> exact ⟨rfl, rfl, rfl, rfl, rfl, rfl⟩

/-- An upsert keeps `election_id` a key of the result table. -/
theorem Store.upsertResult_nodup (s : Store) (electionId : String)
    (update : ElectionResultRow → ElectionResultRow) (create : ElectionResultRow)
    (hupdate : ∀ r, (update r).election_id = r.election_id)
    (hcreate : create.election_id = electionId)
    (h : (s.results.map (fun r => r.election_id)).Nodup) :
    ((s.upsertResult electionId update create).results.map (fun r => r.election_id)).Nodup := by
  unfold Store.upsertResult
  cases hf : s.findResult electionId with
  | some r =>
    simp only [List.map_map]
    have : ((fun r : ElectionResultRow => r.election_id) ∘
        fun r => if r.election_id = electionId then update r else r) =
        fun r => r.election_id := by
      funext x
      by_cases hx : x.election_id = electionId <;> simp [hx, hupdate]
    rw [this]
    exact h
  | none =>
    simp only [List.map_append, List.map_cons, List.map_nil]
    rw [List.nodup_append]
    refine ⟨h, List.nodup_singleton _, ?_⟩
    simp only [List.disjoint_singleton]
    intro hmem
    rw [List.mem_map] at hmem
    obtain ⟨r, hr, hkey⟩ := hmem
    simp only [Store.findResult] at hf
    rw [List.find?_eq_none] at hf
    have := hf r hr
    simp [hkey, hcreate] at this

/-- Looking an election up after the cached winner was set. -/
theorem find_election_after_winner (l : List ElectionRow) (eid id w : String) :
    (l.map (fun x => if x.election_id = eid then
        { x with winner_candidate_id := some w, winner_election_id := some eid } else x)).find?
      (fun e => e.election_id = id) =
    (l.find? (fun e => e.election_id = id)).map (fun x => if x.election_id = eid then
        { x with winner_candidate_id := some w, winner_election_id := some eid } else x) := by
  apply find_map_of_preserved
  intro x
  by_cases hb : x.election_id = eid <;> simp [hb]

/-- The store a committed `#persistResult` leaves: the record that is upserted, and the
election table with the cached winner set when there is a winner. -/
theorem persistResult_committed (s : Store) (now : Int) (electionId : String)
    (summary : ElectionResultSummary) (winner : Option CandidateResult) (e : ElectionRow)
    (he : s.findElection electionId = some e) :
    ∃ sp, persistResult s now false electionId summary winner = some sp ∧
      sp.candidates = s.candidates ∧ sp.users = s.users ∧ sp.votes = s.votes ∧
      sp.voters = s.voters ∧ sp.admins = s.admins ∧
      (∃ r, sp.findResult electionId = some r ∧ r.election_id = electionId ∧
        r.total_votes = summary.totalVotes ∧
        r.voter_turnout_percentage = summary.voterTurnoutPercentage ∧
        r.winner_candidate_id = winner.map (fun w => w.candidate_id) ∧
        r.remarks = remarksOrNull summary.remarks ∧ r.result_generated_at = now) ∧
      (∀ w, winner = some w →
        sp.findElection electionId = some { e with
          winner_candidate_id := some w.candidate_id
          winner_election_id := some electionId } ∧
        ∀ id, id ≠ electionId → sp.findElection id = s.findElection id) ∧
      (winner = none → sp.elections = s.elections) ∧
      ((s.results.map (fun r => r.election_id)).Nodup →
        (sp.results.map (fun r => r.election_id)).Nodup) := by
  have hid := s.findElection_id _ _ he
  obtain ⟨hc, hel, ha, hu, hv, hvo⟩ := s.upsertResult_frame electionId
    (resultUpdate now electionId summary winner) (resultCreate now electionId summary winner)
  have hfind := s.findResult_upsert electionId
    (resultUpdate now electionId summary winner) (resultCreate now electionId summary winner)
    (fun _ => rfl) rfl
  have hnodup := s.upsertResult_nodup electionId
    (resultUpdate now electionId summary winner) (resultCreate now electionId summary winner)
    (fun _ => rfl) rfl
  have hrec : ∃ r, (match s.findResult electionId with
        | some r => resultUpdate now electionId summary winner r
        | none => resultCreate now electionId summary winner) = r ∧
        r.election_id = electionId ∧
        r.total_votes = summary.totalVotes ∧
        r.voter_turnout_percentage = summary.voterTurnoutPercentage ∧
        r.winner_candidate_id = winner.map (fun w => w.candidate_id) ∧
        r.remarks = remarksOrNull summary.remarks ∧ r.result_generated_at = now := by
    cases hf : s.findResult electionId with
    | some r =>
      have hr : r.election_id = electionId := by
        have := List.find?_some hf
        simpa using this
      exact ⟨_, rfl, hr, rfl, rfl, rfl, rfl, rfl⟩
    | none => exact ⟨_, rfl, rfl, rfl, rfl, rfl, rfl, rfl⟩
  obtain ⟨r, hr, hfields⟩ := hrec
  rw [hr] at hfind
  cases winner with
  | none =>
    refine ⟨_, by simp only [persistResult, Bool.false_eq_true, if_false], hc, hu, hv, hvo,
      ha, ⟨r, hfind, hfields⟩, ?_, fun _ => hel, hnodup⟩
    intro w hw
    exact absurd hw (by simp)
  | some w =>
    generalize hup : s.upsertResult electionId (resultUpdate now electionId summary (some w))
      (resultCreate now electionId summary (some w)) = up at hc hel ha hu hv hvo hfind hnodup
    have he1 : up.findElection electionId = some e := by
      unfold Store.findElection
      rw [hel]
      exact he
    refine ⟨{ up with elections := up.elections.map (fun x =>
        if x.election_id = electionId then
          { x with winner_candidate_id := some w.candidate_id
                   winner_election_id := some electionId }
        else x) },
      by simp only [persistResult, Bool.false_eq_true, if_false, hup, Store.setWinner, he1],
      hc, hu, hv, hvo, ha, ⟨r, hfind, hfields⟩, ?_, ?_, hnodup⟩
    · intro w' hw'
      have hw'' : w = w' := by simpa using hw'
      subst hw''
      refine ⟨?_, ?_⟩
      · simp only [Store.findElection] at he ⊢
        rw [hel, find_election_after_winner, he]
        simp [hid]
      · intro id hne
        cases hf : s.findElection id with
        | none =>
          simp only [Store.findElection] at hf ⊢
          rw [hel, find_election_after_winner, hf]; rfl
        | some x =>
          have hx := s.findElection_id _ _ hf
          simp only [Store.findElection] at hf ⊢
          rw [hel, find_election_after_winner, hf]
          simp [hx, hne]
    · intro h
      exact absurd h (by simp)

/-- What a returned summary tells: the election exists, is COMPLETED, and the summary is the
one built from its loaded record. -/
theorem getResult_ok (s : Store) (now : Int) (tx regenerate : Bool) (electionId : String)
    (j : SummaryJson)
    (h : (getResultByElectionId s now tx electionId regenerate).result = .ok j) :
    electionId ≠ "" ∧ ∃ e, s.findElection electionId = some e ∧ e.status = "COMPLETED" ∧
      e.election_id = electionId ∧ j = (summaryOf s now (s.loadRecord e)).toJSON := by
  by_cases hid : electionId = ""
  · subst hid
    rw [getResult_required] at h
    simp at h
  refine ⟨hid, ?_⟩
  cases he : s.findElection electionId with
  | none =>
    rw [getResult_missing _ _ _ _ _ hid he] at h
    simp at h
  | some e =>
    by_cases hs : e.status = "COMPLETED"
    · refine ⟨e, rfl, hs, s.findElection_id _ _ he, ?_⟩
      cases hp : shouldPersist regenerate (s.loadRecord e) (summaryOf s now (s.loadRecord e)) with
      | false =>
        rw [getResult_kept _ _ _ _ _ e hid he hs hp] at h
        simpa using h.symm
      | true =>
        cases tx with
        | true =>
          rw [getResult_failed _ _ _ _ e hid he hs hp] at h
          simp at h
        | false =>
          have he' : s.findElection e.election_id = some e := by
            rw [s.findElection_id _ _ he]; exact he
          obtain ⟨sp, hsp, _⟩ := persistResult_committed s now e.election_id
            (summaryOf s now (s.loadRecord e)) (summaryOf s now (s.loadRecord e)).winner e he'
          rw [getResult_persisted _ sp _ _ _ e hid he hs hp hsp] at h
          simpa using h.symm
    · rw [getResult_not_completed _ _ _ _ _ e hid he hs] at h
      simp at h

/-- The decision `shouldPersist` in terms of the stored record and the summary. -/
theorem shouldPersist_iff (s : Store) (regenerate : Bool) (e : ElectionRow)
    (summary : ElectionResultSummary) :
    shouldPersist regenerate (s.loadRecord e) summary = true ↔
      (regenerate = true ∨ s.findResult e.election_id = none ∨
        ∃ stored, s.findResult e.election_id = some stored ∧
          (stored.total_votes ≠ summary.totalVotes ∨
            stored.voter_turnout_percentage ≠ summary.voterTurnoutPercentage ∨
            ∃ w, summary.winner = some w ∧ stored.winner_candidate_id ≠ some w.candidate_id)) := by
  have hrec : (s.loadRecord e).results = s.findResult e.election_id := rfl
  unfold shouldPersist
  rw [hrec]
  cases regenerate <;> cases s.findResult e.election_id <;> cases summary.winner <;>
    simp [or_assoc]


/-! ### Percentages -/

/-- C13 (evaluation at the failing input): election `e3` is COMPLETED with 23 vote records and
160 registered voters, so `100 * V / R` is `14.375`, which rounds to `14.38`; the summary's
turnout percentage is `14.37`, because the binary64 value of `(23 / 160) * 100` lies below
`14.375`. -/
theorem C13_turnout_misrounded :
    roundingStore.countVotes "e3" = 23 ∧
    (getResultByElectionId roundingStore 500 false "e3").value.map
      (fun j => (j.status, j.total_votes, j.total_registered_voters,
        j.voter_turnout_percentage)) = some ("COMPLETED", 23, 160, 1437) ∧
    ((Binary64.ofInt 23).div (Binary64.ofInt 160)).mul (Binary64.ofInt 100) =
      { negative := false, mantissa := 8092405580431359, exponent := -49 } ∧
    (8092405580431359 : ℚ) / 2 ^ 49 < 14375 / 1000 ∧
    roundTwoDecimals (100 * 23 / 160) = hundredthsValue 1438 ∧
    hundredthsValue 1437 ≠ roundTwoDecimals (100 * 23 / 160) := by
  refine ⟨by decide, by decide, by decide, by norm_num, ?_, ?_⟩
  · unfold roundTwoDecimals hundredthsValue
    norm_num
  · unfold roundTwoDecimals hundredthsValue
    norm_num

/-- C14 (evaluation at the failing input): election `e4` is COMPLETED with 160 vote records;
its candidate with 23 votes gets the share `14.37`, while `100 * 23 / 160 = 14.375` rounds to
`14.38`.  In the scenario of the specification (50, 30 and 20 votes of 100) the shares are
`50.00`, `30.00`, `20.00`. -/
theorem C14_share_misrounded :
    roundingStore.countVotes "e4" = 160 ∧
    (getResultByElectionId roundingStore 500 false "e4").value.map
      (fun j => j.candidates.map (fun c => (c.candidate_id, c.total_votes, c.vote_percentage))) =
      some [("c137", 137, 8563), ("c23", 23, 1437)] ∧
    roundTwoDecimals (100 * 23 / 160) = hundredthsValue 1438 ∧
    hundredthsValue 1437 ≠ roundTwoDecimals (100 * 23 / 160) ∧
    (getResultByElectionId scenarioStore 500 false "e2").value.map
      (fun j => j.candidates.map (fun c => (c.candidate_id, c.total_votes, c.vote_percentage))) =
      some [("c50", 50, 5000), ("c30", 30, 3000), ("c20", 20, 2000)] := by
  refine ⟨by decide, by decide, ?_, ?_, by decide⟩
  · unfold roundTwoDecimals hundredthsValue
    norm_num
  · unfold roundTwoDecimals hundredthsValue
    norm_num

/-! ### Winner and ranking -/

/-- The approved candidates are loaded in non-increasing order of `total_votes`. -/
theorem approvedCandidates_sorted (s : Store) (electionId : String) :
    (s.approvedCandidates electionId).Pairwise (fun a b => b.total_votes ≤ a.total_votes) := by
  haveI : IsTotal CandidateRow (fun a b => b.total_votes ≤ a.total_votes) :=
    ⟨fun a b => le_total b.total_votes a.total_votes⟩
  haveI : IsTrans CandidateRow (fun a b => b.total_votes ≤ a.total_votes) :=
    ⟨fun _ _ _ hab hbc => le_trans hbc hab⟩
  exact List.sorted_insertionSort (fun a b : CandidateRow => b.total_votes ≤ a.total_votes) _

/-- The approved candidates loaded are the APPROVED rows of the election, each once. -/
theorem approvedCandidates_perm (s : Store) (electionId : String) :
    (s.approvedCandidates electionId).Perm
      (s.candidates.filter (fun c => c.election_id = electionId ∧ c.status = "APPROVED")) :=
  List.perm_insertionSort _ _

/-- The candidate list of the built summary: one projection per approved candidate loaded,
with its identifier and vote total. -/
theorem summaryOf_candidates (s : Store) (now : Int) (e : ElectionRow) :
    (summaryOf s now (s.loadRecord e)).candidates.map
        (fun c => (c.candidate_id, c.total_votes)) =
      (s.approvedCandidates e.election_id).map (fun c => (c.candidate_id, c.total_votes)) := by
  simp [summaryOf, Store.loadRecord, candidateResultOf, CandidateResult.new, List.map_map,
    Function.comp_def]

/-- C15: when `getResultByElectionId` returns a summary, its candidate list holds exactly the
APPROVED candidates of the election (identifier and vote total, each once) in non-increasing
order of `total_votes`; its winner is `null` exactly when the election has no APPROVED
candidate, and otherwise is an APPROVED candidate of the election whose `total_votes` is
greatest among the APPROVED candidates of the election. -/
theorem C15_winner_and_ranking (s : Store) (now : Int) (transactionFails regenerate : Bool)
    (electionId : String) (j : SummaryJson)
    (h : (getResultByElectionId s now transactionFails electionId regenerate).result = .ok j) :
    (j.candidates.map (fun c => (c.candidate_id, c.total_votes))).Perm
      ((s.candidates.filter
        (fun c => c.election_id = electionId ∧ c.status = "APPROVED")).map
          (fun c => (c.candidate_id, c.total_votes))) ∧
    j.candidates.Pairwise (fun a b => b.total_votes ≤ a.total_votes) ∧
    j.winner = j.candidates.head? ∧
    (j.winner = none ↔
      ∀ c ∈ s.candidates, ¬ (c.election_id = electionId ∧ c.status = "APPROVED")) ∧
    (∀ w, j.winner = some w →
      (∃ c ∈ s.candidates, c.election_id = electionId ∧ c.status = "APPROVED" ∧
        c.candidate_id = w.candidate_id ∧ c.total_votes = w.total_votes) ∧
      (∀ c ∈ s.candidates, c.election_id = electionId → c.status = "APPROVED" →
        c.total_votes ≤ w.total_votes)) := by
  obtain ⟨_, e, _, _, hid, hj⟩ := getResult_ok s now transactionFails regenerate electionId j h
  subst hid
  have hperm := approvedCandidates_perm s e.election_id
  have hsorted := approvedCandidates_sorted s e.election_id
  have hcands : j.candidates = (s.approvedCandidates e.election_id).map
      (fun c => candidateResultOf (s.countVotes e.election_id)
        (c, s.users.find? (fun u => u.user_id = c.user_id))) := by
    rw [hj]
    simp [ElectionResultSummary.toJSON, summaryOf, Store.loadRecord, List.map_map,
      Function.comp_def]
  have hwin : j.winner = j.candidates.head? := by
    rw [hj]
    simp [ElectionResultSummary.toJSON, summaryOf]
  have hkeys : j.candidates.map (fun c => (c.candidate_id, c.total_votes)) =
      (s.approvedCandidates e.election_id).map (fun c => (c.candidate_id, c.total_votes)) := by
    rw [hj]
    exact summaryOf_candidates s now e
  refine ⟨?_, ?_, hwin, ?_, ?_⟩
  · rw [hkeys]
    exact hperm.map _
  · rw [hcands, List.pairwise_map]
    exact hsorted
  · rw [hwin, hcands]
    constructor
    · intro hnone c hc hprop
      have hmem : c ∈ s.approvedCandidates e.election_id := by
        rw [hperm.mem_iff, List.mem_filter]
        exact ⟨hc, by simpa using hprop⟩
      cases hap : s.approvedCandidates e.election_id with
      | nil => rw [hap] at hmem; simp at hmem
      | cons a t => rw [hap] at hnone; simp at hnone
    · intro hall
      cases hap : s.approvedCandidates e.election_id with
      | nil => rfl
      | cons a t =>
        have hmem : a ∈ s.approvedCandidates e.election_id := by rw [hap]; simp
        rw [hperm.mem_iff, List.mem_filter] at hmem
        exact absurd (by simpa using hmem.2) (hall a hmem.1)
  · intro w hw
    rw [hwin, hcands] at hw
    cases hap : s.approvedCandidates e.election_id with
    | nil => rw [hap] at hw; simp at hw
    | cons a t =>
      rw [hap] at hw hsorted
      have hwa : w = candidateResultOf (s.countVotes e.election_id)
          (a, s.users.find? (fun u => u.user_id = a.user_id)) := by
        simpa using hw.symm
      have hwid : w.candidate_id = a.candidate_id := by rw [hwa]; rfl
      have hwv : w.total_votes = a.total_votes := by rw [hwa]; rfl
      have hmem : a ∈ s.approvedCandidates e.election_id := by rw [hap]; simp
      rw [hperm.mem_iff, List.mem_filter] at hmem
      have hprop : a.election_id = e.election_id ∧ a.status = "APPROVED" := by
        simpa using hmem.2
      refine ⟨⟨a, hmem.1, hprop.1, hprop.2, hwid.symm, hwv.symm⟩, ?_⟩
      intro c hc hce hcs
      have hcm : c ∈ s.approvedCandidates e.election_id := by
        rw [hperm.mem_iff, List.mem_filter]
        exact ⟨hc, by simp [hce, hcs]⟩
      rw [hap] at hcm
      rw [hwv]
      rcases List.mem_cons.mp hcm with hca | hct
      · rw [hca]
      · exact List.rel_of_pairwise_cons hsorted hct

/-- C15 (witness): in the scenario of the specification the winner is the candidate with 50
votes and the ranking is 50, 30, 20. -/
theorem C15_winner_and_ranking_witness :
    (getResultByElectionId scenarioStore 500 false "e2").result = .ok scenarioSummary ∧
    scenarioSummary.winner.map (fun c => c.candidate_id) = some "c50" ∧
    scenarioSummary.candidates.map (fun c => c.total_votes) = [50, 30, 20] ∧
    scenarioSummary.candidates.Pairwise (fun a b => b.total_votes ≤ a.total_votes) ∧
    scenarioSummary.winner = scenarioSummary.candidates.head? :=
  ⟨by decide, by decide, by decide,
    (C15_winner_and_ranking scenarioStore 500 false false "e2" scenarioSummary (by decide)).2.1,
    (C15_winner_and_ranking scenarioStore 500 false false "e2" scenarioSummary
      (by decide)).2.2.1⟩

/-! ### The gate and the persistence decision of `getResultByElectionId` -/

/-- The outcome of `getResultByElectionId` for a COMPLETED election: the summary built from the
loaded record is returned, after a committed write when `shouldPersist` holds, and the call
fails without a write when the write is due and the transaction fails. -/
theorem getResult_completed (s : Store) (now : Int) (tx regenerate : Bool)
    (electionId : String) (e : ElectionRow) (hid : electionId ≠ "")
    (he : s.findElection electionId = some e) (hs : e.status = "COMPLETED") :
    (shouldPersist regenerate (s.loadRecord e) (summaryOf s now (s.loadRecord e)) = false ∧
      getResultByElectionId s now tx electionId regenerate =
        ⟨.ok (summaryOf s now (s.loadRecord e)).toJSON, s, false⟩) ∨
    (shouldPersist regenerate (s.loadRecord e) (summaryOf s now (s.loadRecord e)) = true ∧
      tx = true ∧
      getResultByElectionId s now tx electionId regenerate =
        ⟨.error storageTransactionFailed, s, false⟩) ∨
    (shouldPersist regenerate (s.loadRecord e) (summaryOf s now (s.loadRecord e)) = true ∧
      tx = false ∧
      ∃ sp, persistResult s now false electionId (summaryOf s now (s.loadRecord e))
          (summaryOf s now (s.loadRecord e)).winner = some sp ∧
        getResultByElectionId s now tx electionId regenerate =
          ⟨.ok (summaryOf s now (s.loadRecord e)).toJSON, sp, true⟩) := by
  have heid := s.findElection_id _ _ he
  cases hp : shouldPersist regenerate (s.loadRecord e) (summaryOf s now (s.loadRecord e)) with
  | false => exact Or.inl ⟨rfl, getResult_kept _ _ _ _ _ e hid he hs hp⟩
  | true =>
    cases tx with
    | true => exact Or.inr (Or.inl ⟨rfl, rfl, getResult_failed _ _ _ _ e hid he hs hp⟩)
    | false =>
      obtain ⟨sp, hsp, _⟩ := persistResult_committed s now electionId
        (summaryOf s now (s.loadRecord e)) (summaryOf s now (s.loadRecord e)).winner e he
      refine Or.inr (Or.inr ⟨rfl, rfl, sp, hsp, ?_⟩)
      apply getResult_persisted _ sp _ _ _ e hid he hs hp
      rw [heid]
      exact hsp

/-- C16: `getResultByElectionId` fails with `Election ID is required` for an empty id, with
`Election not found` when no election has the id, and with `Election is not completed yet` for
every status other than COMPLETED; a returned summary means the election exists and is
COMPLETED, and (the storage transaction not failing) the call returns a summary exactly then;
a failed call writes nothing. -/
theorem C16_result_gate (s : Store) (now : Int) (transactionFails regenerate : Bool)
    (electionId : String) :
    (electionId = "" →
      (getResultByElectionId s now transactionFails electionId regenerate).result =
        .error "Election ID is required") ∧
    (electionId ≠ "" → s.findElection electionId = none →
      (getResultByElectionId s now transactionFails electionId regenerate).result =
        .error "Election not found") ∧
    (electionId ≠ "" → ∀ e, s.findElection electionId = some e → e.status ≠ "COMPLETED" →
      (getResultByElectionId s now transactionFails electionId regenerate).result =
        .error "Election is not completed yet") ∧
    ((getResultByElectionId s now transactionFails electionId regenerate).succeeded = true →
      electionId ≠ "" ∧ ∃ e, s.findElection electionId = some e ∧ e.status = "COMPLETED") ∧
    (transactionFails = false →
      ((getResultByElectionId s now transactionFails electionId regenerate).succeeded = true ↔
        electionId ≠ "" ∧ ∃ e, s.findElection electionId = some e ∧ e.status = "COMPLETED")) ∧
    ((getResultByElectionId s now transactionFails electionId regenerate).succeeded = false →
      (getResultByElectionId s now transactionFails electionId regenerate).store = s ∧
      (getResultByElectionId s now transactionFails electionId regenerate).persisted = false) := by
  have hforward :
      (getResultByElectionId s now transactionFails electionId regenerate).succeeded = true →
      electionId ≠ "" ∧ ∃ e, s.findElection electionId = some e ∧ e.status = "COMPLETED" := by
    intro hsucc
    cases hr : (getResultByElectionId s now transactionFails electionId regenerate).result with
    | error m => simp [ResultOutcome.succeeded, hr] at hsucc
    | ok j =>
      obtain ⟨hid, e, he, hs, _⟩ := getResult_ok s now transactionFails regenerate electionId j hr
      exact ⟨hid, e, he, hs⟩
  refine ⟨?_, ?_, ?_, hforward, ?_, ?_⟩
  · intro hid
    subst hid
    rw [getResult_required]
  · intro hid he
    rw [getResult_missing _ _ _ _ _ hid he]
  · intro hid e he hs
    rw [getResult_not_completed _ _ _ _ _ e hid he hs]
  · intro htx
    subst htx
    refine ⟨hforward, ?_⟩
    rintro ⟨hid, e, he, hs⟩
    rcases getResult_completed s now false regenerate electionId e hid he hs with
      ⟨_, h⟩ | ⟨_, htrue, _⟩ | ⟨_, _, sp, _, h⟩
    · rw [h]; rfl
    · exact absurd htrue (by decide)
    · rw [h]; rfl
  · intro hfail
    by_cases hid : electionId = ""
    · subst hid
      rw [getResult_required]
      exact ⟨rfl, rfl⟩
    · cases he : s.findElection electionId with
      | none =>
        rw [getResult_missing _ _ _ _ _ hid he]
        exact ⟨rfl, rfl⟩
      | some e =>
        by_cases hs : e.status = "COMPLETED"
        · rcases getResult_completed s now transactionFails regenerate electionId e hid he hs
            with ⟨_, h⟩ | ⟨_, _, h⟩ | ⟨_, _, sp, _, h⟩
          · rw [h] at hfail; simp [ResultOutcome.succeeded] at hfail
          · rw [h]; exact ⟨rfl, rfl⟩
          · rw [h] at hfail; simp [ResultOutcome.succeeded] at hfail
        · rw [getResult_not_completed _ _ _ _ _ e hid he hs]
          exact ⟨rfl, rfl⟩

/-- C16 (witness): the completed scenario election yields a summary; an active election, a
missing election and the empty id are refused. -/
theorem C16_result_gate_witness :
    (getResultByElectionId scenarioStore 500 false "e2").succeeded = true ∧
    (getResultByElectionId sampleStore 500 false "e1").result =
      .error "Election is not completed yet" ∧
    (getResultByElectionId sampleStore 500 false "e9").result = .error "Election not found" ∧
    (getResultByElectionId sampleStore 500 false "").result =
      .error "Election ID is required" :=
  ⟨((C16_result_gate scenarioStore 500 false false "e2").2.2.2.2.1 rfl).mpr
      ⟨by decide, scenarioElection, by decide, by decide⟩,
    (C16_result_gate sampleStore 500 false false "e1").2.2.1 (by decide) _
      (by decide : sampleStore.findElection "e1" = some
        { election_id := "e1", title := "Council", status := "ACTIVE",
          total_candidates := 1 }) (by decide),
    (C16_result_gate sampleStore 500 false false "e9").2.1 (by decide) (by decide),
    (C16_result_gate sampleStore 500 false false "").1 rfl⟩

/-- C17: for a COMPLETED election (the storage transaction not failing),
`getResultByElectionId` returns a summary, and it commits a write of the result record exactly
when regeneration was requested, or no result is stored, or the stored total differs from the
summary's, or the stored turnout differs from the summary's, or the summary has a winner whose
candidate id differs from the stored winner id; without a write the store is as before, with a
write the stored record carries the time of the call.  `generateResult` commits a write on
every such call. -/
theorem C17_persist_decision (s : Store) (now : Int) (regenerate : Bool)
    (electionId : String) (e : ElectionRow) (hid : electionId ≠ "")
    (he : s.findElection electionId = some e) (hs : e.status = "COMPLETED") :
    (∃ j, (getResultByElectionId s now false electionId regenerate).result = .ok j ∧
      ((getResultByElectionId s now false electionId regenerate).persisted = true ↔
        (regenerate = true ∨ s.findResult electionId = none ∨
          ∃ stored, s.findResult electionId = some stored ∧
            (stored.total_votes ≠ j.total_votes ∨
              stored.voter_turnout_percentage ≠ j.voter_turnout_percentage ∨
              ∃ w, j.winner = some w ∧ stored.winner_candidate_id ≠ some w.candidate_id)))) ∧
    ((getResultByElectionId s now false electionId regenerate).persisted = false →
      (getResultByElectionId s now false electionId regenerate).store = s) ∧
    ((getResultByElectionId s now false electionId regenerate).persisted = true →
      ∃ r, (getResultByElectionId s now false electionId regenerate).store.findResult
        electionId = some r ∧ r.result_generated_at = now) ∧
    (generateResult s now false electionId).succeeded = true ∧
    (generateResult s now false electionId).persisted = true := by
  have heid := s.findElection_id _ _ he
  have hiff := shouldPersist_iff s regenerate e (summaryOf s now (s.loadRecord e))
  rw [heid] at hiff
  refine ⟨?_, ?_, ?_, ?_⟩
  · rcases getResult_completed s now false regenerate electionId e hid he hs with
      ⟨hp, h⟩ | ⟨_, htrue, _⟩ | ⟨hp, _, sp, _, h⟩
    · refine ⟨_, by rw [h], ?_⟩
      rw [h]
      constructor
      · intro hx; exact absurd hx (by simp)
      · intro hx
        have := hiff.mpr hx
        rw [hp] at this
        exact absurd this (by decide)
    · exact absurd htrue (by decide)
    · refine ⟨_, by rw [h], ?_⟩
      rw [h]
      exact ⟨fun _ => hiff.mp hp, fun _ => rfl⟩
  · intro hnp
    rcases getResult_completed s now false regenerate electionId e hid he hs with
      ⟨_, h⟩ | ⟨_, htrue, _⟩ | ⟨_, _, sp, _, h⟩
    · rw [h]
    · exact absurd htrue (by decide)
    · rw [h] at hnp; exact absurd hnp (by simp)
  · intro hp'
    rcases getResult_completed s now false regenerate electionId e hid he hs with
      ⟨_, h⟩ | ⟨_, htrue, _⟩ | ⟨_, _, sp, hsp, h⟩
    · rw [h] at hp'; exact absurd hp' (by simp)
    · exact absurd htrue (by decide)
    · rw [h]
      obtain ⟨sp', hsp', _, _, _, _, _, ⟨r, hr, _, _, _, _, _, hnow⟩, _⟩ :=
        persistResult_committed s now electionId (summaryOf s now (s.loadRecord e))
          (summaryOf s now (s.loadRecord e)).winner e he
      rw [hsp] at hsp'
      have : sp = sp' := by simpa using hsp'
      subst this
      exact ⟨r, hr, hnow⟩
  · unfold generateResult
    have hp : shouldPersist true (s.loadRecord e) (summaryOf s now (s.loadRecord e)) = true := by
      simp [shouldPersist]
    rcases getResult_completed s now false true electionId e hid he hs with
      ⟨hp', _⟩ | ⟨_, htrue, _⟩ | ⟨_, _, sp, _, h⟩
    · rw [hp] at hp'; exact absurd hp' (by decide)
    · exact absurd htrue (by decide)
    · rw [h]; exact ⟨rfl, rfl⟩

/-- C17 (witness): the scenario election has no stored result, so the first read writes it;
`generateResult` writes again on the store the read leaves. -/
theorem C17_persist_decision_witness :
    scenarioStore.findElection "e2" = some scenarioElection ∧
    scenarioStore.findResult "e2" = none ∧
    (getResultByElectionId scenarioStore 500 false "e2").persisted = true ∧
    (generateResult scenarioStore 500 false "e2").persisted = true :=
  ⟨by decide, by decide, by decide,
    (C17_persist_decision scenarioStore 500 false "e2" scenarioElection (by decide) (by decide)
      (by decide)).2.2.2.2⟩

/-! ### Idempotent persistence -/

/-- The figures of a summary depend only on the election's identifier and voter total and on
the candidate, user, vote and voter tables. -/
theorem summaryOf_figures (s sp : Store) (n1 n2 : Int) (e e' : ElectionRow)
    (hc : sp.candidates = s.candidates) (hu : sp.users = s.users) (hv : sp.votes = s.votes)
    (hvo : sp.voters = s.voters) (hid : e'.election_id = e.election_id)
    (htv : e'.total_voters = e.total_voters) :
    (summaryOf sp n2 (sp.loadRecord e')).totalVotes =
      (summaryOf s n1 (s.loadRecord e)).totalVotes ∧
    (summaryOf sp n2 (sp.loadRecord e')).totalRegisteredVoters =
      (summaryOf s n1 (s.loadRecord e)).totalRegisteredVoters ∧
    (summaryOf sp n2 (sp.loadRecord e')).voterTurnoutPercentage =
      (summaryOf s n1 (s.loadRecord e)).voterTurnoutPercentage ∧
    (summaryOf sp n2 (sp.loadRecord e')).candidates =
      (summaryOf s n1 (s.loadRecord e)).candidates ∧
    (summaryOf sp n2 (sp.loadRecord e')).winner =
      (summaryOf s n1 (s.loadRecord e)).winner := by
  simp [summaryOf, Store.loadRecord, Store.approvedCandidates, Store.countVotes,
    totalRegisteredOf, hc, hu, hv, hvo, hid, htv]

/-- C18: when `getResultByElectionId` has returned a summary, an immediately following plain
call for the same election commits no write and leaves every table (result and election
records included) as the first call left it, and returns a summary with the same total votes,
turnout percentage, candidate list and winner. -/
theorem C18_idempotent_persistence (s : Store) (now1 now2 : Int)
    (fails1 fails2 regenerate : Bool) (electionId : String) (j1 : SummaryJson)
    (h1 : (getResultByElectionId s now1 fails1 electionId regenerate).result = .ok j1) :
    (getResultByElectionId (getResultByElectionId s now1 fails1 electionId regenerate).store
      now2 fails2 electionId false).persisted = false ∧
    (getResultByElectionId (getResultByElectionId s now1 fails1 electionId regenerate).store
      now2 fails2 electionId false).store =
        (getResultByElectionId s now1 fails1 electionId regenerate).store ∧
    ∃ j2,
      (getResultByElectionId (getResultByElectionId s now1 fails1 electionId regenerate).store
        now2 fails2 electionId false).result = .ok j2 ∧
      j2.total_votes = j1.total_votes ∧
      j2.voter_turnout_percentage = j1.voter_turnout_percentage ∧
      j2.candidates = j1.candidates ∧ j2.winner = j1.winner := by
  obtain ⟨hid, e, he, hs, heid, hj1⟩ :=
    getResult_ok s now1 fails1 regenerate electionId j1 h1
  have hiff1 := shouldPersist_iff s regenerate e (summaryOf s now1 (s.loadRecord e))
  rcases getResult_completed s now1 fails1 regenerate electionId e hid he hs with
    ⟨hp, h⟩ | ⟨_, _, h⟩ | ⟨_, _, sp, hsp, h⟩
  · -- nothing was written by the first call
    rw [h]
    obtain ⟨f1, f2, f3, f4, f5⟩ := summaryOf_figures s s now1 now2 e e rfl rfl rfl rfl rfl rfl
    have hp2 : shouldPersist false (s.loadRecord e) (summaryOf s now2 (s.loadRecord e)) =
        false := by
      cases hq : shouldPersist false (s.loadRecord e) (summaryOf s now2 (s.loadRecord e)) with
      | false => rfl
      | true =>
        have hcond := (shouldPersist_iff s false e (summaryOf s now2 (s.loadRecord e))).mp hq
        rw [f1, f3, f5] at hcond
        have : shouldPersist regenerate (s.loadRecord e) (summaryOf s now1 (s.loadRecord e)) =
            true := by
          apply hiff1.mpr
          rcases hcond with hx | hx | hx
          · exact absurd hx (by decide)
          · exact Or.inr (Or.inl hx)
          · exact Or.inr (Or.inr hx)
        rw [hp] at this
        exact absurd this (by decide)
    rw [getResult_kept _ _ _ _ _ e hid he hs hp2]
    refine ⟨rfl, rfl, _, rfl, ?_, ?_, ?_, ?_⟩
    · rw [hj1]; exact f1
    · rw [hj1]; exact f3
    · rw [hj1]; exact f4
    · rw [hj1]; exact f5
  · rw [h] at h1
    simp at h1
  · -- the first call committed a write
    rw [h]
    obtain ⟨sp', hsp', hc, hu, hv, hvo, _, ⟨r, hr, _, hrt, hrp, hrw, _, _⟩, hwin, hnowin, _⟩ :=
      persistResult_committed s now1 electionId (summaryOf s now1 (s.loadRecord e))
        (summaryOf s now1 (s.loadRecord e)).winner e he
    rw [hsp] at hsp'
    have hsame : sp = sp' := by simpa using hsp'
    subst hsame
    have hfound : ∃ e', sp.findElection electionId = some e' ∧
        e'.election_id = e.election_id ∧ e'.total_voters = e.total_voters ∧
        e'.status = "COMPLETED" := by
      cases hw : (summaryOf s now1 (s.loadRecord e)).winner with
      | none =>
        refine ⟨e, ?_, rfl, rfl, hs⟩
        unfold Store.findElection
        rw [hnowin hw]
        exact he
      | some w => exact ⟨_, (hwin w hw).1, rfl, rfl, hs⟩
    obtain ⟨e', he', hid', htv', hs'⟩ := hfound
    obtain ⟨f1, f2, f3, f4, f5⟩ :=
      summaryOf_figures s sp now1 now2 e e' hc hu hv hvo hid' htv'
    have hr' : sp.findResult e'.election_id = some r := by
      rw [hid', heid]; exact hr
    have hp2 : shouldPersist false (sp.loadRecord e') (summaryOf sp now2 (sp.loadRecord e')) =
        false := by
      cases hq : shouldPersist false (sp.loadRecord e')
          (summaryOf sp now2 (sp.loadRecord e')) with
      | false => rfl
      | true =>
        have hcond := (shouldPersist_iff sp false e' (summaryOf sp now2 (sp.loadRecord e'))).mp hq
        rw [f1, f3, f5, hr'] at hcond
        rcases hcond with hx | hx | ⟨stored, hst, hx⟩
        · exact absurd hx (by decide)
        · exact absurd hx (by simp)
        · have hst' : r = stored := by simpa using hst
          subst hst'
          rcases hx with hx | hx | ⟨w, hw, hx⟩
          · exact absurd hrt hx
          · exact absurd hrp hx
          · rw [hrw, hw] at hx
            exact absurd rfl hx
    rw [getResult_kept _ _ _ _ _ e' hid he' hs' hp2]
    refine ⟨rfl, rfl, _, rfl, ?_, ?_, ?_, ?_⟩
    · rw [hj1]; exact f1
    · rw [hj1]; exact f3
    · rw [hj1]; exact f4
    · rw [hj1]; exact f5

/-- C18 (witness): two reads of the scenario election in succession. -/
theorem C18_idempotent_persistence_witness :
    (getResultByElectionId scenarioStore 500 false "e2").result = .ok scenarioSummary ∧
    (getResultByElectionId scenarioStore 500 false "e2").persisted = true ∧
    (getResultByElectionId (getResultByElectionId scenarioStore 500 false "e2" false).store
      600 false "e2" false).persisted = false ∧
    (getResultByElectionId (getResultByElectionId scenarioStore 500 false "e2" false).store
      600 false "e2" false).store =
        (getResultByElectionId scenarioStore 500 false "e2" false).store :=
  ⟨by decide, by decide,
    (C18_idempotent_persistence scenarioStore 500 600 false false false "e2" scenarioSummary
      (by decide)).1,
    (C18_idempotent_persistence scenarioStore 500 600 false false false "e2" scenarioSummary
      (by decide)).2.1⟩

/-! ### The persisted record -/

/-- When `election_id` is a key of the result table, an election has at most one record. -/
theorem results_at_most_one (l : List ElectionResultRow) (electionId : String)
    (h : (l.map (fun r => r.election_id)).Nodup) :
    (l.filter (fun r => r.election_id = electionId)).length ≤ 1 := by
  induction l with
  | nil => simp
  | cons a t ih =>
    rw [List.map_cons, List.nodup_cons] at h
    by_cases ha : a.election_id = electionId
    · have hnone : t.filter (fun r => decide (r.election_id = electionId)) = [] := by
        rw [List.filter_eq_nil_iff]
        intro r hr hre
        apply h.1
        rw [List.mem_map]
        exact ⟨r, hr, by rw [ha]; simpa using hre⟩
      simp [List.filter_cons, ha, hnone]
    · simp only [List.filter_cons, ha, decide_False, Bool.false_eq_true, if_false]
      exact ih h.2

/-- A call of `getResultByElectionId` keeps `election_id` a key of the result table. -/
theorem getResult_results_nodup (s : Store) (now : Int) (tx regenerate : Bool)
    (electionId : String) (h : (s.results.map (fun r => r.election_id)).Nodup) :
    ((getResultByElectionId s now tx electionId regenerate).store.results.map
      (fun r => r.election_id)).Nodup := by
  by_cases hid : electionId = ""
  · subst hid
    rw [getResult_required]
    exact h
  · cases he : s.findElection electionId with
    | none =>
      rw [getResult_missing _ _ _ _ _ hid he]
      exact h
    | some e =>
      by_cases hs : e.status = "COMPLETED"
      · rcases getResult_completed s now tx regenerate electionId e hid he hs with
          ⟨_, hx⟩ | ⟨_, _, hx⟩ | ⟨_, _, sp, hsp, hx⟩
        · rw [hx]; exact h
        · rw [hx]; exact h
        · rw [hx]
          obtain ⟨sp', hsp', _, _, _, _, _, _, _, _, hnodup⟩ :=
            persistResult_committed s now electionId (summaryOf s now (s.loadRecord e))
              (summaryOf s now (s.loadRecord e)).winner e he
          rw [hsp] at hsp'
          have hsame : sp = sp' := by simpa using hsp'
          subst hsame
          exact hnodup h
      · rw [getResult_not_completed _ _ _ _ _ e hid he hs]
        exact h

/-- Every sequence of `getResultByElectionId` calls keeps `election_id` a key of the result
table. -/
theorem runResultCalls_results_nodup (calls : List ResultCall) :
    ∀ s : Store, (s.results.map (fun r => r.election_id)).Nodup →
      ((runResultCalls s calls).results.map (fun r => r.election_id)).Nodup := by
  induction calls with
  | nil => intro s h; exact h
  | cons call rest ih =>
    intro s h
    exact ih (call.run s) (getResult_results_nodup s _ _ _ _ h)

/-- C19: when a call of `getResultByElectionId` commits a write, the result record of the
election holds the summary's total votes, turnout percentage and winner candidate id (`null`
without a winner); with a winner the election's cached `winner_candidate_id` is that candidate
id and the other elections stay as they were, without a winner the election table is
unchanged; and when `election_id` is a key of the result table it still is after any sequence
of calls, so that every election has at most one result record. -/
theorem C19_persisted_record (s : Store) (now : Int) (transactionFails regenerate : Bool)
    (electionId : String) :
    (∀ j, (getResultByElectionId s now transactionFails electionId regenerate).result = .ok j →
      (getResultByElectionId s now transactionFails electionId regenerate).persisted = true →
      (∃ r, (getResultByElectionId s now transactionFails electionId
          regenerate).store.findResult electionId = some r ∧
        r.total_votes = j.total_votes ∧
        r.voter_turnout_percentage = j.voter_turnout_percentage ∧
        r.winner_candidate_id = j.winner.map (fun w => w.candidate_id)) ∧
      (∀ w, j.winner = some w →
        (∃ e, s.findElection electionId = some e ∧
          (getResultByElectionId s now transactionFails electionId
            regenerate).store.findElection electionId =
              some { e with
                winner_candidate_id := some w.candidate_id
                winner_election_id := some electionId }) ∧
        ∀ id, id ≠ electionId →
          (getResultByElectionId s now transactionFails electionId
            regenerate).store.findElection id = s.findElection id) ∧
      (j.winner = none →
        (getResultByElectionId s now transactionFails electionId regenerate).store.elections =
          s.elections)) ∧
    ((s.results.map (fun r => r.election_id)).Nodup →
      ∀ (calls : List ResultCall) (id : String),
        ((runResultCalls s calls).results.map (fun r => r.election_id)).Nodup ∧
        ((runResultCalls s calls).results.filter (fun r => r.election_id = id)).length ≤ 1) := by
  refine ⟨?_, ?_⟩
  · intro j hj hpers
    obtain ⟨hid, e, he, hs, heid, hj1⟩ :=
      getResult_ok s now transactionFails regenerate electionId j hj
    rcases getResult_completed s now transactionFails regenerate electionId e hid he hs with
      ⟨_, hx⟩ | ⟨_, _, hx⟩ | ⟨_, _, sp, hsp, hx⟩
    · rw [hx] at hpers; exact absurd hpers (by simp)
    · rw [hx] at hpers; exact absurd hpers (by simp)
    · rw [hx]
      obtain ⟨sp', hsp', _, _, _, _, _, ⟨r, hr, _, hrt, hrp, hrw, _, _⟩, hwin, hnowin, _⟩ :=
        persistResult_committed s now electionId (summaryOf s now (s.loadRecord e))
          (summaryOf s now (s.loadRecord e)).winner e he
      rw [hsp] at hsp'
      have hsame : sp = sp' := by simpa using hsp'
      subst hsame
      have hjw : j.winner = (summaryOf s now (s.loadRecord e)).winner := by rw [hj1]; rfl
      refine ⟨⟨r, hr, ?_, ?_, ?_⟩, ?_, ?_⟩
      · rw [hj1]; exact hrt
      · rw [hj1]; exact hrp
      · rw [hjw]; exact hrw
      · intro w hw
        rw [hjw] at hw
        exact ⟨⟨e, he, (hwin w hw).1⟩, (hwin w hw).2⟩
      · intro hw
        rw [hjw] at hw
        exact hnowin hw
  · intro h calls id
    have hn := runResultCalls_results_nodup calls s h
    exact ⟨hn, results_at_most_one _ id hn⟩

/-- C19 (witness): the first read of the scenario election stores its result. -/
theorem C19_persisted_record_witness :
    (getResultByElectionId scenarioStore 500 false "e2").result = .ok scenarioSummary ∧
    (getResultByElectionId scenarioStore 500 false "e2").persisted = true ∧
    (∃ r, (getResultByElectionId scenarioStore 500 false "e2" false).store.findResult "e2" =
        some r ∧
      r.total_votes = scenarioSummary.total_votes ∧
      r.voter_turnout_percentage = scenarioSummary.voter_turnout_percentage ∧
      r.winner_candidate_id = scenarioSummary.winner.map (fun w => w.candidate_id)) ∧
    ((runResultCalls scenarioStore
      [⟨500, false, "e2", false⟩, ⟨600, false, "e2", true⟩,
       ⟨700, true, "e2", true⟩]).results.filter (fun r => r.election_id = "e2")).length ≤ 1 :=
  ⟨by decide, by decide,
    ((C19_persisted_record scenarioStore 500 false false "e2").1 scenarioSummary (by decide)
      (by decide)).1,
    ((C19_persisted_record scenarioStore 500 false false "e2").2 (by decide) _ "e2").2⟩

/-! ### A failing storage transaction -/

/-- C20 (counterexample): the scenario election has no stored result, so the read has to
write it; when the storage transaction fails, `getResultByElectionId` and `generateResult`
return no summary: they fail with the storage error. -/
theorem C20_no_summary_when_transaction_fails :
    (getResultByElectionId scenarioStore 500 false "e2").succeeded = true ∧
    (getResultByElectionId scenarioStore 500 true "e2").succeeded = false ∧
    (getResultByElectionId scenarioStore 500 true "e2").result =
      .error storageTransactionFailed ∧
    (generateResult scenarioStore 500 true "e2").succeeded = false ∧
    (generateResult scenarioStore 500 true "e2").result = .error storageTransactionFailed := by
  decide

/-- C20 (amended): when the storage transaction fails, a call of `getResultByElectionId` that
has a write to make fails with the storage error: the caller receives the error and no
summary; nothing is written by the call.  For a COMPLETED election `generateResult` always
has a write to make, so it always fails then. -/
theorem C20_transaction_failure_propagates (s : Store) (now : Int) (regenerate : Bool)
    (electionId : String) :
    (getResultByElectionId s now true electionId regenerate).store = s ∧
    (getResultByElectionId s now true electionId regenerate).persisted = false ∧
    ((getResultByElectionId s now false electionId regenerate).persisted = true →
      (getResultByElectionId s now true electionId regenerate).result =
        .error storageTransactionFailed) ∧
    (electionId ≠ "" → ∀ e, s.findElection electionId = some e → e.status = "COMPLETED" →
      (generateResult s now true electionId).result = .error storageTransactionFailed) := by
  have hframe : (getResultByElectionId s now true electionId regenerate).store = s ∧
      (getResultByElectionId s now true electionId regenerate).persisted = false := by
    by_cases hid : electionId = ""
    · subst hid
      rw [getResult_required]
      exact ⟨rfl, rfl⟩
    · cases he : s.findElection electionId with
      | none =>
        rw [getResult_missing _ _ _ _ _ hid he]
        exact ⟨rfl, rfl⟩
      | some e =>
        by_cases hs : e.status = "COMPLETED"
        · rcases getResult_completed s now true regenerate electionId e hid he hs with
            ⟨_, hx⟩ | ⟨_, _, hx⟩ | ⟨_, hfalse, _⟩
          · rw [hx]; exact ⟨rfl, rfl⟩
          · rw [hx]; exact ⟨rfl, rfl⟩
          · exact absurd hfalse (by decide)
        · rw [getResult_not_completed _ _ _ _ _ e hid he hs]
          exact ⟨rfl, rfl⟩
  refine ⟨hframe.1, hframe.2, ?_, ?_⟩
  · intro hpers
    by_cases hid : electionId = ""
    · subst hid
      rw [getResult_required] at hpers
      exact absurd hpers (by simp)
    · cases he : s.findElection electionId with
      | none =>
        rw [getResult_missing _ _ _ _ _ hid he] at hpers
        exact absurd hpers (by simp)
      | some e =>
        by_cases hs : e.status = "COMPLETED"
        · cases hp : shouldPersist regenerate (s.loadRecord e)
              (summaryOf s now (s.loadRecord e)) with
          | false =>
            rw [getResult_kept _ _ _ _ _ e hid he hs hp] at hpers
            exact absurd hpers (by simp)
          | true => rw [getResult_failed _ _ _ _ e hid he hs hp]
        · rw [getResult_not_completed _ _ _ _ _ e hid he hs] at hpers
          exact absurd hpers (by simp)
  · intro hid e he hs
    unfold generateResult
    have hp : shouldPersist true (s.loadRecord e) (summaryOf s now (s.loadRecord e)) = true := by
      simp [shouldPersist]
    rw [getResult_failed _ _ _ _ e hid he hs hp]

/-- C20 (witness): the scenario election with a failing storage transaction. -/
theorem C20_transaction_failure_propagates_witness :
    (getResultByElectionId scenarioStore 500 false "e2").persisted = true ∧
    (getResultByElectionId scenarioStore 500 true "e2").result =
      .error storageTransactionFailed ∧
    (getResultByElectionId scenarioStore 500 true "e2").store = scenarioStore ∧
    (generateResult scenarioStore 500 true "e2").result = .error storageTransactionFailed :=
  ⟨by decide,
    (C20_transaction_failure_propagates scenarioStore 500 false "e2").2.2.1 (by decide),
    (C20_transaction_failure_propagates scenarioStore 500 false "e2").1,
    (C20_transaction_failure_propagates scenarioStore 500 false "e2").2.2.2 (by decide)
      scenarioElection (by decide) (by decide)⟩

/-! ### The serialization views -/

/-- C22: the public view of a candidate has no key `user_id`, and its `user` part is `null` or
an object with exactly the keys `fullname` and `profile_photo` (so neither the linked user's
`user_id` nor its `email`); the full view has the key `user_id` and a `user` part with the
linked user's `user_id`, `fullname`, `email` and `profile_photo`; every other key has the same
value in both views. -/
theorem C22_public_view_hides_identity (c : Candidate) :
    List.lookup "user_id" c.toPublicJSON = none ∧
    List.lookup "user" c.toPublicJSON = some (match c.user with
      | some user =>
        .object [("fullname", user.fullname), ("profile_photo", user.profile_photo)]
      | none => .primitive .null) ∧
    (∀ part, List.lookup "user" c.toPublicJSON = some part →
      ¬ "user_id" ∈ part.keys ∧ ¬ "email" ∈ part.keys) ∧
    List.lookup "user_id" c.toJSON = some (.primitive c.user_id) ∧
    List.lookup "user" c.toJSON = some (match c.user with
      | some user =>
        .object [("user_id", user.user_id), ("fullname", user.fullname),
                 ("email", user.email), ("profile_photo", user.profile_photo)]
      | none => .primitive .null) ∧
    (∀ key, key ≠ "user_id" → key ≠ "user" →
      List.lookup key c.toPublicJSON = List.lookup key c.toJSON) := by
  refine ⟨rfl, rfl, ?_, rfl, rfl, ?_⟩
  · intro part hpart
    have h : part = (match c.user with
        | some user =>
          JsonValue.object [("fullname", user.fullname), ("profile_photo", user.profile_photo)]
        | none => JsonValue.primitive .null) := by
      have h0 : List.lookup "user" c.toPublicJSON = some (match c.user with
        | some user =>
          JsonValue.object [("fullname", user.fullname), ("profile_photo", user.profile_photo)]
        | none => JsonValue.primitive .null) := rfl
      rw [h0] at hpart
      exact (Option.some.inj hpart).symm
    subst h
    cases c.user <;> simp [JsonValue.keys]
  · intro key h1 h2
    have h3 : (key == "user_id") = false := by simpa using h1
    have h4 : (key == "user") = false := by simpa using h2
    simp [Candidate.toJSON, Candidate.toPublicJSON, List.lookup, h3, h4]

/-- C22 (witness): the two views of the stored sample candidacy with its linked user. -/
theorem C22_public_view_hides_identity_witness :
    List.lookup "email" (sampleRow.toCandidate (sampleStore.includeUser "u1")).toPublicJSON = none ∧
    List.lookup "party_name" (sampleRow.toCandidate (sampleStore.includeUser "u1")).toPublicJSON =
      List.lookup "party_name" (sampleRow.toCandidate (sampleStore.includeUser "u1")).toJSON ∧
    List.lookup "party_name" (sampleRow.toCandidate (sampleStore.includeUser "u1")).toJSON =
      some (.primitive (.str "Unity")) :=
  ⟨by decide,
   (C22_public_view_hides_identity (sampleRow.toCandidate (sampleStore.includeUser "u1"))).2.2.2.2.2
      "party_name" (by decide) (by decide),
   by decide⟩

/-! ### Reading a candidate -/

theorem getCandidateProfile_missing (s : Store) (candidateId : String)
    (hc : s.findCandidate candidateId = none) :
    getCandidateProfile s candidateId =
      ⟨.error ("Failed to fetch candidate profile: " ++
        ("Failed to fetch candidate: " ++ "Candidate not found")), s⟩ := by
  simp [getCandidateProfile, getCandidateProfileTry, getCandidateById, getCandidateByIdTry, hc,
    Outcome.rethrow]

theorem getCandidateProfile_unavailable (s : Store) (candidateId : String) (c : CandidateRow)
    (hc : s.findCandidate candidateId = some c) (hs : c.status ≠ "APPROVED") :
    getCandidateProfile s candidateId =
      ⟨.error ("Failed to fetch candidate profile: " ++ "Candidate profile not available"), s⟩ := by
  simp [getCandidateProfile, getCandidateProfileTry, getCandidateById, getCandidateByIdTry, hc,
    Outcome.rethrow, CandidateRow.toCandidate, Candidate.new, hs]

theorem getCandidateProfile_found (s : Store) (candidateId : String) (c : CandidateRow)
    (hc : s.findCandidate candidateId = some c) (hs : c.status = "APPROVED") :
    getCandidateProfile s candidateId =
      ⟨.ok (c.toCandidate (s.includeUser c.user_id)), s⟩ := by
  simp [getCandidateProfile, getCandidateProfileTry, getCandidateById, getCandidateByIdTry, hc,
    Outcome.rethrow, CandidateRow.toCandidate, Candidate.new, hs]

/-- C23: `getCandidateProfile` returns a candidate exactly when the candidate exists and its
status is APPROVED, and then it is the stored candidate; for an existing candidate of any other
status (PENDING, REJECTED) it fails with `Candidate profile not available`, and for a missing
one with `Candidate not found`; the controller answers both failures with the code 404.  The
store is never changed. -/
theorem C23_profile_gate (s : Store) (candidateId : String) :
    ((getCandidateProfile s candidateId).succeeded = true ↔
      ∃ c, s.findCandidate candidateId = some c ∧ c.status = "APPROVED") ∧
    (∀ c, s.findCandidate candidateId = some c → c.status = "APPROVED" →
      (getCandidateProfile s candidateId).result =
        .ok (c.toCandidate (s.includeUser c.user_id))) ∧
    (∀ c, s.findCandidate candidateId = some c → c.status ≠ "APPROVED" →
      (getCandidateProfile s candidateId).result =
        .error ("Failed to fetch candidate profile: " ++ "Candidate profile not available") ∧
      (candidateId ≠ "" →
        (Controller.getCandidateProfile s candidateId).response.statusCode = 404)) ∧
    (s.findCandidate candidateId = none →
      (getCandidateProfile s candidateId).result =
        .error ("Failed to fetch candidate profile: " ++
          ("Failed to fetch candidate: " ++ "Candidate not found")) ∧
      (candidateId ≠ "" →
        (Controller.getCandidateProfile s candidateId).response.statusCode = 404)) ∧
    (getCandidateProfile s candidateId).store = s ∧
    (Controller.getCandidateProfile s candidateId).store = s := by
  refine ⟨?_, ?_, ?_, ?_, ?_, ?_⟩
  · cases hc : s.findCandidate candidateId with
    | none =>
      rw [getCandidateProfile_missing s candidateId hc]
      simp [Outcome.succeeded]
    | some c =>
      by_cases hs : c.status = "APPROVED"
      · rw [getCandidateProfile_found s candidateId c hc hs]
        simp [Outcome.succeeded, hs]
      · rw [getCandidateProfile_unavailable s candidateId c hc hs]
        simp [Outcome.succeeded, hs]
  · intro c hc hs
    rw [getCandidateProfile_found s candidateId c hc hs]
  · intro c hc hs
    refine ⟨by rw [getCandidateProfile_unavailable s candidateId c hc hs], ?_⟩
    intro hid
    unfold Controller.getCandidateProfile
    rw [if_neg hid, getCandidateProfile_unavailable s candidateId c hc hs]
    rfl
  · intro hc
    refine ⟨by rw [getCandidateProfile_missing s candidateId hc], ?_⟩
    intro hid
    unfold Controller.getCandidateProfile
    rw [if_neg hid, getCandidateProfile_missing s candidateId hc]
    rfl
  · cases hc : s.findCandidate candidateId with
    | none => rw [getCandidateProfile_missing s candidateId hc]
    | some c =>
      by_cases hs : c.status = "APPROVED"
      · rw [getCandidateProfile_found s candidateId c hc hs]
      · rw [getCandidateProfile_unavailable s candidateId c hc hs]
  · unfold Controller.getCandidateProfile
    by_cases hid : candidateId = ""
    · rw [if_pos hid]
    · rw [if_neg hid]
      cases hc : s.findCandidate candidateId with
      | none =>
        rw [getCandidateProfile_missing s candidateId hc]
        simp only []
        split_ifs <;> rfl
      | some c =>
        by_cases hs : c.status = "APPROVED"
        · rw [getCandidateProfile_found s candidateId c hc hs]
        · rw [getCandidateProfile_unavailable s candidateId c hc hs]
          simp only []
          split_ifs <;> rfl

/-- C23 (witness): in the sample store the profile of the pending candidacy `c1` is refused
and the controller answers 404; once the candidacy is approved the profile is returned. -/
theorem C23_profile_gate_witness :
    sampleStore.findCandidate "c1" = some sampleRow ∧ sampleRow.status ≠ "APPROVED" ∧
    (getCandidateProfile sampleStore "c1").result =
      .error ("Failed to fetch candidate profile: " ++ "Candidate profile not available") ∧
    (Controller.getCandidateProfile sampleStore "c1").response.statusCode = 404 ∧
    (getCandidateProfile (approveCandidate sampleStore "c1" "admin").store "c1").succeeded =
      true :=
  ⟨by decide, by decide,
    ((C23_profile_gate sampleStore "c1").2.2.1 sampleRow (by decide) (by decide)).1,
    ((C23_profile_gate sampleStore "c1").2.2.1 sampleRow (by decide) (by decide)).2
      (by decide),
    (C23_profile_gate (approveCandidate sampleStore "c1" "admin").store "c1").1.mpr
      ⟨{ sampleRow with status := "APPROVED" }, by decide, by decide⟩⟩

/-! ### The response codes of the candidate controllers -/

/-- Whatever validation errors are listed, the message of the invalid-data failure contains
`Invalid` and none of the texts `not found`, `already` and `Unauthorized` the controllers test
first. -/
theorem validation_message_kinds (b1 b2 b3 b4 b5 b6 b7 : Bool) (text : String)
    (htext : text = "Failed to register candidate: " ∨ text = "Failed to update candidate: ") :
    (fun errors : List String =>
      includes (text ++ ("Invalid candidate data: " ++ ", ".intercalate errors)) "not found" =
        false ∧
      includes (text ++ ("Invalid candidate data: " ++ ", ".intercalate errors)) "already" =
        false ∧
      includes (text ++ ("Invalid candidate data: " ++ ", ".intercalate errors))
        "Unauthorized" = false ∧
      includes (text ++ ("Invalid candidate data: " ++ ", ".intercalate errors)) "Invalid" =
        true)
    (let errors : List String := []
     let errors := if b1 then errors ++ ["Election ID is required"] else errors
     let errors := if b2 then errors ++ ["User ID is required"] else errors
     let errors := if b3 then errors ++ ["Party name is required"] else errors
     let errors := if b4 then errors ++ ["Party symbol is required"] else errors
     let errors := if b5 then errors ++ ["Valid age is required (between 1 and 149)"] else errors
     let errors := if b6 then errors ++ ["Qualification is required"] else errors
     let errors := if b7 then errors ++ ["Invalid candidate status"] else errors
     errors) := by
  rcases htext with rfl | rfl
  · revert b1 b2 b3 b4 b5 b6 b7
    decide!
  · revert b1 b2 b3 b4 b5 b6 b7
    decide!

theorem register_invalid_message (c : Candidate) :
    includes ("Failed to register candidate: " ++
      ("Invalid candidate data: " ++ ", ".intercalate c.getValidationErrors)) "not found" = false ∧
    includes ("Failed to register candidate: " ++
      ("Invalid candidate data: " ++ ", ".intercalate c.getValidationErrors)) "already" = false ∧
    includes ("Failed to register candidate: " ++
      ("Invalid candidate data: " ++ ", ".intercalate c.getValidationErrors)) "Invalid" = true := by
  have h := validation_message_kinds c.election_id.not c.user_id.not c.party_name.not c.symbol.not
    (c.age.not || c.age.le 0 || c.age.ge 150) c.qualification.not (!statusListIncludes c.status)
    "Failed to register candidate: " (Or.inl rfl)
  exact ⟨h.1, h.2.1, h.2.2.2⟩

theorem update_invalid_message (c : Candidate) :
    includes ("Failed to update candidate: " ++
      ("Invalid candidate data: " ++ ", ".intercalate c.getValidationErrors)) "not found" = false ∧
    includes ("Failed to update candidate: " ++
      ("Invalid candidate data: " ++ ", ".intercalate c.getValidationErrors)) "Unauthorized" =
        false ∧
    includes ("Failed to update candidate: " ++
      ("Invalid candidate data: " ++ ", ".intercalate c.getValidationErrors)) "Invalid" = true := by
  have h := validation_message_kinds c.election_id.not c.user_id.not c.party_name.not c.symbol.not
    (c.age.not || c.age.le 0 || c.age.ge 150) c.qualification.not (!statusListIncludes c.status)
    "Failed to update candidate: " (Or.inr rfl)
  exact ⟨h.1, h.2.2.1, h.2.2.2⟩

/-- C25: in every candidate controller that distinguishes failures, a missing election or
candidate is answered with the code 404, a caller who is not authorized with 401, and candidate
data that fail validation with 400, whatever validation errors the message lists.  (The other
operations, lists and statistics, make no such check.) -/
theorem C25_failure_kinds_distinguished (numberText : JsNumber → String) (s : Store) :
    (∀ uuid now body userId,
      ¬ (body.election_id = "" ∨ body.party_name.not ∨ body.symbol.not ∨ body.age.not ∨
        body.qualification.not) →
      ((registrationCandidate uuid (registerData numberText body) userId).isValid.truthy =
          false →
        (Controller.registerCandidate numberText s uuid now body userId).response.statusCode =
          400) ∧
      ((registrationCandidate uuid (registerData numberText body) userId).isValid.truthy =
          true →
        s.findCandidacy body.election_id userId = none →
        s.findElection body.election_id = none →
        (Controller.registerCandidate numberText s uuid now body userId).response.statusCode =
          404)) ∧
    (∀ candidateId userId reason, candidateId ≠ "" →
      (s.findCandidate candidateId = none →
        (Controller.approveCandidate s candidateId userId).response.statusCode = 404 ∧
        (Controller.rejectCandidate s candidateId userId reason).response.statusCode = 404) ∧
      (∀ c, s.findCandidate candidateId = some c → ¬ IsAdmin s userId c.election_id →
        (Controller.approveCandidate s candidateId userId).response.statusCode = 401 ∧
        (Controller.rejectCandidate s candidateId userId reason).response.statusCode = 401)) ∧
    (∀ candidateId, candidateId ≠ "" → s.findCandidate candidateId = none →
      (Controller.getCandidateById s candidateId).response.statusCode = 404 ∧
      (Controller.getCandidateProfile s candidateId).response.statusCode = 404) ∧
    (∀ candidateId body userId, candidateId ≠ "" →
      (s.findCandidate candidateId = none →
        (Controller.updateCandidate numberText s candidateId body userId).response.statusCode =
          404) ∧
      (∀ c, s.findCandidate candidateId = some c →
        (c.user_id ≠ userId →
          (Controller.updateCandidate numberText s candidateId body
            userId).response.statusCode = 401) ∧
        (c.user_id = userId → c.status = "PENDING" →
          (mergedCandidate c (updateDataOf numberText body)).isValid.truthy = false →
          (Controller.updateCandidate numberText s candidateId body
            userId).response.statusCode = 400))) ∧
    (∀ candidateId userId, candidateId ≠ "" →
      (s.findCandidate candidateId = none →
        (Controller.deleteCandidate s candidateId userId).response.statusCode = 404) ∧
      (∀ c, s.findCandidate candidateId = some c → c.user_id ≠ userId →
        (Controller.deleteCandidate s candidateId userId).response.statusCode = 401)) := by
  refine ⟨?_, ?_, ?_, ?_, ?_⟩
  · intro uuid now body userId hbody
    refine ⟨?_, ?_⟩
    · intro hv
      have hm := register_invalid_message
        (registrationCandidate uuid (registerData numberText body) userId)
      unfold Controller.registerCandidate VoteByte.registerCandidate
      rw [if_neg hbody, registerCandidateTry_invalid _ _ _ _ _ hv]
      simp [Outcome.rethrow, hm.1, hm.2.1, hm.2.2, ApiResponse.statusCode]
    · intro hv hd he
      unfold Controller.registerCandidate VoteByte.registerCandidate
      rw [if_neg hbody, registerCandidateTry_no_election _ _ _ _ _ hv hd he]
      rfl
  · intro candidateId userId reason hid
    refine ⟨?_, ?_⟩
    · intro hc
      unfold Controller.approveCandidate Controller.rejectCandidate VoteByte.approveCandidate
        VoteByte.rejectCandidate
      rw [if_neg hid, if_neg hid, approveCandidateTry_missing _ _ _ hc,
        rejectCandidateTry_missing _ _ _ hc]
      exact ⟨rfl, rfl⟩
    · intro c hc ha
      have hn : s.findAdmin userId c.election_id = none :=
        (findAdmin_eq_none_iff s userId c.election_id).mpr ha
      unfold Controller.approveCandidate Controller.rejectCandidate VoteByte.approveCandidate
        VoteByte.rejectCandidate
      rw [if_neg hid, if_neg hid, approveCandidateTry_unauthorized _ _ _ c hc hn,
        rejectCandidateTry_unauthorized _ _ _ c hc hn]
      exact ⟨rfl, rfl⟩
  · intro candidateId hid hc
    refine ⟨?_, ?_⟩
    · unfold Controller.getCandidateById VoteByte.getCandidateById getCandidateByIdTry
      rw [if_neg hid, hc]
      rfl
    · unfold Controller.getCandidateProfile
      rw [if_neg hid, getCandidateProfile_missing s candidateId hc]
      rfl
  · intro candidateId body userId hid
    refine ⟨?_, ?_⟩
    · intro hc
      unfold Controller.updateCandidate VoteByte.updateCandidate
      rw [if_neg hid, updateCandidateTry_missing _ _ _ _ hc]
      rfl
    · intro c hc
      refine ⟨?_, ?_⟩
      · intro ho
        unfold Controller.updateCandidate VoteByte.updateCandidate
        rw [if_neg hid, updateCandidateTry_unauthorized _ _ _ _ c hc ho]
        rfl
      · intro ho hp hv
        have hm := update_invalid_message (mergedCandidate c (updateDataOf numberText body))
        unfold Controller.updateCandidate VoteByte.updateCandidate
        rw [if_neg hid, updateCandidateTry_invalid _ _ _ _ c hc ho hp hv]
        simp [Outcome.rethrow, hm.1, hm.2.1, hm.2.2, ApiResponse.statusCode]
  · intro candidateId userId hid
    refine ⟨?_, ?_⟩
    · intro hc
      unfold Controller.deleteCandidate VoteByte.deleteCandidate
      rw [if_neg hid, deleteCandidateTry_missing _ _ _ hc]
      rfl
    · intro c hc ho
      unfold Controller.deleteCandidate VoteByte.deleteCandidate
      rw [if_neg hid, deleteCandidateTry_unauthorized _ _ _ c hc ho]
      rfl

/-- C25 (witness): in the sample store an update of the missing candidacy `c9` is answered
with 404, an update of `c1` by user `u2` with 401, and an update of `c1` by its owner with an
empty party name with 400. -/
theorem C25_failure_kinds_distinguished_witness :
    (Controller.updateCandidate sampleNumberText sampleStore "c9" {} "u1").response.statusCode =
      404 ∧
    (Controller.updateCandidate sampleNumberText sampleStore "c1" {} "u2").response.statusCode =
      401 ∧
    (Controller.updateCandidate sampleNumberText sampleStore "c1"
      { party_name := .str "", symbol := .str "Lamp", manifesto := .str "Plan",
        age := .str "41", qualification := .str "MA" } "u1").response.statusCode = 400 :=
  ⟨((C25_failure_kinds_distinguished sampleNumberText sampleStore).2.2.2.1 "c9" {} "u1"
      (by decide)).1 (by decide),
    (((C25_failure_kinds_distinguished sampleNumberText sampleStore).2.2.2.1 "c1" {} "u2"
      (by decide)).2 sampleRow (by decide)).1 (by decide),
    (((C25_failure_kinds_distinguished sampleNumberText sampleStore).2.2.2.1 "c1"
      { party_name := .str "", symbol := .str "Lamp", manifesto := .str "Plan",
        age := .str "41", qualification := .str "MA" } "u1"
      (by decide)).2 sampleRow (by decide)).2 (by decide) (by decide) (by decide)⟩

/-- C26: the owner's request to delete the approved candidacy `c1` is answered with the
generic code 500, not 400: the service message begins `Can only delete`, the controller looks
for `can only delete`.  An update of the approved candidacy and a registration into the
completed election `e2` are answered with 500 as well. -/
theorem C26_deliberate_failures_reported_internal :
    decidedStore.findCandidate "c1" = some { sampleRow with status := "APPROVED" } ∧
    (Controller.deleteCandidate decidedStore "c1" "u1").response =
      .error "Failed to delete candidate: Can only delete pending candidate registrations"
        500 ∧
    (Controller.deleteCandidate decidedStore "c1" "u1").response.statusCode = 500 ∧
    (Controller.updateCandidate sampleNumberText decidedStore "c1" {} "u1").response =
      .error "Failed to update candidate: Can only update pending candidate registrations"
        500 ∧
    (Controller.registerCandidate sampleNumberText scenarioStore "c9" 0
      { election_id := "e2", party_name := .str "Forward", symbol := .str "Lamp",
        age := .str "41", qualification := .str "MA" } "u9").response =
      .error "Failed to register candidate: Cannot register candidates for completed elections"
        500 := by
  refine ⟨by decide, by decide, by decide, by decide, by decide⟩

/-- C27: the owner's request to change only the manifesto of the valid pending candidacy `c1`
is refused as invalid: the controller hands the service the other four keys with the value
`undefined`, which replace the stored values in the candidate that is validated.  The same
update without those keys succeeds and keeps the stored values; an empty manifesto that is
supplied is not written. -/
theorem C27_partial_update_refused :
    (∀ numberText : JsNumber → String,
      Controller.updateCandidate numberText sampleStore "c1" { manifesto := .str "Plan" } "u1" =
        ⟨.badRequest ("Failed to update candidate: Invalid candidate data: " ++
          "Party name is required, Party symbol is required, " ++
          "Valid age is required (between 1 and 149), Qualification is required"),
          sampleStore⟩) ∧
    (updateCandidate sampleStore "c1" { manifesto := some (.str "Plan") } "u1").store =
      { sampleStore with candidates := [{ sampleRow with manifesto := .str "Plan" }] } ∧
    (updateCandidate sampleStore "c1" { manifesto := some (.str "Plan") } "u1").succeeded =
      true ∧
    (updateCandidate
      { sampleStore with candidates := [{ sampleRow with manifesto := .str "Plan" }] } "c1"
      { manifesto := some (.str "") } "u1").succeeded = true ∧
    (updateCandidate
      { sampleStore with candidates := [{ sampleRow with manifesto := .str "Plan" }] } "c1"
      { manifesto := some (.str "") } "u1").store =
      { sampleStore with candidates := [{ sampleRow with manifesto := .str "Plan" }] } := by
  refine ⟨fun _ => rfl, by decide, by decide, by decide, by decide⟩

/-! ### The frame of an update -/

/-- C28: a successful `updateCandidate` changes only `party_name`, `symbol`, `manifesto`,
`age` and `qualification` of the target row: every candidate row keeps its `candidate_id`,
`election_id`, `user_id`, `total_votes`, `status` and `registered_at`, whatever keys the
update data carry; rows with another `candidate_id` are unchanged, and so are the elections
with their counters and every other table.  The candidate returned is still PENDING. -/
theorem C28_update_frame (s : Store) (candidateId : String) (updateData : UpdateData)
    (userId : String)
    (h : (updateCandidate s candidateId updateData userId).succeeded = true) :
    (updateCandidate s candidateId updateData userId).store.elections = s.elections ∧
    (updateCandidate s candidateId updateData userId).store.admins = s.admins ∧
    (updateCandidate s candidateId updateData userId).store.users = s.users ∧
    (updateCandidate s candidateId updateData userId).store.votes = s.votes ∧
    (updateCandidate s candidateId updateData userId).store.voters = s.voters ∧
    (updateCandidate s candidateId updateData userId).store.results = s.results ∧
    List.Forall₂
      (fun before after : CandidateRow =>
        after.candidate_id = before.candidate_id ∧ after.election_id = before.election_id ∧
        after.user_id = before.user_id ∧ after.total_votes = before.total_votes ∧
        after.status = before.status ∧ after.registered_at = before.registered_at ∧
        (before.candidate_id ≠ candidateId → after = before))
      s.candidates (updateCandidate s candidateId updateData userId).store.candidates ∧
    ∃ returned, (updateCandidate s candidateId updateData userId).result = .ok returned ∧
      returned.status = .str "PENDING" ∧ returned.candidate_id = .str candidateId ∧
      ∀ c, s.findCandidate candidateId = some c →
        returned.election_id = .str c.election_id ∧ returned.user_id = .str c.user_id ∧
        returned.total_votes = .num (.ofInt c.total_votes) := by
  unfold updateCandidate at h ⊢
  rw [Outcome.rethrow_succeeded] at h
  cases hc : s.findCandidate candidateId with
  | none =>
    rw [updateCandidateTry_missing _ _ _ _ hc] at h
    simp [Outcome.succeeded] at h
  | some c =>
    by_cases ho : c.user_id = userId
    · by_cases hp : c.status = "PENDING"
      · cases hv : (mergedCandidate c updateData).isValid.truthy with
        | false =>
          rw [updateCandidateTry_invalid _ _ _ _ c hc ho hp hv] at h
          simp [Outcome.succeeded] at h
        | true =>
          rw [updateCandidateTry_done _ _ _ _ c hc ho hp hv]
          have hid := s.findCandidate_id _ _ hc
          refine ⟨rfl, rfl, rfl, rfl, rfl, rfl, ?_, ?_⟩
          · simp only [Outcome.rethrow]
            rw [List.forall₂_map_right_iff, List.forall₂_same]
            intro x _
            by_cases hx : x.candidate_id = candidateId ∧ x.election_id = c.election_id
            · rw [if_pos hx]
              refine ⟨rfl, rfl, rfl, rfl, rfl, rfl, ?_⟩
              intro hne
              exact absurd hx.1 hne
            · rw [if_neg hx]
              exact ⟨rfl, rfl, rfl, rfl, rfl, rfl, fun _ => rfl⟩
          · refine ⟨_, rfl, ?_, ?_, ?_⟩
            · simp [CandidateRow.toCandidate, Candidate.new, updateWrite, hp]
            · simp [CandidateRow.toCandidate, Candidate.new, updateWrite, hid]
            · intro c1 hc1
              cases hc1
              simp [CandidateRow.toCandidate, Candidate.new, updateWrite, JsNumber.ofInt]
      · rw [updateCandidateTry_not_pending _ _ _ _ c hc ho hp] at h
        simp [Outcome.succeeded] at h
    · rw [updateCandidateTry_unauthorized _ _ _ _ c hc ho] at h
      simp [Outcome.succeeded] at h

/-- C28 (witness): in the sample store the owner updates the pending candidacy `c1` with data
that carry `status: 'APPROVED'` and `total_votes: 99`; the row keeps its status and its vote
total, and the election keeps its counter. -/
theorem C28_update_frame_witness :
    (updateCandidate sampleStore "c1"
      { party_name := some (.str "Progress"), status := some (.str "APPROVED"),
        total_votes := some (.num (.ofInt 99)) } "u1").succeeded = true ∧
    (updateCandidate sampleStore "c1"
      { party_name := some (.str "Progress"), status := some (.str "APPROVED"),
        total_votes := some (.num (.ofInt 99)) } "u1").store.elections =
      sampleStore.elections ∧
    (updateCandidate sampleStore "c1"
      { party_name := some (.str "Progress"), status := some (.str "APPROVED"),
        total_votes := some (.num (.ofInt 99)) } "u1").store.candidates =
      [{ sampleRow with party_name := .str "Progress" }] :=
  ⟨by decide,
    (C28_update_frame sampleStore "c1"
      { party_name := some (.str "Progress"), status := some (.str "APPROVED"),
        total_votes := some (.num (.ofInt 99)) } "u1" (by decide)).1,
    by decide⟩

/-! ### The chart data -/

/-- C24: the pie and the bar projection of a summary have one entry per candidate, in the
order of the summary's candidate list: the pie labels and the bar categories are the
candidates' labels, the pie series and the `y` values of the bar series are the candidates'
`total_votes`, and the pie slices carry the candidates' `vote_percentage`; at every index `i`
the pie label equals the bar category, and the pie value equals the bar `y` equals
`candidates[i].total_votes`. -/
theorem C24_chart_projections (numberText : JsNumber → String)
    (summary : ElectionResultSummary) :
    (summary.buildChartData numberText).pie.labels =
      summary.candidates.map (fun c => c.label numberText) ∧
    (summary.buildChartData numberText).bar.categories =
      summary.candidates.map (fun c => c.label numberText) ∧
    (summary.buildChartData numberText).pie.series =
      summary.candidates.map (fun c => c.total_votes) ∧
    (summary.buildChartData numberText).pie.slices.map (fun slice => slice.percentage) =
      summary.candidates.map (fun c => c.vote_percentage) ∧
    (summary.buildChartData numberText).pie.slices.map (fun slice => slice.id) =
      summary.candidates.map (fun c => c.candidate_id) ∧
    (∃ data : List BarPoint,
      (summary.buildChartData numberText).bar.series = [{ name := "Votes", data := data }] ∧
      data.map (fun point => point.y) = summary.candidates.map (fun c => c.total_votes) ∧
      data.map (fun point => point.x) = summary.candidates.map (fun c => c.label numberText) ∧
      data.map (fun point => point.candidateId) =
        summary.candidates.map (fun c => c.candidate_id) ∧
      ∀ (i : Nat) (c : CandidateResult), summary.candidates[i]? = some c →
        ∃ (slice : PieSlice) (point : BarPoint), (summary.buildChartData numberText).pie.slices[i]? = some slice ∧
          data[i]? = some point ∧
          (summary.buildChartData numberText).pie.labels[i]? = some slice.label ∧
          (summary.buildChartData numberText).bar.categories[i]? = some slice.label ∧
          (summary.buildChartData numberText).pie.series[i]? = some slice.value ∧
          point.x = slice.label ∧ slice.value = c.total_votes ∧ point.y = c.total_votes ∧
          slice.percentage = c.vote_percentage ∧ slice.id = c.candidate_id ∧
          point.candidateId = c.candidate_id) := by
  refine ⟨?_, ?_, ?_, ?_, ?_, _, rfl, ?_, ?_, ?_, ?_⟩
  · simp [ElectionResultSummary.buildChartData, CandidateResult.toPieSlice]
  · simp [ElectionResultSummary.buildChartData, CandidateResult.toBarDatum]
  · simp [ElectionResultSummary.buildChartData, CandidateResult.toPieSlice]
  · simp [ElectionResultSummary.buildChartData, CandidateResult.toPieSlice]
  · simp [ElectionResultSummary.buildChartData, CandidateResult.toPieSlice]
  · simp [CandidateResult.toBarDatum]
  · simp [CandidateResult.toBarDatum]
  · simp [CandidateResult.toBarDatum]
  · intro i c hc
    refine ⟨c.toPieSlice numberText,
      ({ x := c.label numberText, y := c.total_votes, candidateId := c.candidate_id } :
        BarPoint), ?_⟩
    simp [ElectionResultSummary.buildChartData, CandidateResult.toPieSlice,
      CandidateResult.toBarDatum, hc]

/-- C24 (witness): in the chart data of the scenario summary the second entry of either
projection is the candidate with 30 votes and 30 percent. -/
theorem C24_chart_projections_witness :
    (summaryOf scenarioStore 500 (scenarioStore.loadRecord scenarioElection)).candidates[1]? =
      some (candidateResultOf 100 (approvedRow "c30" "e2" "u2" 30,
        some { user_id := "u2", fullname := "Bilal" })) ∧
    ∃ (slice : PieSlice) (point : BarPoint),
      ((summaryOf scenarioStore 500 (scenarioStore.loadRecord scenarioElection)).buildChartData
        sampleNumberText).pie.slices[1]? = some slice ∧
      slice.label = "Unity" ∧ point.x = slice.label ∧ slice.value = 30 ∧ point.y = 30 ∧
      slice.percentage = 3000 := by
  have hc : (summaryOf scenarioStore 500
      (scenarioStore.loadRecord scenarioElection)).candidates[1]? =
      some (candidateResultOf 100 (approvedRow "c30" "e2" "u2" 30,
        some { user_id := "u2", fullname := "Bilal" })) := by decide
  obtain ⟨data, _, _, _, _, hi⟩ := (C24_chart_projections sampleNumberText
    (summaryOf scenarioStore 500 (scenarioStore.loadRecord scenarioElection))).2.2.2.2.2
  obtain ⟨slice, point, h1, _, h3, _, _, h6, h7, h8, h9, _, _⟩ := hi 1 _ hc
  refine ⟨hc, slice, point, h1, ?_, h6, ?_, ?_, ?_⟩
  · have hl : ((summaryOf scenarioStore 500
        (scenarioStore.loadRecord scenarioElection)).buildChartData
        sampleNumberText).pie.labels[1]? = some "Unity" := by decide
    rw [hl] at h3
    exact (Option.some.inj h3).symm
  · rw [h7]; decide
  · rw [h8]; decide
  · rw [h9]; decide

/-! ### The list of completed results -/

/-- Without `persist` the summary is built from what was read and nothing is written. -/
theorem buildSummary_read (s : Store) (now : Int) (transactionFails : Bool)
    (election : ElectionRecord) (regenerate : Bool) :
    buildSummary s now transactionFails election false regenerate =
      ⟨.ok (summaryOf s now election), s, false⟩ := by
  simp [buildSummary]

/-- The loop of `listCompletedResults` returns one summary per election it is given, in their
order, and leaves the store as it is. -/
theorem buildSummaries_spec (s : Store) (now : Nat → Int) (transactionFails : Bool)
    (l : List ElectionRecord) :
    ∀ i, ∃ summaries, buildSummaries now transactionFails s i l = ⟨.ok summaries, s, false⟩ ∧
      List.Forall₂ (fun (e : ElectionRecord) (j : SummaryJson) =>
        ∃ t, j = (summaryOf s t e).toJSON) l summaries := by
  induction l with
  | nil => exact fun _ => ⟨[], rfl, List.Forall₂.nil⟩
  | cons e rest ih =>
    intro i
    obtain ⟨summaries, hrun, hall⟩ := ih (i + 1)
    refine ⟨(summaryOf s (now i) e).toJSON :: summaries, ?_, List.Forall₂.cons ⟨_, rfl⟩ hall⟩
    simp [buildSummaries, buildSummary_read, hrun]

theorem map_eq_of_forall₂ {α β γ : Type} (f : α → γ) (g : β → γ) (l : List α) (l' : List β)
    (h : List.Forall₂ (fun a b => g b = f a) l l') : l'.map g = l.map f := by
  induction h with
  | nil => rfl
  | cons hab _ ih => simp [hab, ih]

/-- The completed elections are loaded in non-increasing order of `end_time`. -/
theorem completed_sorted (s : Store) :
    ((s.elections.filter (fun e => e.status = "COMPLETED")).insertionSort
      (fun a b => b.end_time ≤ a.end_time)).Pairwise (fun a b => b.end_time ≤ a.end_time) := by
  haveI : IsTotal ElectionRow (fun a b => b.end_time ≤ a.end_time) :=
    ⟨fun a b => le_total b.end_time a.end_time⟩
  haveI : IsTrans ElectionRow (fun a b => b.end_time ≤ a.end_time) :=
    ⟨fun _ _ _ hab hbc => le_trans hbc hab⟩
  exact List.sorted_insertionSort (fun a b : ElectionRow => b.end_time ≤ a.end_time) _

/-- C21: `listCompletedResults` writes nothing (the store after the call is the store before
it, in every store state and whatever the storage transaction would do) and returns the
summaries of the elections whose status is COMPLETED: one per such election and none for
another status, each built from the store as it is, in non-increasing order of `end_time`. -/
theorem C21_completed_results_listed (s : Store) (now : Nat → Int) (transactionFails : Bool) :
    (listCompletedResults s now transactionFails).store = s ∧
    (listCompletedResults s now transactionFails).persisted = false ∧
    ∃ summaries, (listCompletedResults s now transactionFails).result = .ok summaries ∧
      (summaries.map (fun j => j.election_id)).Perm
        ((s.elections.filter (fun e => e.status = "COMPLETED")).map
          (fun e => e.election_id)) ∧
      summaries.Pairwise (fun a b => b.timeframeEnd ≤ a.timeframeEnd) ∧
      (∀ j ∈ summaries, j.status = "COMPLETED") ∧
      List.Forall₂ (fun (e : ElectionRecord) (j : SummaryJson) =>
        ∃ t, j = (summaryOf s t e).toJSON) s.completedElections summaries := by
  obtain ⟨summaries, hrun, hall⟩ :=
    buildSummaries_spec s now transactionFails s.completedElections 0
  unfold listCompletedResults
  rw [hrun]
  refine ⟨rfl, rfl, summaries, rfl, ?_, ?_, ?_, hall⟩
  · have hid : summaries.map (fun j => j.election_id) =
        s.completedElections.map (fun e => e.election.election_id) := by
      apply map_eq_of_forall₂
      refine hall.imp ?_
      rintro e j ⟨t, rfl⟩
      rfl
    rw [hid]
    simp only [Store.completedElections, List.map_map]
    exact (List.perm_insertionSort _ _).map _
  · have hend : summaries.map (fun j => j.timeframeEnd) =
        s.completedElections.map (fun e => e.election.end_time) := by
      apply map_eq_of_forall₂
      refine hall.imp ?_
      rintro e j ⟨t, rfl⟩
      rfl
    have hp : (summaries.map (fun j => j.timeframeEnd)).Pairwise (fun a b => b ≤ a) := by
      rw [hend]
      simp only [Store.completedElections, List.map_map]
      rw [List.pairwise_map]
      exact completed_sorted s
    rw [List.pairwise_map] at hp
    exact hp
  · intro j hj
    have hstatus : summaries.map (fun j => j.status) =
        s.completedElections.map (fun e => e.election.status) := by
      apply map_eq_of_forall₂
      refine hall.imp ?_
      rintro e j ⟨t, rfl⟩
      rfl
    have hm : j.status ∈ summaries.map (fun j => j.status) := List.mem_map_of_mem _ hj
    rw [hstatus] at hm
    simp only [Store.completedElections, List.map_map, List.mem_map] at hm
    obtain ⟨e, he, hs⟩ := hm
    have he' := (List.perm_insertionSort _ _).mem_iff.mp he
    have hc : e.status = "COMPLETED" := by simpa using (List.mem_filter.mp he').2
    rw [← hs]
    simpa [Store.loadRecord] using hc

/-- C21 (witness): of the two completed elections of the rounding store the one that ended
last, `e4`, is listed first, and the store is left as it is. -/
theorem C21_completed_results_listed_witness :
    (listCompletedResults roundingStore (fun _ => 500) false).store = roundingStore ∧
    (listCompletedResults roundingStore (fun _ => 500) false).value.map
      (fun summaries => summaries.map (fun j => (j.election_id, j.timeframeEnd))) =
      some [("e4", 950), ("e3", 900)] :=
  ⟨(C21_completed_results_listed roundingStore (fun _ => 500) false).1, by decide⟩

/-! ### The stored record and the summary -/

/-- C29: in the election `e5` the result is first generated with the winner `cw`; the admin
then rejects `cw`, the only approved candidate.  The next `getResultByElectionId` succeeds
with a summary without winner and writes nothing, so the stored record still names `cw` as
winner: the persistence decision tests the winner only when the summary has one. -/
theorem C29_stale_stored_winner :
    ((getResultByElectionId singleWinnerStore 500 false "e5").store.findResult "e5").map
      (fun r => r.winner_candidate_id) = some (some "cw") ∧
    (rejectCandidate (getResultByElectionId singleWinnerStore 500 false "e5").store "cw"
      "admin").succeeded = true ∧
    (getResultByElectionId
      (rejectCandidate (getResultByElectionId singleWinnerStore 500 false "e5").store "cw"
        "admin").store 600 false "e5").succeeded = true ∧
    (getResultByElectionId
      (rejectCandidate (getResultByElectionId singleWinnerStore 500 false "e5").store "cw"
        "admin").store 600 false "e5").value.map (fun j => j.winner) = some none ∧
    (getResultByElectionId
      (rejectCandidate (getResultByElectionId singleWinnerStore 500 false "e5").store "cw"
        "admin").store 600 false "e5").persisted = false ∧
    ((getResultByElectionId
      (rejectCandidate (getResultByElectionId singleWinnerStore 500 false "e5").store "cw"
        "admin").store 600 false "e5").store.findResult "e5").map
      (fun r => r.winner_candidate_id) = some (some "cw") := by
  refine ⟨by decide, by decide, by decide, by decide, by decide, by decide⟩

/-! ### The verification codes -/

theorem otpGet_delete (m : List (String × OtpEntry)) (email : String) :
    otpGet (otpDelete m email) email = none := by
  have h : (otpDelete m email).find? (fun p => p.1 = email) = none := by
    rw [List.find?_eq_none]
    intro p hp
    have := (List.mem_filter.mp hp).2
    simpa using this
  simp [otpGet, h]

theorem mem_otpSet (m : List (String × OtpEntry)) (email : String) (entry : OtpEntry)
    (p : String × OtpEntry) (hp : p ∈ otpSet m email entry) : p ∈ m ∨ p = (email, entry) := by
  unfold otpSet at hp
  split at hp
  · obtain ⟨q, hq, hqp⟩ := List.mem_map.mp hp
    by_cases he : q.1 = email
    · rw [if_pos he] at hqp
      exact Or.inr hqp.symm
    · rw [if_neg he] at hqp
      exact Or.inl (hqp ▸ hq)
  · rcases List.mem_append.mp hp with h | h
    · exact Or.inl h
    · exact Or.inr (by simpa using h)

theorem IssuedBy.append (pre more : List OtpCall) (email code : String) (issuedAt : Int)
    (h : IssuedBy pre email code issuedAt) : IssuedBy (pre ++ more) email code issuedAt := by
  obtain ⟨mailFails, hm⟩ := h
  exact ⟨mailFails, List.mem_append_left _ hm⟩

/-- Every entry of `otpStore` was put there by a `sendOtp` call, five minutes before it
expires: one call keeps this true. -/
theorem issued_step (numberText : JsNumber → String) (pre : List OtpCall)
    (st : VerificationState) (call : OtpCall)
    (hinv : ∀ p ∈ st.otpStore, IssuedBy pre p.1 p.2.code (p.2.expiresAt - 5 * 60 * 1000)) :
    ∀ p ∈ (call.run numberText st).otpStore,
      IssuedBy (pre ++ [call]) p.1 p.2.code (p.2.expiresAt - 5 * 60 * 1000) := by
  intro p hp
  cases call with
  | send now generated mailFails email =>
    have hcases : (sendOtp st now generated mailFails email).state = st ∨
        (sendOtp st now generated mailFails email).state =
          { st with otpStore := otpSet st.otpStore email ⟨generated, now + 5 * 60 * 1000⟩ } := by
      unfold sendOtp
      cases st.store.users.find? (fun u => u.email = email) with
      | none => exact Or.inl rfl
      | some user =>
        by_cases ha : user.status = "ACTIVE"
        · simp [ha]
        · cases mailFails <;> simp [ha]
    simp only [OtpCall.run] at hp
    rcases hcases with h | h
    · rw [h] at hp
      exact IssuedBy.append _ _ _ _ _ (hinv p hp)
    · rw [h] at hp
      rcases mem_otpSet _ _ _ _ hp with h1 | h1
      · exact IssuedBy.append _ _ _ _ _ (hinv p h1)
      · subst h1
        refine ⟨mailFails, ?_⟩
        have : now + 5 * 60 * 1000 - 5 * 60 * 1000 = now := by ring
        simp [this]
  | verify now email code =>
    have hsub : ∀ q ∈ (verifyOtp numberText st now email code).state.otpStore,
        q ∈ st.otpStore := by
      intro q hq
      unfold verifyOtp at hq
      split at hq
      · exact hq
      · split_ifs at hq
        · exact (List.mem_filter.mp hq).1
        · exact hq
        · split at hq
          · exact hq
          · exact (List.mem_filter.mp hq).1
    exact IssuedBy.append _ _ _ _ _ (hinv p (hsub p hp))

/-- Every entry of `otpStore` was put there by a `sendOtp` call of the calls made so far. -/
theorem issued_run (numberText : JsNumber → String) (calls : List OtpCall) :
    ∀ (pre : List OtpCall) (st : VerificationState),
      (∀ p ∈ st.otpStore, IssuedBy pre p.1 p.2.code (p.2.expiresAt - 5 * 60 * 1000)) →
      ∀ p ∈ (runOtpCalls numberText st calls).otpStore,
        IssuedBy (pre ++ calls) p.1 p.2.code (p.2.expiresAt - 5 * 60 * 1000) := by
  induction calls with
  | nil =>
    intro pre st hinv
    simpa [runOtpCalls] using hinv
  | cons call rest ih =>
    intro pre st hinv
    have h := ih (pre ++ [call]) (call.run numberText st) (issued_step numberText pre st call hinv)
    simpa [runOtpCalls] using h

theorem otpGet_mem (m : List (String × OtpEntry)) (email : String) (entry : OtpEntry)
    (h : otpGet m email = some entry) : (email, entry) ∈ m := by
  unfold otpGet at h
  cases hf : m.find? (fun p => p.1 = email) with
  | none => simp [hf] at h
  | some p =>
    have hm := List.mem_of_find?_eq_some hf
    have he : p.1 = email := by simpa using List.find?_some hf
    have hp : p.2 = entry := by simpa [hf] using h
    have : p = (email, entry) := by
      rw [← he, ← hp]
    rw [← this]
    exact hm

/-- C30: after any calls of the verification service, begun with no code stored,
`verifyOtp(email, code)` returns ok only if a `sendOtp` call issued a code for that address,
no more than five minutes before, and the given code is the issued one; a successful
verification removes the code, so that every later `verifyOtp` for the address is refused
with `no_otp`; an expired code is removed and refused with `expired`; a wrong code is
refused with `invalid` and leaves the state as it is. -/
theorem C30_otp_verification (numberText : JsNumber → String) (start : VerificationState)
    (hstart : start.otpStore = []) (calls : List OtpCall) (now : Int) (email : String)
    (code : JsValue) :
    ((verifyOtp numberText (runOtpCalls numberText start calls) now email code).result =
        .ok .ok →
      (∃ issuedAt, IssuedBy calls email (jsToString numberText code) issuedAt ∧
        now - issuedAt ≤ 5 * 60 * 1000) ∧
      ∀ later again,
        (verifyOtp numberText
          (verifyOtp numberText (runOtpCalls numberText start calls) now email code).state
          later email again).result = .ok (.refused "no_otp")) ∧
    (∀ entry, otpGet (runOtpCalls numberText start calls).otpStore email = some entry →
      (now > entry.expiresAt →
        (verifyOtp numberText (runOtpCalls numberText start calls) now email code).result =
          .ok (.refused "expired") ∧
        otpGet (verifyOtp numberText (runOtpCalls numberText start calls) now email
          code).state.otpStore email = none) ∧
      (now ≤ entry.expiresAt → jsToString numberText code ≠ entry.code →
        (verifyOtp numberText (runOtpCalls numberText start calls) now email code).result =
          .ok (.refused "invalid") ∧
        (verifyOtp numberText (runOtpCalls numberText start calls) now email code).state =
          runOtpCalls numberText start calls)) := by
  have hinv := issued_run numberText calls [] start (by simp [hstart])
  rw [List.nil_append] at hinv
  generalize runOtpCalls numberText start calls = st at hinv ⊢
  refine ⟨?_, ?_⟩
  · intro hok
    cases hg : otpGet st.otpStore email with
    | none => simp [verifyOtp, hg] at hok
    | some entry =>
      by_cases hexp : now > entry.expiresAt
      · simp [verifyOtp, hg, hexp] at hok
      · by_cases hcode : jsToString numberText code = entry.code
        · cases ha : st.store.activateUser email with
          | none => simp [verifyOtp, hg, hexp, hcode, ha] at hok
          | some store1 =>
            refine ⟨⟨entry.expiresAt - 5 * 60 * 1000, ?_, ?_⟩, ?_⟩
            · rw [hcode]
              exact hinv (email, entry) (otpGet_mem _ _ _ hg)
            · have : now ≤ entry.expiresAt := not_lt.mp hexp
              linarith
            · intro later again
              have hstate : (verifyOtp numberText st now email code).state =
                  { store := store1, otpStore := otpDelete st.otpStore email } := by
                simp [verifyOtp, hg, hexp, hcode, ha]
              rw [hstate]
              simp [verifyOtp, otpGet_delete]
        · simp [verifyOtp, hg, hexp, hcode] at hok
  · intro entry hg
    refine ⟨?_, ?_⟩
    · intro hexp
      simp [verifyOtp, hg, hexp, otpGet_delete]
    · intro hle hcode
      have hexp : ¬ now > entry.expiresAt := not_lt.mpr hle
      simp [verifyOtp, hg, hexp, hcode]

/-- C30 (witness): a code `123456` is issued for `asha@example.org` at time 1000; the
verification at time 2000 with this code succeeds, and a code was issued at most five minutes
before; at time 400000 the code is expired, and the code `654321` is refused as invalid. -/
theorem C30_otp_verification_witness :
    (verifyOtp sampleNumberText
      (runOtpCalls sampleNumberText sampleVerification
        [.send 1000 "123456" false "asha@example.org"])
      2000 "asha@example.org" (.str "123456")).result = .ok .ok ∧
    (∃ issuedAt, IssuedBy [.send 1000 "123456" false "asha@example.org"] "asha@example.org"
        (jsToString sampleNumberText (.str "123456")) issuedAt ∧
      2000 - issuedAt ≤ 5 * 60 * 1000) ∧
    (verifyOtp sampleNumberText
      (runOtpCalls sampleNumberText sampleVerification
        [.send 1000 "123456" false "asha@example.org"])
      400000 "asha@example.org" (.str "123456")).result = .ok (.refused "expired") ∧
    (verifyOtp sampleNumberText
      (runOtpCalls sampleNumberText sampleVerification
        [.send 1000 "123456" false "asha@example.org"])
      2000 "asha@example.org" (.str "654321")).result = .ok (.refused "invalid") :=
  ⟨by decide,
    ((C30_otp_verification sampleNumberText sampleVerification rfl
      [.send 1000 "123456" false "asha@example.org"] 2000 "asha@example.org"
      (.str "123456")).1 (by decide)).1,
    (((C30_otp_verification sampleNumberText sampleVerification rfl
      [.send 1000 "123456" false "asha@example.org"] 400000 "asha@example.org"
      (.str "123456")).2 ⟨"123456", 301000⟩ (by decide)).1 (by decide)).1,
    (((C30_otp_verification sampleNumberText sampleVerification rfl
      [.send 1000 "123456" false "asha@example.org"] 2000 "asha@example.org"
      (.str "654321")).2 ⟨"123456", 301000⟩ (by decide)).2 (by decide) (by decide)).1⟩

end VoteByte
